import Mathlib

/-!
# Notification service: consumer-side processing pipeline

A shallow embedding of the worker of the notification service:

* `worker/src/services/notificationProcessor.js` (`NotificationProcessor`),
* `worker/src/consumers/notificationConsumer.js` (`NotificationConsumer`),
* `worker/src/rabbitmq.js` (`RabbitMQClient.consumeQueue`, `assertQueue`),

and of the producer side in the API process:

* `api/src/controllers/notificationController.js` (`NotificationController`),
* `api/src/services/notificationPublisher.js` (`NotificationPublisher`),
* `api/src/rabbitmq.js` (`RabbitMQClient.publishToQueue`, `assertQueue`).

Asynchronous JavaScript functions become state-passing functions over a `World`
(the table `notifications`, the scripted faults of the store and of the broker,
the retry map of the consumer and one trace of every external call).  A rejected
promise or a thrown exception is `Except.error`; `try / catch / finally` blocks are
written out as matches on the result of the protected block.  Calls to the logger
have no effect on the state and are left out.

## The store and the broker

PostgreSQL and RabbitMQ are outside the repository.  They are modelled as follows.

* Every call to `pool.connect()` and to `client.query(...)` takes the next entry of
  `World.dbFaults`: `some e` makes the call reject with `e` without any effect on the
  table, `none` (or an exhausted script) makes it succeed.
* `BEGIN` remembers the table, `ROLLBACK` restores it, `COMMIT` forgets the remembered
  table.  A transaction that is still open when the client is released is aborted.
* `NOW()` is the clock of the world, which advances when a client is checked out.
* `channel.assertQueue` and `channel.sendToQueue` take the next entry of
  `World.mqFaults` in the same manner; `channel.ack` and `channel.nack` always succeed.
* No uniqueness constraint is built into INSERT: a violated constraint is one of the
  scripted faults (a `JsError` with code `"23505"`).  The table definition is not part
  of the sources; the two column defaults it decides are `Schema.defaultRetriesAttempted`
  and `Schema.defaultCreatedAt`.
* One fault script and one connection at a time: the calls of one worker run one after
  the other, and what another worker does to the table shows only as a scripted fault.
-/

/-! ## JSON values and `JSON.stringify` -/

/-- A JSON value.  Numbers are restricted to integers: a JavaScript number is an IEEE 754
double, and a number with a fraction (29.99), a non-finite one or an integer that is no
double (2^53 + 1) is not a value of the model.  The code never computes with a number
it receives; the controller only tests a value for being falsy and for its type. -/
inductive Json where
  | null : Json
  | bool (b : Bool) : Json
  | num (n : Int) : Json
  | str (s : String) : Json
  | arr (xs : List Json) : Json
  | obj (kvs : List (String × Json)) : Json

/-- Hexadecimal digit (lower case) of a number below sixteen. -/
def Json.hexDigit (n : Nat) : Char :=
  if n < 10 then Char.ofNat (48 + n) else Char.ofNat (87 + n)

/-- Escape of one character inside a JSON string literal (ECMAScript `QuoteJSONString`). -/
def Json.escapeChar (c : Char) : List Char :=
  if c = Char.ofNat 34 then [Char.ofNat 92, Char.ofNat 34]
  else if c = Char.ofNat 92 then [Char.ofNat 92, Char.ofNat 92]
  else if c = Char.ofNat 8 then [Char.ofNat 92, 'b']
  else if c = Char.ofNat 12 then [Char.ofNat 92, 'f']
  else if c = Char.ofNat 10 then [Char.ofNat 92, 'n']
  else if c = Char.ofNat 13 then [Char.ofNat 92, 'r']
  else if c = Char.ofNat 9 then [Char.ofNat 92, 't']
  else if c.toNat < 32 then
    [Char.ofNat 92, 'u', '0', '0', Json.hexDigit (c.toNat / 16), Json.hexDigit (c.toNat % 16)]
  else [c]

/-- A string as a quoted JSON string literal. -/
def Json.quote (s : String) : String :=
  String.mk ([Char.ofNat 34] ++ (s.data.map Json.escapeChar).flatten ++ [Char.ofNat 34])

mutual
/-- The text `JSON.stringify(v)` of a JSON value (no indentation).  An integer is printed
in plain decimal digits, which is what JavaScript prints for an integer of magnitude below
10^21; from there on JavaScript prints the exponent form (`1e+21`), which is not modelled. -/
def Json.stringify : Json → String
  | .null => "null"
  | .bool b => if b then "true" else "false"
  | .num n => toString n
  | .str s => Json.quote s
  | .arr xs => "[" ++ Json.stringifyItems xs ++ "]"
  | .obj kvs => "\x7b" ++ Json.stringifyFields kvs ++ "\x7d"
/-- The comma separated elements of an array. -/
def Json.stringifyItems : List Json → String
  | [] => ""
  | [x] => x.stringify
  | x :: y :: xs => x.stringify ++ "," ++ Json.stringifyItems (y :: xs)
/-- The comma separated members of an object. -/
def Json.stringifyFields : List (String × Json) → String
  | [] => ""
  | [(k, v)] => Json.quote k ++ ":" ++ v.stringify
  | (k, v) :: kv :: kvs =>
    Json.quote k ++ ":" ++ v.stringify ++ "," ++ Json.stringifyFields (kv :: kvs)
end

/-! ## Data model -/

/-- A JavaScript error value: its `message`, and the `code` the store driver attaches
to a server error (`"23505"` is a violation of a uniqueness constraint). -/
structure JsError where
  message : String
  code : Option String := none
  deriving DecidableEq, Repr

/-- The decoded body of a queue message. -/
structure MessageData where
  messageId : String
  targetUserId : String
  type : String
  payload : Json
  timestamp : String

/-- One row of the table `notifications`. -/
structure NotificationRecord where
  id : Nat
  userId : String
  type : String
  payload : String
  messageId : String
  status : String
  retriesAttempted : Nat
  errorMessage : Option String
  createdAt : Option Nat
  processedAt : Option Nat
  deriving DecidableEq, Repr

/-- The statements the processor sends to the store, with their parameters. -/
inductive Sql where
  | begin : Sql
  | commit : Sql
  | rollback : Sql
  /-- Statement `SELECT id, status FROM notifications WHERE message_id = $1`. -/
  | selectIdStatus (messageId : String) : Sql
  /-- Statement `INSERT INTO notifications (user_id, type, payload, message_id, status, created_at)
  VALUES ($1, $2, $3, $4, $5, NOW()) RETURNING id`. -/
  | insertNotification (userId type payload messageId status : String) : Sql
  /-- Statement `UPDATE notifications SET processed_at = NOW() WHERE id = $1`. -/
  | updateProcessedAt (id : Nat) : Sql
  /-- Statement `SELECT id, retries_attempted FROM notifications WHERE message_id = $1`. -/
  | selectIdRetries (messageId : String) : Sql
  /-- Statement `INSERT INTO notifications (user_id, type, payload, message_id, status,
  retries_attempted, error_message) VALUES ($1, ..., $7)`. -/
  | insertFailure (userId type payload messageId status : String) (retriesAttempted : Nat)
      (errorMessage : String) : Sql
  /-- Statement `UPDATE notifications SET retries_attempted = $1, status = $2, error_message = $3
  WHERE message_id = $4`. -/
  | updateFailure (retriesAttempted : Nat) (status errorMessage messageId : String) : Sql
  deriving DecidableEq, Repr

/-- The object published to the dead-letter queue: the fields of the message, then
`failedAt`, `error` and `reason`. -/
structure DlqMessage where
  messageId : String
  targetUserId : String
  type : String
  payload : Json
  timestamp : String
  failedAt : Nat
  error : String
  reason : String

/-- The options `sendToDLQ` passes to `channel.sendToQueue`. -/
structure PublishOptions where
  persistent : Bool
  contentType : String
  deriving DecidableEq, Repr

/-- A call that leaves the process: to the store or to the broker. -/
inductive Event where
  | connect : Event
  | query (q : Sql) : Event
  | release : Event
  | assertQueue (queueName : String) : Event
  | sendToQueue (queueName : String) (body : DlqMessage) (options : PublishOptions) : Event
  | ack (deliveryTag : Nat) : Event
  | nack (deliveryTag : Nat) (allUpTo requeue : Bool) : Event

/-- The state the worker runs in. -/
structure World where
  /-- The committed rows of the table `notifications` (while a client is checked out:
  the rows as its connection sees them). -/
  rows : List NotificationRecord
  /-- The next value of the `id` sequence. -/
  nextId : Nat
  /-- The clock. -/
  now : Nat
  /-- Scripted outcomes of the coming `connect` and `query` calls. -/
  dbFaults : List (Option JsError)
  /-- Scripted outcomes of the coming `assertQueue` and `sendToQueue` calls. -/
  mqFaults : List (Option JsError)
  /-- The map `NotificationConsumer.messageRetryMap`, in insertion order. -/
  messageRetryMap : List (String × Nat)
  /-- Every external call so far, oldest first. -/
  trace : List Event

/-- The variables of `process.env` the worker reads. -/
structure Env where
  MAX_RETRIES : Option Nat
  DLQ_NAME : Option String

/-! ## The store client -/

/-- A client checked out of the pool: the world as its connection sees it, and the
table as it was at `BEGIN` while a transaction is open. -/
structure Client where
  world : World
  snapshot : Option (List NotificationRecord)

/-- The head of a script of outcomes; an exhausted script means success. -/
def Faults.next (fs : List (Option JsError)) : Option JsError :=
  fs.headD none

/-- The scripted outcome of the next call to the store: `none` is success. -/
def World.nextDbFault (w : World) : Option JsError :=
  Faults.next w.dbFaults

/-- Bookkeeping of a call to the store: it is traced and its scripted outcome is used up. -/
def World.logDb (ev : Event) (w : World) : World :=
  { w with trace := w.trace ++ [ev], dbFaults := w.dbFaults.tail }

/-- The world once `pool.connect()` has been called: the call is traced, its scripted
outcome used up and the clock advanced. -/
def World.connecting (w : World) : World :=
  { w.logDb Event.connect with now := w.now + 1 }

/-- The client a successful `pool.connect()` hands out: no transaction is open. -/
def World.checkout (w : World) : Client :=
  { world := w.connecting, snapshot := none }

/-- Checking a client out of the pool: `pool.connect()`. -/
def Pool.connect (w : World) : Except (JsError × World) Client :=
  match w.nextDbFault with
  | some e => .error (e, w.connecting)
  | none => .ok w.checkout

/-- The table as it will be if the open transaction, if any, is aborted. -/
def Client.committed (c : Client) : List NotificationRecord :=
  c.snapshot.getD c.world.rows

/-- Modelled from the spec: the table definition is not part of the sources; the
column `retries_attempted` is a non-negative integer that starts at zero. -/
def Schema.defaultRetriesAttempted : Nat := 0

/-- Modelled from the spec: the table definition is not part of the sources; the
column `created_at` is set when the row is first persisted, so it defaults to `NOW()`. -/
def Schema.defaultCreatedAt (now : Nat) : Option Nat := some now

/-- The effect and the result rows of a statement that succeeds. -/
def Client.exec (q : Sql) (c : Client) : List NotificationRecord × Client :=
  match q with
  | .begin =>
    ([], { c with snapshot := some c.committed })
  | .commit =>
    ([], { c with snapshot := none })
  | .rollback =>
    ([], { world := { c.world with rows := c.committed }, snapshot := none })
  | .selectIdStatus messageId =>
    (c.world.rows.filter (fun r => r.messageId = messageId), c)
  | .selectIdRetries messageId =>
    (c.world.rows.filter (fun r => r.messageId = messageId), c)
  | .insertNotification userId type payload messageId status =>
    let row : NotificationRecord :=
      { id := c.world.nextId, userId := userId, type := type, payload := payload,
        messageId := messageId, status := status,
        retriesAttempted := Schema.defaultRetriesAttempted,
        errorMessage := none, createdAt := some c.world.now, processedAt := none }
    ([row], { c with world := { c.world with rows := c.world.rows ++ [row],
                                             nextId := c.world.nextId + 1 } })
  | .updateProcessedAt id =>
    ([], { c with world := { c.world with rows := c.world.rows.map (fun r =>
      if r.id = id then { r with processedAt := some c.world.now } else r) } })
  | .insertFailure userId type payload messageId status retriesAttempted errorMessage =>
    let row : NotificationRecord :=
      { id := c.world.nextId, userId := userId, type := type, payload := payload,
        messageId := messageId, status := status, retriesAttempted := retriesAttempted,
        errorMessage := some errorMessage,
        createdAt := Schema.defaultCreatedAt c.world.now, processedAt := none }
    ([], { c with world := { c.world with rows := c.world.rows ++ [row],
                                          nextId := c.world.nextId + 1 } })
  | .updateFailure retriesAttempted status errorMessage messageId =>
    ([], { c with world := { c.world with rows := c.world.rows.map (fun r =>
      if r.messageId = messageId then
        { r with retriesAttempted := retriesAttempted, status := status,
                 errorMessage := some errorMessage }
      else r) } })

/-- The client once a statement has been sent: the call is traced and its scripted
outcome used up; the table is as before. -/
def Client.sent (q : Sql) (c : Client) : Client :=
  { c with world := c.world.logDb (Event.query q) }

/-- One statement sent with `client.query(...)`. -/
def Client.query (q : Sql) (c : Client) : Except JsError (List NotificationRecord) × Client :=
  match c.world.nextDbFault with
  | some e => (.error e, c.sent q)
  | none => (.ok (Client.exec q (c.sent q)).1, (Client.exec q (c.sent q)).2)

/-- The client after a list of statements has been sent in turn, whatever their outcomes. -/
def Client.play (qs : List Sql) (c : Client) : Client :=
  qs.foldl (fun c q => (c.query q).2) c

/-- Returning the client to the pool: `client.release()`. -/
def Client.release (c : Client) : World :=
  { c.world with rows := c.committed,
                 trace := c.world.trace ++ [Event.release] }

/-! ## `NotificationProcessor` -/

/-- The processor object: `this.maxRetries` (the pool is part of the world). -/
structure NotificationProcessor where
  maxRetries : Nat

/-- The constructor: `this.maxRetries = parseInt(process.env.MAX_RETRIES || 3, 10)`. -/
def NotificationProcessor.new (env : Env) : NotificationProcessor :=
  { maxRetries := match env.MAX_RETRIES with
                  | some n => n
                  | none => 3 }

/-- The object `processNotification` resolves to. -/
structure ProcessResult where
  success : Bool
  reason : Option String
  messageId : String
  notificationId : Option Nat
  deriving DecidableEq, Repr

/-- The object `NotificationProcessor.handleFailure` resolves to. -/
structure FailureResult where
  shouldRetry : Bool
  newRetryCount : Nat
  deriving DecidableEq, Repr

/-- The `TypeError` of reading a property of `undefined` (`rows[0].id` on no rows). -/
def JsError.typeError : JsError :=
  { message := "Cannot read properties of undefined", code := none }

/-- The `try` block of `processNotification`. -/
def NotificationProcessor.processNotification.tryBlock (messageData : MessageData)
    (client : Client) : Except JsError ProcessResult × Client :=
  match client.query .begin with
  | (.error e, client) => (.error e, client)
  | (.ok _, client) =>
  match client.query (.selectIdStatus messageData.messageId) with
  | (.error e, client) => (.error e, client)
  | (.ok existingResult, client) =>
  if existingResult.length > 0 then
    match client.query .rollback with
    | (.error e, client) => (.error e, client)
    | (.ok _, client) =>
      (.ok { success := true, reason := some "Duplicate message (idempotency)",
             messageId := messageData.messageId, notificationId := none }, client)
  else
  match client.query (.insertNotification messageData.targetUserId messageData.type
      messageData.payload.stringify messageData.messageId "processed") with
  | (.error e, client) => (.error e, client)
  | (.ok result, client) =>
  match result.head? with
  | none => (.error JsError.typeError, client)
  | some row0 =>
  match client.query (.updateProcessedAt row0.id) with
  | (.error e, client) => (.error e, client)
  | (.ok _, client) =>
  match client.query .commit with
  | (.error e, client) => (.error e, client)
  | (.ok _, client) =>
    (.ok { success := true, reason := none, messageId := messageData.messageId,
           notificationId := some row0.id }, client)

/-- `NotificationProcessor.processNotification`: connect, run the `try` block, on an
exception send `ROLLBACK` and rethrow, and in every case release the client. -/
def NotificationProcessor.processNotification (_self : NotificationProcessor)
    (messageData : MessageData) (w : World) : Except JsError ProcessResult × World :=
  match Pool.connect w with
  | .error (e, w) => (.error e, w)
  | .ok client =>
    match NotificationProcessor.processNotification.tryBlock messageData client with
    | (.ok r, client) => (.ok r, client.release)
    | (.error error, client) =>
      match client.query .rollback with
      | (.error rollbackError, client) => (.error rollbackError, client.release)
      | (.ok _, client) => (.error error, client.release)

/-- The `try` block of `NotificationProcessor.handleFailure`. -/
def NotificationProcessor.handleFailure.tryBlock (self : NotificationProcessor)
    (messageData : MessageData) (error : JsError) (retryCount : Nat) (client : Client) :
    Except JsError FailureResult × Client :=
  match client.query (.selectIdRetries messageData.messageId) with
  | (.error e, client) => (.error e, client)
  | (.ok checkResult, client) =>
  let shouldRetry : Bool := decide (retryCount < self.maxRetries)
  match checkResult.head? with
  | none =>
    let newRetryCount := retryCount + 1
    let status := if shouldRetry then "pending" else "failed"
    match client.query (.insertFailure messageData.targetUserId messageData.type
        messageData.payload.stringify messageData.messageId status newRetryCount
        error.message) with
    | (.error e, client) => (.error e, client)
    | (.ok _, client) =>
      (.ok { shouldRetry := shouldRetry, newRetryCount := retryCount + 1 }, client)
  | some row0 =>
    let newRetryCount := row0.retriesAttempted + 1
    let status := if shouldRetry then "pending" else "failed"
    match client.query (.updateFailure newRetryCount status error.message
        messageData.messageId) with
    | (.error e, client) => (.error e, client)
    | (.ok _, client) =>
      (.ok { shouldRetry := shouldRetry, newRetryCount := retryCount + 1 }, client)

/-- `NotificationProcessor.handleFailure`: connect, run the `try` block (no transaction
is opened), rethrow an exception, and in every case release the client. -/
def NotificationProcessor.handleFailure (self : NotificationProcessor)
    (messageData : MessageData) (error : JsError) (retryCount : Nat) (w : World) :
    Except JsError FailureResult × World :=
  match Pool.connect w with
  | .error (e, w) => (.error e, w)
  | .ok client =>
    match NotificationProcessor.handleFailure.tryBlock self messageData error retryCount
        client with
    | (.ok r, client) => (.ok r, client.release)
    | (.error dbError, client) => (.error dbError, client.release)

/-! ## The retry map -/

/-- Lookup `Map.prototype.get`: the value stored under a key, if any. -/
def RetryMap.get (m : List (String × Nat)) (k : String) : Option Nat :=
  (m.find? (fun kv => kv.1 = k)).map (fun kv => kv.2)

/-- Removal `Map.prototype.delete`. -/
def RetryMap.delete (m : List (String × Nat)) (k : String) : List (String × Nat) :=
  m.filter (fun kv => ¬ kv.1 = k)

/-- Update `Map.prototype.set`: overwrite the value of a present key in place, append
an absent key. -/
def RetryMap.set (m : List (String × Nat)) (k : String) (v : Nat) : List (String × Nat) :=
  if (m.find? (fun kv => kv.1 = k)).isSome then
    m.map (fun kv => if kv.1 = k then (k, v) else kv)
  else m ++ [(k, v)]

/-! ## The broker channel -/

/-- A delivery handed to the consumer callback by `channel.consume`. -/
structure Delivery where
  content : String
  deliveryTag : Nat
  deriving DecidableEq, Repr

/-- The scripted outcome of the next fallible call to the broker: `none` is success. -/
def World.nextMqFault (w : World) : Option JsError :=
  Faults.next w.mqFaults

/-- Bookkeeping of a fallible call to the broker: it is traced and its scripted outcome
is used up. -/
def World.logMq (ev : Event) (w : World) : World :=
  { w with trace := w.trace ++ [ev], mqFaults := w.mqFaults.tail }

/-- A broker call that may fail: it is traced, then the next scripted outcome applies. -/
def Channel.call (ev : Event) (w : World) : Except JsError Unit × World :=
  match w.nextMqFault with
  | some e => (.error e, w.logMq ev)
  | none => (.ok (), w.logMq ev)

/-- `RabbitMQClient.assertQueue`: `channel.assertQueue`, an exception is logged and
rethrown. -/
def RabbitMQClient.assertQueue (queueName : String) (w : World) : Except JsError Unit × World :=
  match Channel.call (.assertQueue queueName) w with
  | (.ok (), w) => (.ok (), w)
  | (.error error, w) => (.error error, w)

/-- The call `channel.sendToQueue(queueName, Buffer.from(JSON.stringify(body)), options)`. -/
def Channel.sendToQueue (queueName : String) (body : DlqMessage) (options : PublishOptions)
    (w : World) : Except JsError Unit × World :=
  Channel.call (.sendToQueue queueName body options) w

/-- The call `channel.ack(msg)`. -/
def Channel.ack (msg : Delivery) (w : World) : World :=
  { w with trace := w.trace ++ [Event.ack msg.deliveryTag] }

/-- The call `channel.nack(msg, allUpTo, requeue)`. -/
def Channel.nack (msg : Delivery) (allUpTo requeue : Bool) (w : World) : World :=
  { w with trace := w.trace ++ [Event.nack msg.deliveryTag allUpTo requeue] }

/-! ## `NotificationConsumer` -/

/-- The consumer object: its processor and the environment it reads (the broker client
and `messageRetryMap` are part of the world). -/
structure NotificationConsumer where
  notificationProcessor : NotificationProcessor
  env : Env

/-- The verdict `processMessage` resolves to; `requeue` is absent on success. -/
structure Verdict where
  success : Bool
  requeue : Option Bool
  message : String
  deriving DecidableEq, Repr

/-- The name `process.env.DLQ_NAME || "notifications_dlq"`. -/
def NotificationConsumer.dlqName (env : Env) : String :=
  match env.DLQ_NAME with
  | some s => if s = "" then "notifications_dlq" else s
  | none => "notifications_dlq"

/-- `NotificationConsumer.sendToDLQ`: assert the dead-letter queue, publish the message
with `failedAt`, `error` and `reason` added; every exception is caught and logged. -/
def NotificationConsumer.sendToDLQ (self : NotificationConsumer) (messageData : MessageData)
    (originalError : JsError) (w : World) : Except JsError Unit × World :=
  let dlqName := NotificationConsumer.dlqName self.env
  match RabbitMQClient.assertQueue dlqName w with
  | (.error _, w) => (.ok (), w)
  | (.ok (), w) =>
    let dlqMessage : DlqMessage :=
      { messageId := messageData.messageId, targetUserId := messageData.targetUserId,
        type := messageData.type, payload := messageData.payload,
        timestamp := messageData.timestamp, failedAt := w.now,
        error := originalError.message, reason := "Max retries exceeded" }
    match Channel.sendToQueue dlqName dlqMessage
        { persistent := true, contentType := "application/json" } w with
    | (.error _, w) => (.ok (), w)
    | (.ok (), w) => (.ok (), w)

/-- `NotificationConsumer.handleFailure`: ask the processor for the retry decision with
the count of the retry map, then requeue or dead-letter; an exception of the `try` block
gives the verdict "Critical error, message rejected". -/
def NotificationConsumer.handleFailure (self : NotificationConsumer)
    (messageData : MessageData) (error : JsError) (_msg : Delivery) (w : World) :
    Except JsError Verdict × World :=
  let currentRetry := (RetryMap.get w.messageRetryMap messageData.messageId).getD 0
  match self.notificationProcessor.handleFailure messageData error currentRetry w with
  | (.error _, w) =>
    (.ok { success := false, requeue := some false,
           message := "Critical error, message rejected" }, w)
  | (.ok failureResult, w) =>
    if failureResult.shouldRetry then
      (.ok { success := false, requeue := some true, message := "Message requeued for retry" },
       { w with messageRetryMap :=
           RetryMap.set w.messageRetryMap messageData.messageId (currentRetry + 1) })
    else
      match self.sendToDLQ messageData error w with
      | (.error _, w) =>
        (.ok { success := false, requeue := some false,
               message := "Critical error, message rejected" }, w)
      | (.ok (), w) =>
        (.ok { success := false, requeue := some false,
               message := "Message moved to DLQ after max retries" },
         { w with messageRetryMap := RetryMap.delete w.messageRetryMap messageData.messageId })

/-- `NotificationConsumer.processMessage`: process the notification; on success clear
the retry count, on an exception hand over to `handleFailure`. -/
def NotificationConsumer.processMessage (self : NotificationConsumer)
    (messageData : MessageData) (msg : Delivery) (w : World) :
    Except JsError Verdict × World :=
  match self.notificationProcessor.processNotification messageData w with
  | (.ok _, w) =>
    (.ok { success := true, requeue := none,
           message := "Notification processed successfully" },
     { w with messageRetryMap := RetryMap.delete w.messageRetryMap messageData.messageId })
  | (.error error, w) => self.handleFailure messageData error msg w

/-! ## `RabbitMQClient.consumeQueue` -/

/-- The handler `consumeQueue` registers with `channel.consume`: parse the body, call
the callback and translate its verdict into `ack` or `nack`; any exception (of the
parser or of the callback) gives `nack` without requeue.  `parse` is `JSON.parse`
followed by the reading of the message fields. -/
def RabbitMQClient.consumeQueue.onMessage (parse : String → Except JsError MessageData)
    (callback : MessageData → Delivery → World → Except JsError Verdict × World)
    (msg : Option Delivery) (w : World) : World :=
  match msg with
  | none => w
  | some msg =>
    match parse msg.content with
    | .error _ => Channel.nack msg false false w
    | .ok content =>
      match callback content msg w with
      | (.error _, w) => Channel.nack msg false false w
      | (.ok result, w) =>
        if result.success then Channel.ack msg w
        else if result.requeue = some true then Channel.nack msg false true w
        else Channel.nack msg false false w

/-- The handler of a running worker: `startConsuming` passes `processMessage` as the
callback of `consumeQueue`. -/
def NotificationConsumer.onDelivery (self : NotificationConsumer)
    (parse : String → Except JsError MessageData) (msg : Delivery) (w : World) : World :=
  RabbitMQClient.consumeQueue.onMessage parse (self.processMessage) (some msg) w

/-! ## Observations used in the properties -/

/-- The rows recorded for a message identifier. -/
def World.recordsFor (w : World) (messageId : String) : List NotificationRecord :=
  w.rows.filter (fun r => r.messageId = messageId)

/-- The message identifiers of the rows of the table, in table order. -/
def World.messageIds (w : World) : List String :=
  w.rows.map (fun r => r.messageId)

/-- The table holds at most one record per message identifier. -/
def World.UniquePerMessageId (w : World) : Prop :=
  ∀ messageId : String, (w.recordsFor messageId).length ≤ 1

/-- One call of the processor, as the consumer or a test makes it. -/
inductive ProcessorCall where
  | processNotification (messageData : MessageData) : ProcessorCall
  | handleFailure (messageData : MessageData) (error : JsError) (retryCount : Nat) :
      ProcessorCall

/-- One call run on a world: whether it resolved (`true`) or threw, and the world after. -/
def ProcessorCall.run (P : NotificationProcessor) (call : ProcessorCall) (w : World) :
    Bool × World :=
  match call with
  | .processNotification messageData =>
    match P.processNotification messageData w with
    | (.ok _, w) => (true, w)
    | (.error _, w) => (false, w)
  | .handleFailure messageData error retryCount =>
    match P.handleFailure messageData error retryCount w with
    | (.ok _, w) => (true, w)
    | (.error _, w) => (false, w)

/-- A sequence of calls run one after the other: the outcome of each and the final world. -/
def ProcessorCall.runAll (P : NotificationProcessor) :
    List ProcessorCall → World → List Bool × World
  | [], w => ([], w)
  | call :: calls, w =>
    ((call.run P w).1 :: (ProcessorCall.runAll P calls (call.run P w).2).1,
     (ProcessorCall.runAll P calls (call.run P w).2).2)

/-- The first `n` coming calls to the store are scripted to succeed. -/
def Faults.healthy : Nat → List (Option JsError) → Prop
  | 0, _ => True
  | n + 1, fs => Faults.next fs = none ∧ Faults.healthy n fs.tail

/-- Whether an event is a call to the store. -/
def Event.isStore : Event → Bool
  | .connect => true
  | .query _ => true
  | .release => true
  | _ => false

/-- Whether an event is a transport action on a delivery: `ack` or `nack`. -/
def Event.isTransport : Event → Bool
  | .ack _ => true
  | .nack _ _ _ => true
  | _ => false

/-- Whether an event publishes a dead-letter message for the given message identifier. -/
def Event.isDeadLetterOf (messageId : String) : Event → Bool
  | .sendToQueue _ body _ => decide (body.messageId = messageId)
  | _ => false

/-- The number of dead-letter messages published so far for a message identifier. -/
def World.deadLettered (w : World) (messageId : String) : Nat :=
  w.trace.countP (Event.isDeadLetterOf messageId)

/-- The verdict of a delivery that is requeued. -/
def Verdict.requeued : Verdict :=
  { success := false, requeue := some true, message := "Message requeued for retry" }

/-- The verdict of a delivery that is dead-lettered. -/
def Verdict.deadLettered : Verdict :=
  { success := false, requeue := some false,
    message := "Message moved to DLQ after max retries" }

/-- The verdict of a delivery whose failure handling threw. -/
def Verdict.critical : Verdict :=
  { success := false, requeue := some false, message := "Critical error, message rejected" }

/-- The verdict of a delivery that was processed. -/
def Verdict.processed : Verdict :=
  { success := true, requeue := none, message := "Notification processed successfully" }

/-- The count the consumer reads from its retry map: `messageRetryMap.get(id) || 0`. -/
def World.currentRetry (w : World) (messageId : String) : Nat :=
  (RetryMap.get w.messageRetryMap messageId).getD 0

/-- A delivery on which processing fails and the failure is recorded: `processNotification`
throws and `NotificationProcessor.handleFailure`, called with the count of the retry
map, resolves. -/
def NotificationConsumer.processingFails (self : NotificationConsumer)
    (messageData : MessageData) (w : World) : Bool :=
  match self.notificationProcessor.processNotification messageData w with
  | (.ok _, _) => false
  | (.error error, w1) =>
    match self.notificationProcessor.handleFailure messageData error
        (w1.currentRetry messageData.messageId) w1 with
    | (.ok _, _) => true
    | (.error _, _) => false

/-- The verdicts of `n` successive deliveries of one message to `processMessage`, and the
world after them. -/
def NotificationConsumer.deliveries (self : NotificationConsumer) (messageData : MessageData)
    (msg : Delivery) : Nat → World → List (Except JsError Verdict) × World
  | 0, w => ([], w)
  | n + 1, w =>
    ((self.processMessage messageData msg w).1 ::
       (NotificationConsumer.deliveries self messageData msg n
          (self.processMessage messageData msg w).2).1,
     (NotificationConsumer.deliveries self messageData msg n
          (self.processMessage messageData msg w).2).2)

/-- Processing fails, and the failure is recorded, on each of `n` successive deliveries. -/
def NotificationConsumer.failsOnEveryDelivery (self : NotificationConsumer)
    (messageData : MessageData) (msg : Delivery) : Nat → World → Prop
  | 0, _ => True
  | n + 1, w =>
    self.processingFails messageData w = true ∧
    NotificationConsumer.failsOnEveryDelivery self messageData msg n
      (self.processMessage messageData msg w).2

/-- Whether an event is an `ack`. -/
def Event.isAck : Event → Bool
  | .ack _ => true
  | _ => false

/-- Whether an event is a `nack` without requeue. -/
def Event.isReject : Event → Bool
  | .nack _ _ requeue => !requeue
  | _ => false

/-- Whether an event publishes to a queue. -/
def Event.isPublish : Event → Bool
  | .sendToQueue _ _ _ => true
  | _ => false

/-! ## Sample inputs -/

/-- The environment with no variable set: `maxRetries` is 3, the dead-letter queue is
`notifications_dlq`. -/
def Sample.env : Env :=
  { MAX_RETRIES := none, DLQ_NAME := none }

/-- The processor of the default environment. -/
def Sample.processor : NotificationProcessor :=
  NotificationProcessor.new Sample.env

/-- The consumer of the default environment. -/
def Sample.consumer : NotificationConsumer :=
  { notificationProcessor := Sample.processor, env := Sample.env }

/-- The message of scenario A. -/
def Sample.m1 : MessageData :=
  { messageId := "m1", targetUserId := "u1", type := "email",
    payload := .obj [("subject", .str "x")], timestamp := "2024-01-01T00:00:00.000Z" }

/-- The message of scenario C. -/
def Sample.m2 : MessageData :=
  { messageId := "m2", targetUserId := "u2", type := "sms",
    payload := .obj [("body", .str "y")], timestamp := "2024-01-01T00:00:01.000Z" }

/-- An empty table, a healthy store and broker, an empty retry map. -/
def Sample.world : World :=
  { rows := [], nextId := 1, now := 100, dbFaults := [], mqFaults := [],
    messageRetryMap := [], trace := [] }

/-- The delivery that carries a sample message. -/
def Sample.delivery : Delivery :=
  { content := "body", deliveryTag := 7 }

/-- An error of the store. -/
def Sample.dbError : JsError :=
  { message := "connection terminated", code := none }

/-- The script of store outcomes of one delivery on which BEGIN fails and the failure is
recorded: connect, BEGIN (fails), ROLLBACK, then connect, lookup, INSERT or UPDATE. -/
def Sample.failingDelivery : List (Option JsError) :=
  [none, some Sample.dbError, none, none, none, none]

/-- The sample world with a store on which BEGIN fails on four successive deliveries. -/
def Sample.failingWorld : World :=
  { Sample.world with
    dbFaults := Sample.failingDelivery ++ Sample.failingDelivery ++ Sample.failingDelivery ++
      Sample.failingDelivery }

/-- The sample world after the message of scenario A has been processed. -/
def Sample.processedWorld : World :=
  { Sample.world with
    rows := [{ id := 1, userId := "u1", type := "email", payload := "payload",
               messageId := "m1", status := "processed", retriesAttempted := 0,
               errorMessage := none, createdAt := some 101, processedAt := some 101 }],
    nextId := 2, now := 101 }

/-- A sequence of processor calls on the message of scenario A. -/
def Sample.calls : List ProcessorCall :=
  [.processNotification Sample.m1, .handleFailure Sample.m1 Sample.dbError 0,
   .processNotification Sample.m1, .processNotification Sample.m2]

/-- The sample world with a store on which BEGIN fails and the next checkout fails too:
processing fails and so does the recording of the failure. -/
def Sample.brokenWorld : World :=
  { Sample.world with dbFaults := [none, some Sample.dbError, none, some Sample.dbError] }

/-- The parser that decodes every body as the message of scenario C. -/
def Sample.parse (_content : String) : Except JsError MessageData :=
  .ok Sample.m2

/-- The consumer of an environment with `MAX_RETRIES=0`: the first failure is terminal. -/
def Sample.consumer0 : NotificationConsumer :=
  { notificationProcessor := NotificationProcessor.new { MAX_RETRIES := some 0, DLQ_NAME := none },
    env := { MAX_RETRIES := some 0, DLQ_NAME := none } }

/-- The sample world with a store on which BEGIN fails once. -/
def Sample.failingOnceWorld : World :=
  { Sample.world with dbFaults := Sample.failingDelivery }

/-- The error of the store driver for a violated uniqueness constraint on `message_id`. -/
def Sample.uniqueViolation : JsError :=
  { message := "duplicate key value violates unique constraint", code := some "23505" }

/-- The sample world with a store on which the INSERT of `processNotification` fails with
a uniqueness violation: another consumer persisted the message after the lookup. -/
def Sample.racingWorld : World :=
  { Sample.world with dbFaults := [none, none, none, some Sample.uniqueViolation] }

/-- Whether an event is the return of a client to the pool. -/
def Event.isRelease : Event → Bool
  | .release => true
  | _ => false

/-- The parser that rejects every body: `JSON.parse` throws a `SyntaxError`. -/
def Sample.parseError (_content : String) : Except JsError MessageData :=
  .error { message := "Unexpected token in JSON", code := none }

/-- The error of a ROLLBACK sent on a connection that is gone. -/
def Sample.rollbackError : JsError :=
  { message := "Client has encountered a connection error and is not queryable",
    code := none }

/-- The sample world with a store on which the INSERT of `processNotification` fails and
the ROLLBACK that follows fails too (the connection is lost). -/
def Sample.lostConnectionWorld : World :=
  { Sample.world with
    dbFaults := [none, none, none, some Sample.dbError, some Sample.rollbackError] }

/-- The second row is the first one up to `retriesAttempted`, `status` and
`errorMessage`, and is the first one itself when its message identifier is not the given
one. -/
def NotificationRecord.FailureUpdateOf (messageId : String) (r r' : NotificationRecord) :
    Prop :=
  r'.id = r.id ∧ r'.messageId = r.messageId ∧ r'.userId = r.userId ∧ r'.type = r.type ∧
  r'.payload = r.payload ∧ r'.createdAt = r.createdAt ∧ r'.processedAt = r.processedAt ∧
  (r.messageId ≠ messageId → r' = r)

/-- Every record with status "processed" has `processedAt` set. -/
def World.ProcessedHaveProcessedAt (w : World) : Prop :=
  ∀ r ∈ w.rows, r.status = "processed" → r.processedAt ≠ none

/-- A duplicate delivery of the message of scenario A that fails: the message is processed,
then a failure is recorded for it. -/
def Sample.processedThenFailed : List ProcessorCall :=
  [.processNotification Sample.m1, .handleFailure Sample.m1 Sample.dbError 0]

/-- Whether a statement persists the failure state of a message identifier: the INSERT
or the UPDATE of `NotificationProcessor.handleFailure`. -/
def Sql.persistsFailure (messageId : String) : Sql → Bool
  | .insertFailure _ _ _ mid _ _ _ => decide (mid = messageId)
  | .updateFailure _ _ _ mid => decide (mid = messageId)
  | _ => false

/-! ## The API process: request values

`api/src/controllers/notificationController.js` and
`api/src/services/notificationPublisher.js` run in the API process, which has a world
of its own: the identifiers `uuidv4()` hands out, the clock, the scripted outcomes of the
broker calls and one trace of them.  A value of the request body is `undefined` (`none`)
or a JSON value. -/

/-- The member of an object stored under a key: the last one when a key is repeated, as
`JSON.parse` keeps it. -/
def Json.member (key : String) (kvs : List (String × Json)) : Option Json :=
  ((kvs.filter (fun kv => kv.1 = key)).getLast?).map (fun kv => kv.2)

/-- Whether a JSON value is `null`. -/
def Json.isNull : Json → Bool
  | .null => true
  | _ => false

/-- The property read `value[key]` of the destructuring `const \x7b key \x7d = value`:
`undefined` when the value has no such property (an array, a string, a number and a
boolean have none of the three the controller reads), a `TypeError` on `null`. -/
def Json.getProp (key : String) : Json → Except JsError (Option Json)
  | .null => .error { message := "Cannot destructure property of null", code := none }
  | .obj kvs => .ok (Json.member key kvs)
  | _ => .ok none

/-- JavaScript truthiness of a value that is `undefined` or a JSON value: the falsy ones
are `undefined`, `null`, `false`, `0` and the empty string. -/
def Js.truthy : Option Json → Bool
  | none => false
  | some .null => false
  | some (.bool b) => b
  | some (.num n) => decide (n ≠ 0)
  | some (.str s) => decide (s ≠ "")
  | some (.arr _) => true
  | some (.obj _) => true

/-- The result of `typeof value`. -/
def Js.typeof : Option Json → String
  | none => "undefined"
  | some .null => "object"
  | some (.bool _) => "boolean"
  | some (.num _) => "number"
  | some (.str _) => "string"
  | some (.arr _) => "object"
  | some (.obj _) => "object"

/-- Whether a JSON value is an object (not an array, not `null`). -/
def Json.isObject : Json → Bool
  | .obj _ => true
  | _ => false

/-- Whether a JSON value is an array. -/
def Json.isArray : Json → Bool
  | .arr _ => true
  | _ => false

/-- The test `value === null`. -/
def Js.isNull : Option Json → Bool
  | some .null => true
  | _ => false

/-! ## The API process: data model -/

/-- The argument of `NotificationPublisher.publish`. -/
structure NotificationData where
  targetUserId : Option Json
  type : Option Json
  payload : Option Json

/-- The object `NotificationPublisher.publish` resolves to. -/
structure PublishResult where
  messageId : String
  status : String
  deriving DecidableEq, Repr

/-- The message `publish` sends to the queue: `timestamp` is the reading of the clock
that `new Date().toISOString()` prints. -/
structure QueueMessage where
  messageId : String
  targetUserId : Option Json
  type : Option Json
  payload : Option Json
  timestamp : Nat

/-- A call the API process makes: to the publisher (as a test double records it) or to
the broker. -/
inductive ApiEvent where
  | publish (notificationData : NotificationData) : ApiEvent
  | assertQueue (queueName : String) : ApiEvent
  | sendToQueue (queueName : String) (body : QueueMessage) (options : PublishOptions) : ApiEvent

/-- The state the API process runs in. -/
structure ApiWorld where
  /-- The identifiers `uuidv4()` returns, by the number of the call. -/
  uuidSource : Nat → String
  /-- The number of calls of `uuidv4()` so far. -/
  uuidCount : Nat
  /-- The clock. -/
  now : Nat
  /-- Scripted outcomes of the coming `assertQueue` and `sendToQueue` calls: an exception,
  or the value returned (the flag `published` of `sendToQueue`). -/
  mqOutcomes : List (Except JsError Bool)
  /-- Every call so far, oldest first. -/
  trace : List ApiEvent

/-- The request, as far as the controller reads it: `req.body` (`undefined` when no body
was parsed). -/
structure Request where
  body : Option Json

/-- The response the controller sends: `res.status(status).json(body)`. -/
structure Response where
  status : Nat
  body : Json

/-! ## The API process: `RabbitMQClient.publishToQueue` -/

/-- A call to the broker: it is traced, then the next scripted outcome applies (an
exhausted script means success, `published` being true). -/
def Api.Channel.call (ev : ApiEvent) (w : ApiWorld) : Except JsError Bool × ApiWorld :=
  (w.mqOutcomes.headD (.ok true),
   { w with trace := w.trace ++ [ev], mqOutcomes := w.mqOutcomes.tail })

/-- The method `assertQueue` of `api/src/rabbitmq.js`: `channel.assertQueue`, an exception
is logged and rethrown. -/
def Api.RabbitMQClient.assertQueue (queueName : String) (w : ApiWorld) :
    Except JsError Unit × ApiWorld :=
  match Api.Channel.call (.assertQueue queueName) w with
  | (.ok _, w) => (.ok (), w)
  | (.error error, w) => (.error error, w)

/-- The method `publishToQueue` of `api/src/rabbitmq.js`: assert the queue, send the
message persistently and return the flag of `channel.sendToQueue`; an exception is logged
and rethrown. -/
def Api.RabbitMQClient.publishToQueue (queueName : String) (message : QueueMessage)
    (w : ApiWorld) : Except JsError Bool × ApiWorld :=
  match Api.RabbitMQClient.assertQueue queueName w with
  | (.error error, w) => (.error error, w)
  | (.ok (), w) =>
    match Api.Channel.call (.sendToQueue queueName message
        { persistent := true, contentType := "application/json" }) w with
    | (.error error, w) => (.error error, w)
    | (.ok published, w) => (.ok published, w)

/-! ## `NotificationPublisher` -/

/-- The call `uuidv4()`: the next identifier of the source. -/
def ApiWorld.uuidv4 (w : ApiWorld) : String × ApiWorld :=
  (w.uuidSource w.uuidCount, { w with uuidCount := w.uuidCount + 1 })

/-- `NotificationPublisher.publish`: draw a message identifier, build the message and
publish it to `notifications_queue`; an exception is logged and rethrown. -/
def NotificationPublisher.publish (notificationData : NotificationData) (w : ApiWorld) :
    Except JsError PublishResult × ApiWorld :=
  match w.uuidv4 with
  | (messageId, w) =>
    let message : QueueMessage :=
      { messageId := messageId, targetUserId := notificationData.targetUserId,
        type := notificationData.type, payload := notificationData.payload,
        timestamp := w.now }
    match Api.RabbitMQClient.publishToQueue "notifications_queue" message w with
    | (.error error, w) => (.error error, w)
    | (.ok _, w) => (.ok { messageId := messageId, status := "queued" }, w)

/-! ## `NotificationController` -/

/-- The controller object: `this.notificationPublisher`, given by its method `publish`. -/
structure NotificationController where
  notificationPublisher : NotificationData → ApiWorld → Except JsError PublishResult × ApiWorld

/-- The response to a request without the required fields. -/
def Response.missingFields : Response :=
  { status := 400,
    body := .obj [("error", .str "Bad Request"),
                  ("message", .str "Missing required fields: targetUserId, type, payload")] }

/-- The response to a request whose payload is not of type object. -/
def Response.invalidPayload : Response :=
  { status := 400,
    body := .obj [("error", .str "Bad Request"),
                  ("message", .str "Payload must be a JSON object")] }

/-- The response to an accepted request. -/
def Response.accepted (result : PublishResult) : Response :=
  { status := 202,
    body := .obj [("messageId", .str result.messageId), ("status", .str result.status),
                  ("message", .str "Notification accepted for processing")] }

/-- The response after an exception. -/
def Response.internalError : Response :=
  { status := 500,
    body := .obj [("error", .str "Internal Server Error"),
                  ("message", .str "Failed to process notification")] }

/-- The `try` block of `createNotification`. -/
def NotificationController.createNotification.tryBlock (self : NotificationController)
    (req : Request) (w : ApiWorld) : Except JsError Response × ApiWorld :=
  match req.body with
  | none => (.error { message := "Cannot destructure property of undefined", code := none }, w)
  | some body =>
  match Json.getProp "targetUserId" body, Json.getProp "type" body,
      Json.getProp "payload" body with
  | .ok targetUserId, .ok type, .ok payload =>
    if !Js.truthy targetUserId || !Js.truthy type || !Js.truthy payload then
      (.ok Response.missingFields, w)
    else if Js.typeof payload != "object" || Js.isNull payload then
      (.ok Response.invalidPayload, w)
    else
      match self.notificationPublisher
          { targetUserId := targetUserId, type := type, payload := payload } w with
      | (.error error, w) => (.error error, w)
      | (.ok result, w) => (.ok (Response.accepted result), w)
  | .error e, _, _ => (.error e, w)
  | _, .error e, _ => (.error e, w)
  | _, _, .error e => (.error e, w)

/-- `NotificationController.createNotification`: validate the body, publish, respond 202;
any exception gives the response 500. -/
def NotificationController.createNotification (self : NotificationController)
    (req : Request) (w : ApiWorld) : Response × ApiWorld :=
  match NotificationController.createNotification.tryBlock self req w with
  | (.ok response, w) => (response, w)
  | (.error _, w) => (Response.internalError, w)

/-! ## Observations and sample inputs of the API process -/

/-- Whether an event is a call of the publisher. -/
def ApiEvent.isPublish : ApiEvent → Bool
  | .publish _ => true
  | _ => false

/-- Whether an event sends a message to a queue. -/
def ApiEvent.isSend : ApiEvent → Bool
  | .sendToQueue _ _ _ => true
  | _ => false

/-- A test double of the publisher, as `jest.fn()` gives one: it records the call and
settles with the given outcome. -/
def Mock.publisher (outcome : Except JsError PublishResult)
    (notificationData : NotificationData) (w : ApiWorld) :
    Except JsError PublishResult × ApiWorld :=
  (outcome, { w with trace := w.trace ++ [ApiEvent.publish notificationData] })

/-- The result the test double of the controller tests resolves with. -/
def Sample.publishResult : PublishResult :=
  { messageId := "test-message-id", status := "queued" }

/-- The controller of the controller tests: its publisher is a test double that resolves. -/
def Sample.controller : NotificationController :=
  { notificationPublisher := Mock.publisher (.ok Sample.publishResult) }

/-- The controller whose publisher rejects with "RabbitMQ error". -/
def Sample.failingController : NotificationController :=
  { notificationPublisher :=
      Mock.publisher (.error { message := "RabbitMQ error", code := none }) }

/-- The controller of the running application: its publisher is `NotificationPublisher`. -/
def Sample.appController : NotificationController :=
  { notificationPublisher := NotificationPublisher.publish }

/-- A world of the API process: a healthy broker, nothing called yet. -/
def Sample.apiWorld : ApiWorld :=
  { uuidSource := fun n => "uuid-" ++ toString n, uuidCount := 0, now := 500,
    mqOutcomes := [], trace := [] }

/-- A world of the API process whose broker rejects the assertion of the queue. -/
def Sample.apiWorldBrokerDown : ApiWorld :=
  { Sample.apiWorld with
    mqOutcomes := [.error { message := "RabbitMQ connection failed", code := none }] }

/-- The body of the first controller test. -/
def Sample.body : Json :=
  .obj [("targetUserId", .str "9fc81fdd-fc9c-49e3-9df1-a36df7e1ec5a"),
        ("type", .str "email"),
        ("payload", .obj [("subject", .str "Test"), ("message", .str "Test message")])]

/-- The body of the first controller test with another payload. -/
def Sample.bodyWithPayload (payload : Json) : Json :=
  .obj [("targetUserId", .str "9fc81fdd-fc9c-49e3-9df1-a36df7e1ec5a"),
        ("type", .str "email"), ("payload", payload)]

/-- An error of the broker channel. -/
def Sample.mqError : JsError :=
  { message := "Channel closed", code := none }

/-- The sample world with a store on which BEGIN fails once and a broker that rejects
the assertion of the dead-letter queue. -/
def Sample.dlqAssertFailsWorld : World :=
  { Sample.failingOnceWorld with mqFaults := [some Sample.mqError] }

/-- The sample world with a store on which BEGIN fails once and a broker that asserts
the dead-letter queue and then rejects the publish. -/
def Sample.dlqSendFailsWorld : World :=
  { Sample.failingOnceWorld with mqFaults := [none, some Sample.mqError] }

/-- The sample world with a store on which BEGIN fails on two successive deliveries and,
on the second one, the checkout of `NotificationProcessor.handleFailure` fails too. -/
def Sample.outageWorld : World :=
  { Sample.world with
    dbFaults := Sample.failingDelivery ++ [none, some Sample.dbError, none, some Sample.dbError] }

/-! ## Observations on statements -/

/-- The payload parameter of a statement that inserts a record. -/
def Sql.insertedPayload : Sql → Option String
  | .insertNotification _ _ payload _ _ => some payload
  | .insertFailure _ _ payload _ _ _ _ => some payload
  | _ => none

/-! # Properties -/

theorem Client.query_cases (q : Sql) (c : Client) :
    (∃ e, c.query q = (.error e, c.sent q)) ∨
    c.query q = (.ok (Client.exec q (c.sent q)).1, (Client.exec q (c.sent q)).2) := by
  unfold Client.query
  cases c.world.nextDbFault <;> simp

@[simp] theorem Client.sent_rows (q : Sql) (c : Client) : (c.sent q).world.rows = c.world.rows := rfl
@[simp] theorem Client.sent_snapshot (q : Sql) (c : Client) : (c.sent q).snapshot = c.snapshot := rfl
@[simp] theorem Client.sent_committed (q : Sql) (c : Client) : (c.sent q).committed = c.committed := rfl

theorem processNotification_tryBlock_rows (m : MessageData) (c : Client) (hc : c.snapshot = none) :
    (∀ e c', NotificationProcessor.processNotification.tryBlock m c = (.error e, c') →
        c'.committed = c.world.rows) ∧
    (∀ r c', NotificationProcessor.processNotification.tryBlock m c = (.ok r, c') →
        c'.snapshot = none ∧
        ((c'.world.rows = c.world.rows ∧ c.world.rows.filter (fun r => r.messageId = m.messageId) ≠ []) ∨
         (c.world.rows.filter (fun r => r.messageId = m.messageId) = [] ∧
           ∃ row : NotificationRecord, row.messageId = m.messageId ∧
             c'.world.rows.map (fun r => r.messageId)
               = (c.world.rows ++ [row]).map (fun r => r.messageId)))) := by
  unfold NotificationProcessor.processNotification.tryBlock
  rcases Client.query_cases .begin c with ⟨e, h⟩ | h <;> rw [h] <;> dsimp only
  · simp [Client.committed, hc]
  generalize hc1 : (Client.exec Sql.begin (Client.sent Sql.begin c)).2 = c1
  have r1 : c1.world.rows = c.world.rows := by subst hc1; simp [Client.exec]
  have s1 : c1.snapshot = some c.world.rows := by subst hc1; simp [Client.exec, Client.committed, hc]
  rcases Client.query_cases (.selectIdStatus m.messageId) c1 with ⟨e, h⟩ | h <;> rw [h] <;> dsimp only
  · simp [Client.committed, s1]
  generalize hc2 : (Client.exec (Sql.selectIdStatus m.messageId) (Client.sent (Sql.selectIdStatus m.messageId) c1)).2 = c2
  have r2 : c2.world.rows = c.world.rows := by subst hc2; simp [Client.exec, r1]
  have s2 : c2.snapshot = some c.world.rows := by subst hc2; simp [Client.exec, s1]
  have hres : (Client.exec (Sql.selectIdStatus m.messageId) (Client.sent (Sql.selectIdStatus m.messageId) c1)).1
      = c.world.rows.filter (fun r => r.messageId = m.messageId) := by simp [Client.exec, r1]
  rw [hres]
  by_cases hlen : (c.world.rows.filter (fun r => r.messageId = m.messageId)).length > 0
  · rw [if_pos hlen]
    have hne : c.world.rows.filter (fun r => r.messageId = m.messageId) ≠ [] :=
      List.ne_nil_of_length_pos hlen
    rcases Client.query_cases .rollback c2 with ⟨e, h⟩ | h <;> rw [h] <;> dsimp only
    · simp [Client.committed, s2]
    · simp [Client.exec, Client.committed, s2, hne]
  rw [if_neg hlen]
  have hnil : c.world.rows.filter (fun r => r.messageId = m.messageId) = [] := by
    simpa using hlen
  generalize hq3 : Sql.insertNotification m.targetUserId m.type m.payload.stringify
      m.messageId "processed" = q3
  rcases Client.query_cases q3 c2 with ⟨e, h⟩ | h <;> rw [h] <;> dsimp only
  · simp [Client.committed, s2]
  generalize hc3 : (Client.exec q3 (Client.sent q3 c2)).2 = c3
  generalize hrow : (Client.exec q3 (Client.sent q3 c2)).1 = res3
  subst hq3
  have s3 : c3.snapshot = some c.world.rows := by subst hc3; simp [Client.exec, s2]
  obtain ⟨row, hrowid, hres3, r3⟩ : ∃ row : NotificationRecord, row.messageId = m.messageId ∧
      res3 = [row] ∧ c3.world.rows = c.world.rows ++ [row] := by
    subst hc3 hrow
    simp [Client.exec, r2]
  subst hres3
  simp only [List.head?_cons]
  rcases Client.query_cases (.updateProcessedAt row.id) c3 with ⟨e, h⟩ | h <;> rw [h] <;> dsimp only
  · simp [Client.committed, s3]
  generalize hc4 : (Client.exec (.updateProcessedAt row.id) (Client.sent (.updateProcessedAt row.id) c3)).2 = c4
  have s4 : c4.snapshot = some c.world.rows := by subst hc4; simp [Client.exec, s3]
  have r4 : c4.world.rows.map (fun r => r.messageId)
      = (c.world.rows ++ [row]).map (fun r => r.messageId) := by
    subst hc4
    simp only [Client.exec, Client.sent_rows, r3, List.map_map]
    apply List.map_congr_left
    intro a _
    simp only [Function.comp]
    split <;> rfl
  rcases Client.query_cases .commit c4 with ⟨e, h⟩ | h <;> rw [h] <;> dsimp only
  · simp [Client.committed, s4]
  · simp only [Client.exec, Client.sent_rows, Client.sent_snapshot]
    simp [hnil]
    exact ⟨row, hrowid, by simpa using r4⟩


theorem filter_messageId_eq_nil_iff (rows : List NotificationRecord) (mid : String) :
    rows.filter (fun r => r.messageId = mid) = [] ↔ mid ∉ rows.map (fun r => r.messageId) := by
  simp only [List.filter_eq_nil_iff, List.mem_map, decide_eq_true_eq, not_exists, not_and]

theorem processNotification_messageIds (P : NotificationProcessor) (m : MessageData) (w : World) :
    (∀ e w', P.processNotification m w = (.error e, w') → w'.rows = w.rows) ∧
    (∀ r w', P.processNotification m w = (.ok r, w') →
        ((w'.rows = w.rows ∧ m.messageId ∈ w.messageIds) ∨
         (m.messageId ∉ w.messageIds ∧ w'.messageIds = w.messageIds ++ [m.messageId]))) := by
  unfold NotificationProcessor.processNotification Pool.connect
  cases hf : w.nextDbFault with
  | some e => simp [World.logDb, World.connecting]
  | none =>
    dsimp only
    generalize hc0 : w.checkout = c0
    have r0 : c0.world.rows = w.rows := by subst hc0; rfl
    have s0 : c0.snapshot = none := by subst hc0; rfl
    have key := processNotification_tryBlock_rows m c0 s0
    rcases hres : NotificationProcessor.processNotification.tryBlock m c0 with ⟨res, c1⟩
    cases res with
    | error err =>
      have hcomm := key.1 err c1 hres
      dsimp only
      rcases Client.query_cases .rollback c1 with ⟨e, h⟩ | h <;> rw [h] <;> dsimp only
      · simp [Client.release, hcomm, r0]
      · simp [Client.release, Client.exec, Client.committed] at hcomm ⊢
        simp [hcomm, r0]
    | ok r =>
      obtain ⟨hs, hcase⟩ := key.2 r c1 hres
      dsimp only
      simp only [Client.release, Client.committed, hs, Option.getD_none, World.messageIds,
        reduceCtorEq, false_implies, implies_true, true_and, Prod.mk.injEq, and_imp,
        forall_eq_apply_imp_iff, forall_eq]
      intro r' w' _ hw'
      subst hw'
      simp only
      rcases hcase with ⟨h1, h2⟩ | ⟨h1, row, h2, h3⟩
      · left
        refine ⟨by rw [h1, r0], ?_⟩
        rw [r0] at h2
        by_contra hcon
        exact h2 ((filter_messageId_eq_nil_iff _ _).2 hcon)
      · right
        rw [r0] at h1 h3
        refine ⟨(filter_messageId_eq_nil_iff _ _).1 h1, ?_⟩
        rw [h3]; simp [h2]

theorem handleFailure_tryBlock_messageIds (P : NotificationProcessor) (m : MessageData)
    (err : JsError) (n : Nat) (c : Client) (hc : c.snapshot = none) :
    ((NotificationProcessor.handleFailure.tryBlock P m err n c).2.snapshot = none) ∧
    ((NotificationProcessor.handleFailure.tryBlock P m err n c).2.world.rows.map (fun r => r.messageId)
        = c.world.rows.map (fun r => r.messageId) ∨
     (m.messageId ∉ c.world.rows.map (fun r => r.messageId) ∧
      (NotificationProcessor.handleFailure.tryBlock P m err n c).2.world.rows.map (fun r => r.messageId)
        = c.world.rows.map (fun r => r.messageId) ++ [m.messageId])) := by
  unfold NotificationProcessor.handleFailure.tryBlock
  rcases Client.query_cases (.selectIdRetries m.messageId) c with ⟨e, h⟩ | h <;> rw [h] <;>
    dsimp only
  · simp [hc]
  generalize hc1 : (Client.exec (.selectIdRetries m.messageId)
      (Client.sent (.selectIdRetries m.messageId) c)).2 = c1
  have r1 : c1.world.rows = c.world.rows := by subst hc1; simp [Client.exec]
  have s1 : c1.snapshot = none := by subst hc1; simp [Client.exec, hc]
  have hres : (Client.exec (.selectIdRetries m.messageId)
      (Client.sent (.selectIdRetries m.messageId) c)).1
      = c.world.rows.filter (fun r => r.messageId = m.messageId) := by simp [Client.exec]
  rw [hres]
  cases hhead : (c.world.rows.filter (fun r => r.messageId = m.messageId)).head? with
  | none =>
    dsimp only
    have hnil : m.messageId ∉ c.world.rows.map (fun r => r.messageId) := by
      rw [← filter_messageId_eq_nil_iff]
      simpa using hhead
    generalize hq : (Sql.insertFailure m.targetUserId m.type m.payload.stringify m.messageId
      (if decide (n < P.maxRetries) = true then "pending" else "failed") (n + 1) err.message)
      = q
    rcases Client.query_cases q c1 with ⟨e, h⟩ | h <;> rw [h] <;> dsimp only
    · simp [s1, r1]
    · subst hq
      simp only [Client.exec, Client.sent_snapshot, s1, Client.sent_rows, r1, true_and]
      right
      exact ⟨hnil, by simp⟩
  | some row0 =>
    dsimp only
    generalize hq : (Sql.updateFailure (row0.retriesAttempted + 1)
      (if decide (n < P.maxRetries) = true then "pending" else "failed") err.message
      m.messageId) = q
    rcases Client.query_cases q c1 with ⟨e, h⟩ | h <;> rw [h] <;> dsimp only
    · simp [s1, r1]
    · subst hq
      simp only [Client.exec, Client.sent_snapshot, s1, Client.sent_rows, r1, List.map_map,
        true_and]
      left
      apply List.map_congr_left
      intro a _
      simp only [Function.comp]
      split <;> rfl

theorem handleFailure_messageIds (P : NotificationProcessor) (m : MessageData)
    (err : JsError) (n : Nat) (w : World) :
    (P.handleFailure m err n w).2.messageIds = w.messageIds ∨
    (m.messageId ∉ w.messageIds ∧
      (P.handleFailure m err n w).2.messageIds = w.messageIds ++ [m.messageId]) := by
  unfold NotificationProcessor.handleFailure Pool.connect
  cases hf : w.nextDbFault with
  | some e => simp [World.logDb, World.messageIds, World.connecting]
  | none =>
    dsimp only
    generalize hc0 : w.checkout = c0
    have r0 : c0.world.rows = w.rows := by subst hc0; rfl
    have s0 : c0.snapshot = none := by subst hc0; rfl
    have key := handleFailure_tryBlock_messageIds P m err n c0 s0
    rcases hres : NotificationProcessor.handleFailure.tryBlock P m err n c0 with ⟨res, c1⟩
    rw [hres] at key
    simp only [r0] at key
    cases res <;> simpa [Client.release, Client.committed, key.1, World.messageIds] using key.2

theorem ProcessorCall.run_messageIds (P : NotificationProcessor) (call : ProcessorCall)
    (w : World) :
    (∃ mid, ((call.run P w).2.messageIds = w.messageIds ∨
      (mid ∉ w.messageIds ∧ (call.run P w).2.messageIds = w.messageIds ++ [mid])) ∧
      ∀ m, call = .processNotification m → (call.run P w).1 = true →
        m.messageId ∈ (call.run P w).2.messageIds) := by
  cases call with
  | processNotification m =>
    refine ⟨m.messageId, ?_⟩
    have key := processNotification_messageIds P m w
    unfold ProcessorCall.run
    rcases hres : P.processNotification m w with ⟨res, w'⟩
    rw [hres] at key
    simp only [hres]
    cases res with
    | error e =>
      have := key.1 e w' rfl
      simp [World.messageIds, this]
    | ok r =>
      rcases key.2 r w' rfl with ⟨h1, h2⟩ | ⟨h1, h2⟩
      · simp only [World.messageIds] at h2 ⊢
        simp only [h1, true_or, true_and]
        intro m' hm' _
        cases hm'
        exact h2
      · simp only [h1, h2, not_false_eq_true, and_self, or_true, true_and]
        intro m' hm' _
        cases hm'
        simp
  | handleFailure m err n =>
    refine ⟨m.messageId, ?_⟩
    have key := handleFailure_messageIds P m err n w
    unfold ProcessorCall.run
    rcases hres : P.handleFailure m err n w with ⟨res, w'⟩
    rw [hres] at key
    simp only [hres]
    cases res <;> simpa using key

theorem World.recordsFor_length (w : World) (mid : String) :
    (w.recordsFor mid).length = w.messageIds.count mid := by
  unfold World.recordsFor World.messageIds
  rw [List.count_eq_countP, List.countP_map, List.countP_eq_length_filter]
  congr 2

theorem World.uniquePerMessageId_iff (w : World) :
    w.UniquePerMessageId ↔ w.messageIds.Nodup := by
  unfold World.UniquePerMessageId
  rw [List.nodup_iff_count_le_one]
  simp only [World.recordsFor_length]

theorem ProcessorCall.run_nodup (P : NotificationProcessor) (call : ProcessorCall)
    (w : World) (h : w.messageIds.Nodup) : (call.run P w).2.messageIds.Nodup := by
  obtain ⟨mid, hcase, -⟩ := ProcessorCall.run_messageIds P call w
  rcases hcase with h1 | ⟨h1, h2⟩
  · rw [h1]; exact h
  · rw [h2]
    exact List.Nodup.append h (List.nodup_singleton mid) (by simpa using h1)

theorem ProcessorCall.run_subset (P : NotificationProcessor) (call : ProcessorCall)
    (w : World) : w.messageIds ⊆ (call.run P w).2.messageIds := by
  obtain ⟨mid, hcase, -⟩ := ProcessorCall.run_messageIds P call w
  rcases hcase with h1 | ⟨-, h2⟩
  · rw [h1]; exact List.Subset.refl _
  · rw [h2]; exact List.subset_append_left _ _

theorem ProcessorCall.runAll_nodup (P : NotificationProcessor) (calls : List ProcessorCall) :
    ∀ w : World, w.messageIds.Nodup → (ProcessorCall.runAll P calls w).2.messageIds.Nodup := by
  induction calls with
  | nil => intro w h; exact h
  | cons call calls ih =>
    intro w h
    exact ih _ (ProcessorCall.run_nodup P call w h)

theorem ProcessorCall.runAll_subset (P : NotificationProcessor) (calls : List ProcessorCall) :
    ∀ w : World, w.messageIds ⊆ (ProcessorCall.runAll P calls w).2.messageIds := by
  induction calls with
  | nil => intro w; exact List.Subset.refl _
  | cons call calls ih =>
    intro w
    exact List.Subset.trans (ProcessorCall.run_subset P call w) (ih _)

theorem ProcessorCall.runAll_success_mem (P : NotificationProcessor)
    (calls : List ProcessorCall) :
    ∀ (w : World) (i : Nat) (m : MessageData),
      calls[i]? = some (.processNotification m) →
      (ProcessorCall.runAll P calls w).1[i]? = some true →
      m.messageId ∈ (ProcessorCall.runAll P calls w).2.messageIds := by
  induction calls with
  | nil => intro w i m h; simp at h
  | cons call calls ih =>
    intro w i m hcall hres
    cases i with
    | zero =>
      simp only [List.getElem?_cons_zero, Option.some.injEq] at hcall
      simp only [ProcessorCall.runAll, List.getElem?_cons_zero, Option.some.injEq] at hres
      obtain ⟨_, -, hmem⟩ := ProcessorCall.run_messageIds P call w
      exact ProcessorCall.runAll_subset P calls _ (hmem m hcall hres)
    | succ j =>
      simp only [List.getElem?_cons_succ] at hcall
      simp only [ProcessorCall.runAll, List.getElem?_cons_succ] at hres
      exact ih _ j m hcall hres

/-- C1 (idempotency, sequential): from a table with at most one record per message
identifier, every sequence of `processNotification` and `handleFailure` calls, run one
after the other under any script of store faults, ends in a table with at most one
record per message identifier; and if some `processNotification` call of the sequence
resolved, the final table holds exactly one record with the identifier of its message. -/
theorem idempotency_sequential (P : NotificationProcessor) (calls : List ProcessorCall)
    (w : World) (h : w.UniquePerMessageId) :
    (ProcessorCall.runAll P calls w).2.UniquePerMessageId ∧
    ∀ (i : Nat) (m : MessageData),
      calls[i]? = some (.processNotification m) →
      (ProcessorCall.runAll P calls w).1[i]? = some true →
      ((ProcessorCall.runAll P calls w).2.recordsFor m.messageId).length = 1 := by
  rw [World.uniquePerMessageId_iff] at h ⊢
  have hnodup := ProcessorCall.runAll_nodup P calls w h
  refine ⟨hnodup, ?_⟩
  intro i m hcall hres
  rw [World.recordsFor_length]
  exact List.count_eq_one_of_mem hnodup (ProcessorCall.runAll_success_mem P calls w i m hcall hres)

/-! ### Statement lists: what a run of the processor sends to the store -/

theorem Client.exec_frame (q : Sql) (c : Client) :
    (Client.exec q c).2.world.messageRetryMap = c.world.messageRetryMap ∧
    (Client.exec q c).2.world.mqFaults = c.world.mqFaults ∧
    (Client.exec q c).2.world.trace = c.world.trace ∧
    (Client.exec q c).2.world.dbFaults = c.world.dbFaults ∧
    (Client.exec q c).2.world.now = c.world.now := by
  cases q <;> simp [Client.exec]

theorem Client.query_frame (q : Sql) (c : Client) :
    (c.query q).2.world.messageRetryMap = c.world.messageRetryMap ∧
    (c.query q).2.world.mqFaults = c.world.mqFaults ∧
    (c.query q).2.world.trace = c.world.trace ++ [Event.query q] ∧
    (c.query q).2.world.dbFaults = c.world.dbFaults.tail ∧
    (c.query q).2.world.now = c.world.now := by
  unfold Client.query
  cases c.world.nextDbFault with
  | some e => simp [Client.sent, World.logDb]
  | none =>
    have := Client.exec_frame q (c.sent q)
    simpa [Client.sent, World.logDb] using this

theorem Client.play_frame (qs : List Sql) :
    ∀ c : Client,
    (c.play qs).world.messageRetryMap = c.world.messageRetryMap ∧
    (c.play qs).world.mqFaults = c.world.mqFaults ∧
    (c.play qs).world.trace = c.world.trace ++ qs.map Event.query ∧
    (c.play qs).world.dbFaults = c.world.dbFaults.drop qs.length ∧
    (c.play qs).world.now = c.world.now := by
  induction qs with
  | nil => intro c; simp [Client.play]
  | cons q qs ih =>
    intro c
    have h1 := Client.query_frame q c
    have h2 := ih (c.query q).2
    simp only [Client.play, List.foldl_cons] at h2 ⊢
    obtain ⟨a1, a2, a3, a4, a5⟩ := h1
    obtain ⟨b1, b2, b3, b4, b5⟩ := h2
    refine ⟨by rw [b1, a1], by rw [b2, a2], by rw [b3, a3]; simp, ?_, by rw [b5, a5]⟩
    rw [b4, a4]; simp

/-- Either outcome of a statement, with the client after it named by `query` itself. -/
theorem Client.query_outcome (q : Sql) (c : Client) :
    (∃ e, c.query q = (.error e, (c.query q).2) ∧ (c.query q).2 = c.sent q) ∨
    (c.query q = (.ok (Client.exec q (c.sent q)).1, (c.query q).2) ∧
      (c.query q).2 = (Client.exec q (c.sent q)).2) := by
  unfold Client.query
  cases c.world.nextDbFault <;> simp

theorem Client.query_rows_of_readonly (q : Sql) (c : Client)
    (hq : q = .begin ∨ ∃ mid, q = .selectIdStatus mid ∨ q = .selectIdRetries mid) :
    (c.query q).2.world.rows = c.world.rows ∧ (c.query q).2.world.nextId = c.world.nextId := by
  unfold Client.query
  cases c.world.nextDbFault with
  | some e => simp [Client.sent, World.logDb]
  | none =>
    rcases hq with h | ⟨mid, h | h⟩ <;> subst h <;> simp [Client.exec, Client.sent, World.logDb]

/-- The statements of the `try` block of `processNotification`, by outcome. -/
theorem processNotification_tryBlock_path (m : MessageData) (c : Client) :
    ∃ qs : List Sql,
      (NotificationProcessor.processNotification.tryBlock m c).2 = c.play qs ∧
      (((∃ e, (NotificationProcessor.processNotification.tryBlock m c).1 = .error e) ∧
          (qs = [.begin] ∨ qs = [.begin, .selectIdStatus m.messageId] ∨
           (c.world.rows.filter (fun r => r.messageId = m.messageId) ≠ [] ∧
              qs = [.begin, .selectIdStatus m.messageId, .rollback]) ∨
           (c.world.rows.filter (fun r => r.messageId = m.messageId) = [] ∧
              (qs = [.begin, .selectIdStatus m.messageId,
                     .insertNotification m.targetUserId m.type m.payload.stringify
                       m.messageId "processed"] ∨
               qs = [.begin, .selectIdStatus m.messageId,
                     .insertNotification m.targetUserId m.type m.payload.stringify
                       m.messageId "processed", .updateProcessedAt c.world.nextId] ∨
               qs = [.begin, .selectIdStatus m.messageId,
                     .insertNotification m.targetUserId m.type m.payload.stringify
                       m.messageId "processed", .updateProcessedAt c.world.nextId,
                     .commit])))) ∨
       ((NotificationProcessor.processNotification.tryBlock m c).1 =
            .ok { success := true, reason := some "Duplicate message (idempotency)",
                  messageId := m.messageId, notificationId := none } ∧
          c.world.rows.filter (fun r => r.messageId = m.messageId) ≠ [] ∧
          qs = [.begin, .selectIdStatus m.messageId, .rollback]) ∨
       ((NotificationProcessor.processNotification.tryBlock m c).1 =
            .ok { success := true, reason := none, messageId := m.messageId,
                  notificationId := some c.world.nextId } ∧
          c.world.rows.filter (fun r => r.messageId = m.messageId) = [] ∧
          qs = [.begin, .selectIdStatus m.messageId,
                .insertNotification m.targetUserId m.type m.payload.stringify
                  m.messageId "processed", .updateProcessedAt c.world.nextId, .commit])) := by
  unfold NotificationProcessor.processNotification.tryBlock
  rcases Client.query_outcome .begin c with ⟨e, h, -⟩ | ⟨h, -⟩ <;> rw [h] <;> dsimp only
  · exact ⟨[.begin], rfl, Or.inl ⟨⟨e, rfl⟩, Or.inl rfl⟩⟩
  obtain ⟨r1, n1⟩ := Client.query_rows_of_readonly .begin c (Or.inl rfl)
  generalize hc1 : (c.query .begin).2 = c1 at *
  rcases Client.query_outcome (.selectIdStatus m.messageId) c1 with ⟨e, h, -⟩ | ⟨h, -⟩ <;>
    rw [h] <;> dsimp only
  · exact ⟨[.begin, .selectIdStatus m.messageId], by simp [Client.play, hc1],
      Or.inl ⟨⟨e, rfl⟩, Or.inr (Or.inl rfl)⟩⟩
  obtain ⟨r2, n2⟩ := Client.query_rows_of_readonly (.selectIdStatus m.messageId) c1
    (Or.inr ⟨_, Or.inl rfl⟩)
  have hres : (Client.exec (.selectIdStatus m.messageId)
      (Client.sent (.selectIdStatus m.messageId) c1)).1
      = c.world.rows.filter (fun r => r.messageId = m.messageId) := by
    simp [Client.exec, Client.sent, World.logDb, r1]
  rw [hres]
  generalize hc2 : (c1.query (.selectIdStatus m.messageId)).2 = c2 at *
  by_cases hlen : (c.world.rows.filter (fun r => r.messageId = m.messageId)).length > 0
  · rw [if_pos hlen]
    have hne : c.world.rows.filter (fun r => r.messageId = m.messageId) ≠ [] :=
      List.ne_nil_of_length_pos hlen
    rcases Client.query_outcome .rollback c2 with ⟨e, h, -⟩ | ⟨h, -⟩ <;> rw [h] <;> dsimp only
    · exact ⟨[.begin, .selectIdStatus m.messageId, .rollback],
        by simp [Client.play, hc1, hc2],
        Or.inl ⟨⟨e, rfl⟩, Or.inr (Or.inr (Or.inl ⟨hne, rfl⟩))⟩⟩
    · exact ⟨[.begin, .selectIdStatus m.messageId, .rollback],
        by simp [Client.play, hc1, hc2], Or.inr (Or.inl ⟨rfl, hne, rfl⟩)⟩
  rw [if_neg hlen]
  have hnil : c.world.rows.filter (fun r => r.messageId = m.messageId) = [] := by
    simpa using hlen
  generalize hq3 : Sql.insertNotification m.targetUserId m.type m.payload.stringify
      m.messageId "processed" = q3
  rcases Client.query_outcome q3 c2 with ⟨e, h, -⟩ | ⟨h, hc3⟩ <;> rw [h] <;> dsimp only
  · exact ⟨[.begin, .selectIdStatus m.messageId, q3], by simp [Client.play, hc1, hc2],
      Or.inl ⟨⟨e, rfl⟩, Or.inr (Or.inr (Or.inr ⟨hnil, Or.inl rfl⟩))⟩⟩
  obtain ⟨row, hrowid, hres3⟩ : ∃ row : NotificationRecord, row.id = c.world.nextId ∧
      (Client.exec q3 (Client.sent q3 c2)).1 = [row] := by
    subst hq3
    simp [Client.exec, Client.sent, World.logDb, n2, n1]
  rw [hres3]
  simp only [List.head?_cons, hrowid]
  generalize hc3' : (c2.query q3).2 = c3 at *
  rcases Client.query_outcome (.updateProcessedAt c.world.nextId) c3 with ⟨e, h, -⟩ | ⟨h, -⟩ <;>
    rw [h] <;> dsimp only
  · exact ⟨[.begin, .selectIdStatus m.messageId, q3, .updateProcessedAt c.world.nextId],
      by simp [Client.play, hc1, hc2, hc3'],
      Or.inl ⟨⟨e, rfl⟩, Or.inr (Or.inr (Or.inr ⟨hnil, Or.inr (Or.inl rfl)⟩))⟩⟩
  generalize hc4 : (c3.query (.updateProcessedAt c.world.nextId)).2 = c4 at *
  rcases Client.query_outcome .commit c4 with ⟨e, h, -⟩ | ⟨h, -⟩ <;> rw [h] <;> dsimp only
  · exact ⟨[.begin, .selectIdStatus m.messageId, q3, .updateProcessedAt c.world.nextId,
        .commit],
      by simp [Client.play, hc1, hc2, hc3', hc4],
      Or.inl ⟨⟨e, rfl⟩, Or.inr (Or.inr (Or.inr ⟨hnil, Or.inr (Or.inr rfl)⟩))⟩⟩
  · exact ⟨[.begin, .selectIdStatus m.messageId, q3, .updateProcessedAt c.world.nextId,
        .commit],
      by simp [Client.play, hc1, hc2, hc3', hc4], Or.inr (Or.inr ⟨rfl, hnil, rfl⟩)⟩

theorem Faults.healthy_succ (n : Nat) (fs : List (Option JsError)) :
    Faults.healthy (n + 1) fs ↔ Faults.next fs = none ∧ Faults.healthy n fs.tail := Iff.rfl

theorem filter_messageId_map_processedAt (rows : List NotificationRecord) (mid : String)
    (id : Nat) (t : Option Nat) :
    (rows.map (fun r => if r.id = id then { r with processedAt := t } else r)).filter
        (fun r => r.messageId = mid)
      = (rows.filter (fun r => r.messageId = mid)).map
          (fun r => if r.id = id then { r with processedAt := t } else r) := by
  induction rows with
  | nil => rfl
  | cons r rows ih =>
    by_cases hid : r.id = id <;> by_cases hm : r.messageId = mid <;>
      simp [List.filter_cons, hid, hm, ih]

/-- C2 (fresh message): for a message whose identifier has no record, when the six
store calls succeed (connect, BEGIN, lookup, INSERT, UPDATE, COMMIT), these statements
are sent in this order, the UPDATE names the identifier the store assigned to the
inserted row, the table then holds exactly one record for the message identifier (status
"processed", `userId` the target user, the type of the message, `processedAt` set), and
the call resolves with `success = true`, the message identifier and the assigned id. -/
theorem fresh_message (P : NotificationProcessor) (m : MessageData) (w : World)
    (hfresh : w.recordsFor m.messageId = [])
    (hdb : Faults.healthy 6 w.dbFaults) :
    (P.processNotification m w).2.trace =
        w.trace ++ [.connect, .query .begin, .query (.selectIdStatus m.messageId),
          .query (.insertNotification m.targetUserId m.type m.payload.stringify
            m.messageId "processed"),
          .query (.updateProcessedAt w.nextId), .query .commit, .release] ∧
    (P.processNotification m w).2.recordsFor m.messageId =
        [{ id := w.nextId, userId := m.targetUserId, type := m.type,
           payload := m.payload.stringify, messageId := m.messageId,
           status := "processed", retriesAttempted := 0, errorMessage := none,
           createdAt := some (w.now + 1), processedAt := some (w.now + 1) }] ∧
    (P.processNotification m w).1 =
        .ok { success := true, reason := none, messageId := m.messageId,
              notificationId := some w.nextId } := by
  simp only [Faults.healthy_succ] at hdb
  obtain ⟨h0, h1, h2, h3, h4, h5, -⟩ := hdb
  unfold World.recordsFor at hfresh
  have hrun : P.processNotification m w =
      (.ok { success := true, reason := none, messageId := m.messageId,
             notificationId := some w.nextId },
       { w with
         rows := (w.rows ++ [({ id := w.nextId, userId := m.targetUserId, type := m.type,
                                payload := m.payload.stringify, messageId := m.messageId,
                                status := "processed", retriesAttempted := 0,
                                errorMessage := none, createdAt := some (w.now + 1),
                                processedAt := none } : NotificationRecord)]).map
           (fun r => if r.id = w.nextId then { r with processedAt := some (w.now + 1) }
                     else r),
         nextId := w.nextId + 1,
         now := w.now + 1,
         dbFaults := w.dbFaults.tail.tail.tail.tail.tail.tail,
         trace := w.trace ++ [.connect, .query .begin, .query (.selectIdStatus m.messageId),
           .query (.insertNotification m.targetUserId m.type m.payload.stringify
             m.messageId "processed"),
           .query (.updateProcessedAt w.nextId), .query .commit, .release] }) := by
    simp [NotificationProcessor.processNotification,
      NotificationProcessor.processNotification.tryBlock, Pool.connect, Client.query,
      Client.exec, Client.sent, Client.release, Client.committed, World.logDb,
      World.connecting, World.checkout, World.nextDbFault, h0, h1, h2, h3, h4, h5, hfresh,
      Schema.defaultRetriesAttempted]
  rw [hrun]
  refine ⟨rfl, ?_, rfl⟩
  simp only [World.recordsFor]
  rw [filter_messageId_map_processedAt, List.filter_append, hfresh]
  simp

theorem Client.play_append_singleton (qs : List Sql) (q : Sql) (c : Client) :
    c.play (qs ++ [q]) = ((c.play qs).query q).2 := by
  simp [Client.play, List.foldl_append]

/-- The statements of a whole `processNotification` call, by outcome. -/
theorem processNotification_path (P : NotificationProcessor) (m : MessageData) (w : World) :
    (∃ e, w.nextDbFault = some e ∧ P.processNotification m w = (.error e, w.connecting)) ∨
    (w.nextDbFault = none ∧ ∃ qs : List Sql,
      (P.processNotification m w).2 = (w.checkout.play qs).release ∧
      (((∃ e, (P.processNotification m w).1 = .error e) ∧
          (qs = [.begin, .rollback] ∨
           qs = [.begin, .selectIdStatus m.messageId, .rollback] ∨
           (w.recordsFor m.messageId ≠ [] ∧
              qs = [.begin, .selectIdStatus m.messageId, .rollback, .rollback]) ∨
           (w.recordsFor m.messageId = [] ∧
              (qs = [.begin, .selectIdStatus m.messageId,
                     .insertNotification m.targetUserId m.type m.payload.stringify
                       m.messageId "processed", .rollback] ∨
               qs = [.begin, .selectIdStatus m.messageId,
                     .insertNotification m.targetUserId m.type m.payload.stringify
                       m.messageId "processed", .updateProcessedAt w.nextId, .rollback] ∨
               qs = [.begin, .selectIdStatus m.messageId,
                     .insertNotification m.targetUserId m.type m.payload.stringify
                       m.messageId "processed", .updateProcessedAt w.nextId,
                     .commit, .rollback])))) ∨
       ((P.processNotification m w).1 =
            .ok { success := true, reason := some "Duplicate message (idempotency)",
                  messageId := m.messageId, notificationId := none } ∧
          w.recordsFor m.messageId ≠ [] ∧
          qs = [.begin, .selectIdStatus m.messageId, .rollback]) ∨
       ((P.processNotification m w).1 =
            .ok { success := true, reason := none, messageId := m.messageId,
                  notificationId := some w.nextId } ∧
          w.recordsFor m.messageId = [] ∧
          qs = [.begin, .selectIdStatus m.messageId,
                .insertNotification m.targetUserId m.type m.payload.stringify
                  m.messageId "processed", .updateProcessedAt w.nextId, .commit]))) := by
  unfold NotificationProcessor.processNotification Pool.connect
  cases hf : w.nextDbFault with
  | some e => exact Or.inl ⟨e, rfl, rfl⟩
  | none =>
    refine Or.inr ⟨rfl, ?_⟩
    dsimp only
    obtain ⟨qs, hqs, hcase⟩ := processNotification_tryBlock_path m w.checkout
    have hrows : w.checkout.world.rows = w.rows := rfl
    have hid : w.checkout.world.nextId = w.nextId := rfl
    rw [hrows, hid] at hcase
    rcases hres : NotificationProcessor.processNotification.tryBlock m w.checkout with
      ⟨res, c1⟩
    rw [hres] at hqs hcase
    simp only at hqs hcase
    subst hqs
    rcases hcase with ⟨⟨e, he⟩, hpath⟩ | ⟨he, hR, hpath⟩ | ⟨he, hR, hpath⟩
    · subst he
      dsimp only
      refine ⟨qs ++ [.rollback], ?_, Or.inl ⟨?_, ?_⟩⟩
      · rw [Client.play_append_singleton]
        rcases Client.query_outcome .rollback (w.checkout.play qs) with ⟨e', h, -⟩ | ⟨h, -⟩ <;>
          rw [h]
      · rcases Client.query_outcome .rollback (w.checkout.play qs) with ⟨e', h, -⟩ | ⟨h, -⟩ <;>
          rw [h] <;> exact ⟨_, rfl⟩
      · unfold World.recordsFor
        rcases hpath with h | h | ⟨hR, h⟩ | ⟨hR, h | h | h⟩
        · subst h; simp
        · subst h; simp
        · subst h; exact Or.inr (Or.inr (Or.inl ⟨hR, rfl⟩))
        · subst h; exact Or.inr (Or.inr (Or.inr ⟨hR, Or.inl rfl⟩))
        · subst h; exact Or.inr (Or.inr (Or.inr ⟨hR, Or.inr (Or.inl rfl)⟩))
        · subst h; exact Or.inr (Or.inr (Or.inr ⟨hR, Or.inr (Or.inr rfl)⟩))
    · subst he
      exact ⟨qs, rfl, Or.inr (Or.inl ⟨rfl, hR, hpath⟩)⟩
    · subst he
      exact ⟨qs, rfl, Or.inr (Or.inr ⟨rfl, hR, hpath⟩)⟩

theorem Client.release_play_trace (qs : List Sql) (w : World) :
    (w.checkout.play qs).release.trace =
      w.trace ++ [Event.connect] ++ qs.map Event.query ++ [Event.release] := by
  have := (Client.play_frame qs w.checkout).2.2.1
  simp only [Client.release, this]
  simp [World.checkout, World.connecting, World.logDb]

theorem Client.release_play_frame (qs : List Sql) (w : World) :
    (w.checkout.play qs).release.messageRetryMap = w.messageRetryMap ∧
    (w.checkout.play qs).release.mqFaults = w.mqFaults ∧
    (w.checkout.play qs).release.now = w.now + 1 ∧
    (w.checkout.play qs).release.dbFaults = w.dbFaults.drop (qs.length + 1) := by
  obtain ⟨h1, h2, -, h4, h5⟩ := Client.play_frame qs w.checkout
  simp only [Client.release, h1, h2, h4, h5]
  refine ⟨rfl, rfl, rfl, ?_⟩
  simp [World.checkout, World.connecting, World.logDb]

/-- C3 (duplicate): for a message whose identifier already has a record, under any
script of store faults `processNotification` leaves the table as it was (so `createdAt`
of the existing record is not altered) and sends nothing but BEGIN, the lookup and
ROLLBACK (no INSERT, UPDATE or COMMIT); and when its four store calls succeed (connect,
BEGIN, lookup, ROLLBACK) it sends exactly BEGIN, the lookup and ROLLBACK and resolves with
`success = true` and reason "Duplicate message (idempotency)". -/
theorem duplicate_message (P : NotificationProcessor) (m : MessageData) (w : World)
    (hdup : w.recordsFor m.messageId ≠ []) :
    (P.processNotification m w).2.rows = w.rows ∧
    (∃ evs : List Event, (P.processNotification m w).2.trace = w.trace ++ evs ∧
      ∀ ev ∈ evs, ev = .connect ∨ ev = .query .begin ∨
        ev = .query (.selectIdStatus m.messageId) ∨ ev = .query .rollback ∨ ev = .release) ∧
    (Faults.healthy 4 w.dbFaults →
      (P.processNotification m w).1 =
          .ok { success := true, reason := some "Duplicate message (idempotency)",
                messageId := m.messageId, notificationId := none } ∧
      (P.processNotification m w).2.trace =
          w.trace ++ [.connect, .query .begin, .query (.selectIdStatus m.messageId),
            .query .rollback, .release]) := by
  refine ⟨?_, ?_, ?_⟩
  · have key := processNotification_messageIds P m w
    rcases hres : P.processNotification m w with ⟨res, w'⟩
    rw [hres] at key
    cases res with
    | error e => exact key.1 e w' rfl
    | ok r =>
      rcases key.2 r w' rfl with ⟨h1, -⟩ | ⟨h1, -⟩
      · exact h1
      · exact absurd ((filter_messageId_eq_nil_iff _ _).2 h1) hdup
  · rcases processNotification_path P m w with ⟨e, -, h⟩ | ⟨-, qs, hqs, hcase⟩
    · rw [h]
      exact ⟨[.connect], rfl, by simp⟩
    · rw [hqs, Client.release_play_trace]
      refine ⟨[Event.connect] ++ qs.map Event.query ++ [Event.release], by simp, ?_⟩
      rcases hcase with ⟨-, h | h | ⟨-, h⟩ | ⟨hR, -⟩⟩ | ⟨-, -, h⟩ | ⟨-, hR, -⟩
      · subst h; simp
      · subst h; simp
      · subst h; simp
      · exact absurd hR hdup
      · subst h; simp
      · exact absurd hR hdup
  · intro hdb
    simp only [Faults.healthy_succ] at hdb
    obtain ⟨h0, h1, h2, h3, -⟩ := hdb
    unfold World.recordsFor at hdup
    have hpos : 0 < (w.rows.filter (fun r => r.messageId = m.messageId)).length :=
      List.length_pos.mpr hdup
    constructor <;>
    simp [NotificationProcessor.processNotification,
      NotificationProcessor.processNotification.tryBlock, Pool.connect, Client.query,
      Client.exec, Client.sent, Client.release, Client.committed, World.logDb,
      World.connecting, World.checkout, World.nextDbFault, h0, h1, h2, h3, hpos]

/-- The outcome of the `try` block of `NotificationProcessor.handleFailure`: its
statements, its result and the rows after it. -/
theorem handleFailure_tryBlock_spec (P : NotificationProcessor) (m : MessageData)
    (err : JsError) (n : Nat) (c : Client) :
    ∃ qs : List Sql,
      (NotificationProcessor.handleFailure.tryBlock P m err n c).2 = c.play qs ∧
      (NotificationProcessor.handleFailure.tryBlock P m err n c).2.snapshot = c.snapshot ∧
      (((∃ e, (NotificationProcessor.handleFailure.tryBlock P m err n c).1 = .error e) ∧
          (NotificationProcessor.handleFailure.tryBlock P m err n c).2.world.rows
            = c.world.rows ∧
          (qs = [.selectIdRetries m.messageId] ∨
           (c.world.rows.filter (fun r => r.messageId = m.messageId) = [] ∧
              qs = [.selectIdRetries m.messageId,
                    .insertFailure m.targetUserId m.type m.payload.stringify m.messageId
                      (if n < P.maxRetries then "pending" else "failed") (n + 1)
                      err.message]) ∨
           (∃ row0 rest, c.world.rows.filter (fun r => r.messageId = m.messageId)
                = row0 :: rest ∧
              qs = [.selectIdRetries m.messageId,
                    .updateFailure (row0.retriesAttempted + 1)
                      (if n < P.maxRetries then "pending" else "failed") err.message
                      m.messageId]))) ∨
       ((NotificationProcessor.handleFailure.tryBlock P m err n c).1 =
            .ok { shouldRetry := decide (n < P.maxRetries), newRetryCount := n + 1 } ∧
          c.world.rows.filter (fun r => r.messageId = m.messageId) = [] ∧
          qs = [.selectIdRetries m.messageId,
                .insertFailure m.targetUserId m.type m.payload.stringify m.messageId
                  (if n < P.maxRetries then "pending" else "failed") (n + 1) err.message] ∧
          (NotificationProcessor.handleFailure.tryBlock P m err n c).2.world.rows =
            c.world.rows ++
              [{ id := c.world.nextId, userId := m.targetUserId, type := m.type,
                 payload := m.payload.stringify, messageId := m.messageId,
                 status := if n < P.maxRetries then "pending" else "failed",
                 retriesAttempted := n + 1, errorMessage := some err.message,
                 createdAt := some c.world.now, processedAt := none }]) ∨
       ((NotificationProcessor.handleFailure.tryBlock P m err n c).1 =
            .ok { shouldRetry := decide (n < P.maxRetries), newRetryCount := n + 1 } ∧
          ∃ row0 rest, c.world.rows.filter (fun r => r.messageId = m.messageId)
                = row0 :: rest ∧
            qs = [.selectIdRetries m.messageId,
                  .updateFailure (row0.retriesAttempted + 1)
                    (if n < P.maxRetries then "pending" else "failed") err.message
                    m.messageId] ∧
            (NotificationProcessor.handleFailure.tryBlock P m err n c).2.world.rows =
              c.world.rows.map (fun r =>
                if r.messageId = m.messageId then
                  { r with retriesAttempted := row0.retriesAttempted + 1,
                           status := if n < P.maxRetries then "pending" else "failed",
                           errorMessage := some err.message }
                else r))) := by
  unfold NotificationProcessor.handleFailure.tryBlock
  rcases Client.query_outcome (.selectIdRetries m.messageId) c with ⟨e, h, h'⟩ | ⟨h, h'⟩ <;>
    rw [h] <;> dsimp only
  · refine ⟨[.selectIdRetries m.messageId], rfl, by rw [h']; rfl, Or.inl ⟨⟨e, rfl⟩, ?_, Or.inl rfl⟩⟩
    rw [h']; rfl
  have hres : (Client.exec (.selectIdRetries m.messageId)
      (Client.sent (.selectIdRetries m.messageId) c)).1
      = c.world.rows.filter (fun r => r.messageId = m.messageId) := by
    simp [Client.exec, Client.sent, World.logDb]
  have r1 : (c.query (.selectIdRetries m.messageId)).2.world.rows = c.world.rows := by
    rw [h']; simp [Client.exec, Client.sent, World.logDb]
  have s1 : (c.query (.selectIdRetries m.messageId)).2.snapshot = c.snapshot := by
    rw [h']; simp [Client.exec, Client.sent, World.logDb]
  have n1 : (c.query (.selectIdRetries m.messageId)).2.world.nextId = c.world.nextId := by
    rw [h']; simp [Client.exec, Client.sent, World.logDb]
  have t1 : (c.query (.selectIdRetries m.messageId)).2.world.now = c.world.now := by
    rw [h']; simp [Client.exec, Client.sent, World.logDb]
  rw [hres]
  generalize hc1 : (c.query (.selectIdRetries m.messageId)).2 = c1 at *
  have hstatus : (if decide (n < P.maxRetries) = true then "pending" else "failed")
      = (if n < P.maxRetries then "pending" else "failed") := by
    by_cases hlt : n < P.maxRetries <;> simp [hlt]
  rw [hstatus]
  cases hhead : c.world.rows.filter (fun r => r.messageId = m.messageId) with
  | nil =>
    dsimp only [List.head?_nil]
    generalize hq : (Sql.insertFailure m.targetUserId m.type m.payload.stringify m.messageId
      (if n < P.maxRetries then "pending" else "failed") (n + 1) err.message) = q
    rcases Client.query_outcome q c1 with ⟨e, h, h'⟩ | ⟨h, h'⟩ <;> rw [h] <;> dsimp only
    · refine ⟨[.selectIdRetries m.messageId, q], by simp [Client.play, hc1], ?_,
        Or.inl ⟨⟨e, rfl⟩, ?_, Or.inr (Or.inl ⟨rfl, rfl⟩)⟩⟩
      · rw [h']; exact s1
      · rw [h']; exact r1
    · refine ⟨[.selectIdRetries m.messageId, q], by simp [Client.play, hc1], ?_,
        Or.inr (Or.inl ⟨rfl, rfl, rfl, ?_⟩)⟩
      · rw [h']; subst hq; simpa [Client.exec] using s1
      · rw [h']; subst hq
        simp [Client.exec, Client.sent, World.logDb, r1, n1, t1, Schema.defaultCreatedAt]
  | cons row0 rest =>
    dsimp only [List.head?_cons]
    generalize hq : (Sql.updateFailure (row0.retriesAttempted + 1)
      (if n < P.maxRetries then "pending" else "failed") err.message m.messageId) = q
    rcases Client.query_outcome q c1 with ⟨e, h, h'⟩ | ⟨h, h'⟩ <;> rw [h] <;> dsimp only
    · refine ⟨[.selectIdRetries m.messageId, q], by simp [Client.play, hc1], ?_,
        Or.inl ⟨⟨e, rfl⟩, ?_, Or.inr (Or.inr ⟨row0, rest, rfl, by rw [hq]⟩)⟩⟩
      · rw [h']; exact s1
      · rw [h']; exact r1
    · refine ⟨[.selectIdRetries m.messageId, q], by simp [Client.play, hc1], ?_,
        Or.inr (Or.inr ⟨rfl, row0, rest, rfl, by rw [hq], ?_⟩)⟩
      · rw [h']; subst hq; simpa [Client.exec] using s1
      · rw [h']; subst hq
        simp [Client.exec, r1]

/-- The outcome of a whole `NotificationProcessor.handleFailure` call: its statements,
its result and the table after it. -/
theorem handleFailure_spec (P : NotificationProcessor) (m : MessageData)
    (err : JsError) (n : Nat) (w : World) :
    (∃ e, w.nextDbFault = some e ∧ P.handleFailure m err n w = (.error e, w.connecting)) ∨
    (w.nextDbFault = none ∧ ∃ qs : List Sql,
      (P.handleFailure m err n w).2 = (w.checkout.play qs).release ∧
      (((∃ e, (P.handleFailure m err n w).1 = .error e) ∧
          (P.handleFailure m err n w).2.rows = w.rows ∧
          (qs = [.selectIdRetries m.messageId] ∨
           (w.recordsFor m.messageId = [] ∧
              qs = [.selectIdRetries m.messageId,
                    .insertFailure m.targetUserId m.type m.payload.stringify m.messageId
                      (if n < P.maxRetries then "pending" else "failed") (n + 1)
                      err.message]) ∨
           (∃ row0 rest, w.recordsFor m.messageId = row0 :: rest ∧
              qs = [.selectIdRetries m.messageId,
                    .updateFailure (row0.retriesAttempted + 1)
                      (if n < P.maxRetries then "pending" else "failed") err.message
                      m.messageId]))) ∨
       ((P.handleFailure m err n w).1 =
            .ok { shouldRetry := decide (n < P.maxRetries), newRetryCount := n + 1 } ∧
          w.recordsFor m.messageId = [] ∧
          qs = [.selectIdRetries m.messageId,
                .insertFailure m.targetUserId m.type m.payload.stringify m.messageId
                  (if n < P.maxRetries then "pending" else "failed") (n + 1) err.message] ∧
          (P.handleFailure m err n w).2.rows =
            w.rows ++
              [{ id := w.nextId, userId := m.targetUserId, type := m.type,
                 payload := m.payload.stringify, messageId := m.messageId,
                 status := if n < P.maxRetries then "pending" else "failed",
                 retriesAttempted := n + 1, errorMessage := some err.message,
                 createdAt := some (w.now + 1), processedAt := none }]) ∨
       ((P.handleFailure m err n w).1 =
            .ok { shouldRetry := decide (n < P.maxRetries), newRetryCount := n + 1 } ∧
          ∃ row0 rest, w.recordsFor m.messageId = row0 :: rest ∧
            qs = [.selectIdRetries m.messageId,
                  .updateFailure (row0.retriesAttempted + 1)
                    (if n < P.maxRetries then "pending" else "failed") err.message
                    m.messageId] ∧
            (P.handleFailure m err n w).2.rows =
              w.rows.map (fun r =>
                if r.messageId = m.messageId then
                  { r with retriesAttempted := row0.retriesAttempted + 1,
                           status := if n < P.maxRetries then "pending" else "failed",
                           errorMessage := some err.message }
                else r)))) := by
  unfold NotificationProcessor.handleFailure Pool.connect
  cases hf : w.nextDbFault with
  | some e => exact Or.inl ⟨e, rfl, rfl⟩
  | none =>
    refine Or.inr ⟨rfl, ?_⟩
    dsimp only
    obtain ⟨qs, hqs, hsnap, hcase⟩ := handleFailure_tryBlock_spec P m err n w.checkout
    have hrows : w.checkout.world.rows = w.rows := rfl
    have hid : w.checkout.world.nextId = w.nextId := rfl
    have hnow : w.checkout.world.now = w.now + 1 := rfl
    have hs0 : w.checkout.snapshot = none := rfl
    rw [hrows, hid, hnow] at hcase
    rw [hs0] at hsnap
    rcases hres : NotificationProcessor.handleFailure.tryBlock P m err n w.checkout with
      ⟨res, c1⟩
    rw [hres] at hqs hcase hsnap
    simp only at hqs hcase hsnap
    have hrel : c1.release.rows = c1.world.rows := by
      simp [Client.release, Client.committed, hsnap]
    refine ⟨qs, ?_, ?_⟩
    · cases res <;> simp [hqs]
    unfold World.recordsFor
    rcases hcase with ⟨⟨e, he⟩, hr, hpath⟩ | ⟨he, hR, hpath, hr⟩ |
        ⟨he, row0, rest, hR, hpath, hr⟩
    · subst he
      exact Or.inl ⟨⟨e, rfl⟩, by simp only [hrel, hr], hpath⟩
    · subst he
      exact Or.inr (Or.inl ⟨rfl, hR, hpath, by simp only [hrel, hr]⟩)
    · subst he
      exact Or.inr (Or.inr ⟨rfl, row0, rest, hR, hpath, by simp only [hrel, hr]⟩)

/-- C6 (retry decision): for every message, error and prior retry count `c`, when the
three store calls of `handleFailure` succeed (connect, lookup, INSERT or UPDATE) it
resolves with `shouldRetry = (c < maxRetries)`, a strict comparison, and
`newRetryCount = c + 1`; so the count `c = maxRetries - 1` is retried and the count
`c = maxRetries` is not; `maxRetries` is 3 when `MAX_RETRIES` is not set. -/
theorem retry_decision (P : NotificationProcessor) (m : MessageData) (err : JsError)
    (c : Nat) (w : World) (hdb : Faults.healthy 3 w.dbFaults) :
    (P.handleFailure m err c w).1 =
        .ok { shouldRetry := decide (c < P.maxRetries), newRetryCount := c + 1 } ∧
    (c + 1 = P.maxRetries → (P.handleFailure m err c w).1 =
        .ok { shouldRetry := true, newRetryCount := P.maxRetries }) ∧
    (c = P.maxRetries → (P.handleFailure m err c w).1 =
        .ok { shouldRetry := false, newRetryCount := P.maxRetries + 1 }) ∧
    (∀ env : Env, env.MAX_RETRIES = none → (NotificationProcessor.new env).maxRetries = 3) := by
  simp only [Faults.healthy_succ] at hdb
  obtain ⟨h0, h1, h2, -⟩ := hdb
  have main : (P.handleFailure m err c w).1 =
      .ok { shouldRetry := decide (c < P.maxRetries), newRetryCount := c + 1 } := by
    cases hR : w.rows.filter (fun r => r.messageId = m.messageId) <;>
    simp [NotificationProcessor.handleFailure, NotificationProcessor.handleFailure.tryBlock,
      Pool.connect, Client.query, Client.exec, Client.sent, Client.release,
      Client.committed, World.logDb, World.connecting, World.checkout, World.nextDbFault,
      h0, h1, h2, hR]
  refine ⟨main, ?_, ?_, ?_⟩
  · intro hc
    rw [main, ← hc]
    simp
  · intro hc
    rw [main, hc]
    simp
  · intro env henv
    simp [NotificationProcessor.new, henv]

/-- A run of C6 on the sample world: with the default budget of 3, the counts 0 and 2
are retried and the count 3 is not. -/
theorem retry_decision_witness :
    Faults.healthy 3 Sample.world.dbFaults ∧
    (Sample.processor.handleFailure Sample.m1 Sample.dbError 0 Sample.world).1 =
        .ok { shouldRetry := true, newRetryCount := 1 } ∧
    (Sample.processor.handleFailure Sample.m1 Sample.dbError 2 Sample.world).1 =
        .ok { shouldRetry := true, newRetryCount := 3 } ∧
    (Sample.processor.handleFailure Sample.m1 Sample.dbError 3 Sample.world).1 =
        .ok { shouldRetry := false, newRetryCount := 4 } :=
  ⟨⟨rfl, rfl, rfl, trivial⟩,
   (retry_decision Sample.processor Sample.m1 Sample.dbError 0 Sample.world
      ⟨rfl, rfl, rfl, trivial⟩).1,
   (retry_decision Sample.processor Sample.m1 Sample.dbError 2 Sample.world
      ⟨rfl, rfl, rfl, trivial⟩).2.1 rfl,
   (retry_decision Sample.processor Sample.m1 Sample.dbError 3 Sample.world
      ⟨rfl, rfl, rfl, trivial⟩).2.2.1 rfl⟩

/-- A run of C1: four calls on the empty sample table. -/
theorem idempotency_sequential_witness :
    Sample.world.UniquePerMessageId ∧
    (ProcessorCall.runAll Sample.processor Sample.calls Sample.world).2.UniquePerMessageId ∧
    ((ProcessorCall.runAll Sample.processor Sample.calls Sample.world).2.recordsFor
        Sample.m1.messageId).length = 1 :=
  ⟨fun _ => Nat.zero_le 1,
   (idempotency_sequential Sample.processor Sample.calls Sample.world
      (fun _ => Nat.zero_le 1)).1,
   (idempotency_sequential Sample.processor Sample.calls Sample.world
      (fun _ => Nat.zero_le 1)).2 0 Sample.m1 rfl (by decide)⟩

/-- A run of C2: scenario A on the empty sample table. -/
theorem fresh_message_witness :
    Sample.world.recordsFor Sample.m1.messageId = [] ∧
    Faults.healthy 6 Sample.world.dbFaults ∧
    (Sample.processor.processNotification Sample.m1 Sample.world).2.recordsFor
        Sample.m1.messageId =
      [{ id := 1, userId := "u1", type := "email",
         payload := Sample.m1.payload.stringify, messageId := "m1",
         status := "processed", retriesAttempted := 0, errorMessage := none,
         createdAt := some 101, processedAt := some 101 }] ∧
    (Sample.processor.processNotification Sample.m1 Sample.world).1 =
      .ok { success := true, reason := none, messageId := "m1", notificationId := some 1 } :=
  ⟨rfl, ⟨rfl, rfl, rfl, rfl, rfl, rfl, trivial⟩,
   (fresh_message Sample.processor Sample.m1 Sample.world rfl
      ⟨rfl, rfl, rfl, rfl, rfl, rfl, trivial⟩).2.1,
   (fresh_message Sample.processor Sample.m1 Sample.world rfl
      ⟨rfl, rfl, rfl, rfl, rfl, rfl, trivial⟩).2.2⟩

/-- A run of C3: scenario B, the message of scenario A delivered again. -/
theorem duplicate_message_witness :
    Sample.processedWorld.recordsFor Sample.m1.messageId ≠ [] ∧
    (Sample.processor.processNotification Sample.m1 Sample.processedWorld).2.rows =
      Sample.processedWorld.rows ∧
    (Sample.processor.processNotification Sample.m1 Sample.processedWorld).1 =
      .ok { success := true, reason := some "Duplicate message (idempotency)",
            messageId := "m1", notificationId := none } :=
  ⟨by decide,
   (duplicate_message Sample.processor Sample.m1 Sample.processedWorld (by decide)).1,
   ((duplicate_message Sample.processor Sample.m1 Sample.processedWorld (by decide)).2.2
      ⟨rfl, rfl, rfl, rfl, trivial⟩).1⟩

/-! ### What the processor leaves alone -/

/-- A `processNotification` call touches neither the retry map nor the broker script, and
adds only store events to the trace. -/
theorem processNotification_effects (P : NotificationProcessor) (m : MessageData) (w : World) :
    (P.processNotification m w).2.messageRetryMap = w.messageRetryMap ∧
    (P.processNotification m w).2.mqFaults = w.mqFaults ∧
    ∃ evs : List Event, (P.processNotification m w).2.trace = w.trace ++ evs ∧
      ∀ ev ∈ evs, ev.isStore = true := by
  rcases processNotification_path P m w with ⟨e, -, h⟩ | ⟨-, qs, hqs, -⟩
  · rw [h]
    exact ⟨rfl, rfl, [.connect], rfl, by simp [Event.isStore]⟩
  · rw [hqs, Client.release_play_trace]
    obtain ⟨h1, h2, -, -⟩ := Client.release_play_frame qs w
    refine ⟨h1, h2, [Event.connect] ++ qs.map Event.query ++ [Event.release], by simp, ?_⟩
    intro ev hev
    rw [List.mem_append, List.mem_append, List.mem_singleton, List.mem_singleton,
      List.mem_map] at hev
    rcases hev with (h | ⟨q, -, h⟩) | h <;> subst h <;> rfl

/-- A `NotificationProcessor.handleFailure` call touches neither the retry map nor the
broker script, and adds only store events to the trace. -/
theorem handleFailure_effects (P : NotificationProcessor) (m : MessageData) (err : JsError)
    (n : Nat) (w : World) :
    (P.handleFailure m err n w).2.messageRetryMap = w.messageRetryMap ∧
    (P.handleFailure m err n w).2.mqFaults = w.mqFaults ∧
    ∃ evs : List Event, (P.handleFailure m err n w).2.trace = w.trace ++ evs ∧
      ∀ ev ∈ evs, ev.isStore = true := by
  rcases handleFailure_spec P m err n w with ⟨e, -, h⟩ | ⟨-, qs, hqs, -⟩
  · rw [h]
    exact ⟨rfl, rfl, [.connect], rfl, by simp [Event.isStore]⟩
  · rw [hqs, Client.release_play_trace]
    obtain ⟨h1, h2, -, -⟩ := Client.release_play_frame qs w
    refine ⟨h1, h2, [Event.connect] ++ qs.map Event.query ++ [Event.release], by simp, ?_⟩
    intro ev hev
    rw [List.mem_append, List.mem_append, List.mem_singleton, List.mem_singleton,
      List.mem_map] at hev
    rcases hev with (h | ⟨q, -, h⟩) | h <;> subst h <;> rfl

/-- The dead-letter message `sendToDLQ` builds. -/
theorem sendToDLQ_eq (C : NotificationConsumer) (m : MessageData) (err : JsError) (w : World) :
    C.sendToDLQ m err w =
      (.ok (),
       if w.nextMqFault = none then
         (w.logMq (.assertQueue (NotificationConsumer.dlqName C.env))).logMq
           (.sendToQueue (NotificationConsumer.dlqName C.env)
             { messageId := m.messageId, targetUserId := m.targetUserId, type := m.type,
               payload := m.payload, timestamp := m.timestamp, failedAt := w.now,
               error := err.message, reason := "Max retries exceeded" }
              { persistent := true, contentType := "application/json" })
       else w.logMq (.assertQueue (NotificationConsumer.dlqName C.env))) := by
  unfold NotificationConsumer.sendToDLQ RabbitMQClient.assertQueue Channel.sendToQueue
    Channel.call
  cases h : w.nextMqFault with
  | some e => simp
  | none =>
    simp only [if_true]
    cases h2 : (w.logMq (.assertQueue (NotificationConsumer.dlqName C.env))).nextMqFault <;>
      simp [World.logMq]

/-! ### The retry map -/

theorem RetryMap.get_set_self (mp : List (String × Nat)) (k : String) (v : Nat) :
    RetryMap.get (RetryMap.set mp k v) k = some v := by
  unfold RetryMap.get RetryMap.set
  split
  · rename_i h
    induction mp with
    | nil => simp at h
    | cons kv mp ih =>
      by_cases hk : kv.1 = k
      · simp [List.find?_cons, hk]
      · have h' : (mp.find? (fun kv => decide (kv.1 = k))).isSome = true := by
          simpa [List.find?_cons, hk] using h
        simpa [List.find?_cons, hk] using ih h'
  · rename_i h
    have hnone : mp.find? (fun kv => decide (kv.1 = k)) = none :=
      Option.not_isSome_iff_eq_none.mp h
    simp [List.find?_append, hnone]

theorem RetryMap.get_delete_self (mp : List (String × Nat)) (k : String) :
    RetryMap.get (RetryMap.delete mp k) k = none := by
  unfold RetryMap.get RetryMap.delete
  simp [List.find?_eq_none]

/-! ### One failing delivery -/

/-- A delivery on which processing fails and the failure is recorded: the two processor
calls and the verdict, retry map, table, broker script and trace after `processMessage`. -/
theorem processMessage_of_fails (C : NotificationConsumer) (m : MessageData) (msg : Delivery)
    (w : World) (h : C.processingFails m w = true) :
    ∃ (e : JsError) (w1 w2 : World),
      C.notificationProcessor.processNotification m w = (.error e, w1) ∧
      C.notificationProcessor.handleFailure m e (w.currentRetry m.messageId) w1 =
        (.ok ⟨decide (w.currentRetry m.messageId < C.notificationProcessor.maxRetries),
              w.currentRetry m.messageId + 1⟩, w2) ∧
      (C.processMessage m msg w).1 =
        .ok (if w.currentRetry m.messageId < C.notificationProcessor.maxRetries
             then Verdict.requeued else Verdict.deadLettered) ∧
      (C.processMessage m msg w).2.messageRetryMap =
        (if w.currentRetry m.messageId < C.notificationProcessor.maxRetries
         then RetryMap.set w.messageRetryMap m.messageId (w.currentRetry m.messageId + 1)
         else RetryMap.delete w.messageRetryMap m.messageId) ∧
      (C.processMessage m msg w).2.rows = w2.rows ∧
      (C.processMessage m msg w).2.mqFaults =
        (if w.currentRetry m.messageId < C.notificationProcessor.maxRetries
         then w.mqFaults else (C.sendToDLQ m e w2).2.mqFaults) ∧
      (C.processMessage m msg w).2.trace =
        (if w.currentRetry m.messageId < C.notificationProcessor.maxRetries
         then w2.trace else (C.sendToDLQ m e w2).2.trace) := by
  unfold NotificationConsumer.processingFails at h
  rcases hpn : C.notificationProcessor.processNotification m w with ⟨res, w1⟩
  rw [hpn] at h
  cases res with
  | ok r => simp at h
  | error e =>
    dsimp only at h
    obtain ⟨hmap1, hmq1, -⟩ := processNotification_effects C.notificationProcessor m w
    rw [hpn] at hmap1 hmq1
    dsimp only at hmap1 hmq1
    have hcur : w1.currentRetry m.messageId = w.currentRetry m.messageId := by
      simp [World.currentRetry, hmap1]
    rw [hcur] at h
    rcases hhf : C.notificationProcessor.handleFailure m e (w.currentRetry m.messageId) w1
      with ⟨res2, w2⟩
    rw [hhf] at h
    cases res2 with
    | error e2 => simp at h
    | ok r =>
      obtain ⟨hmap2, hmq2, -⟩ := handleFailure_effects C.notificationProcessor m e
          (w.currentRetry m.messageId) w1
      rw [hhf] at hmap2 hmq2
      dsimp only at hmap2 hmq2
      have hr : r = ⟨decide (w.currentRetry m.messageId < C.notificationProcessor.maxRetries),
          w.currentRetry m.messageId + 1⟩ := by
        rcases handleFailure_spec C.notificationProcessor m e (w.currentRetry m.messageId) w1
          with ⟨e', -, h'⟩ | ⟨-, qs, -, hcase⟩
        · rw [hhf] at h'; simp at h'
        · rw [hhf] at hcase
          rcases hcase with ⟨⟨e', he'⟩, -⟩ | ⟨he', -⟩ | ⟨he', -⟩
          · simp at he'
          · simpa using he'
          · simpa using he'
      subst hr
      refine ⟨e, w1, w2, rfl, hhf, ?_⟩
      unfold NotificationConsumer.processMessage NotificationConsumer.handleFailure
      rw [hpn]
      dsimp only
      have hcur' : (RetryMap.get w1.messageRetryMap m.messageId).getD 0
          = w.currentRetry m.messageId := hcur
      rw [hcur', hhf]
      dsimp only
      by_cases hlt : w.currentRetry m.messageId < C.notificationProcessor.maxRetries
      · simp [hlt, hmap2, hmap1, hmq1, hmq2, Verdict.requeued]
      · simp only [hlt, decide_False, Bool.false_eq_true, if_false, sendToDLQ_eq]
        split <;> simp [World.logMq, hmap2, hmap1, Verdict.deadLettered]

/-- The verdicts of a message that keeps failing, from any count of the retry map. -/
theorem deliveries_of_failing (C : NotificationConsumer) (m : MessageData) (msg : Delivery) :
    ∀ (r : Nat) (w : World),
      w.currentRetry m.messageId + r = C.notificationProcessor.maxRetries →
      C.failsOnEveryDelivery m msg (r + 1) w →
      (C.deliveries m msg (r + 1) w).1 =
        List.replicate r (.ok Verdict.requeued) ++ [.ok Verdict.deadLettered] := by
  intro r
  induction r with
  | zero =>
    intro w hc hfail
    obtain ⟨hf, -⟩ := hfail
    obtain ⟨e, w1, w2, -, -, hv, -⟩ := processMessage_of_fails C m msg w hf
    have hlt : ¬ w.currentRetry m.messageId < C.notificationProcessor.maxRetries := by omega
    simp only [NotificationConsumer.deliveries, hv, hlt, if_false]
    rfl
  | succ r ih =>
    intro w hc hfail
    obtain ⟨hf, hrest⟩ := hfail
    obtain ⟨e, w1, w2, -, -, hv, hmap, -⟩ := processMessage_of_fails C m msg w hf
    have hlt : w.currentRetry m.messageId < C.notificationProcessor.maxRetries := by omega
    rw [if_pos hlt] at hv hmap
    have hcur : (C.processMessage m msg w).2.currentRetry m.messageId
        = w.currentRetry m.messageId + 1 := by
      simp [World.currentRetry, hmap, RetryMap.get_set_self]
    have hnext := ih (C.processMessage m msg w).2 (by rw [hcur]; omega) hrest
    rw [NotificationConsumer.deliveries]
    simp only [hv, hnext, List.replicate_succ, List.cons_append]

/-- C4 (retry termination): for every budget `maxRetries = k`, a consumer whose retry map
has no entry for the message (in particular an empty map), and a message for which, on
each of `k + 1` successive deliveries, `processNotification` throws and
`NotificationProcessor.handleFailure` resolves, the verdicts of these deliveries are
exactly `k` requeue verdicts followed by one dead-letter verdict, which is not a requeue
verdict: there is no requeue number `k + 1`. -/
theorem retry_termination (C : NotificationConsumer) (m : MessageData) (msg : Delivery)
    (k : Nat) (w : World)
    (hk : C.notificationProcessor.maxRetries = k)
    (hmap : RetryMap.get w.messageRetryMap m.messageId = none)
    (hfail : C.failsOnEveryDelivery m msg (k + 1) w) :
    (C.deliveries m msg (k + 1) w).1 =
      List.replicate k (.ok Verdict.requeued) ++ [.ok Verdict.deadLettered] ∧
    Verdict.deadLettered.requeue = some false ∧
    Verdict.requeued.requeue = some true := by
  refine ⟨?_, rfl, rfl⟩
  apply deliveries_of_failing C m msg k w _ hfail
  simp [World.currentRetry, hmap, hk]

/-- A run of C4: the default budget of 3 and a store on which BEGIN fails on four
successive deliveries of the message of scenario C. -/
theorem retry_termination_witness :
    Sample.consumer.notificationProcessor.maxRetries = 3 ∧
    RetryMap.get Sample.failingWorld.messageRetryMap Sample.m2.messageId = none ∧
    Sample.consumer.failsOnEveryDelivery Sample.m2 Sample.delivery 4 Sample.failingWorld ∧
    (Sample.consumer.deliveries Sample.m2 Sample.delivery 4 Sample.failingWorld).1 =
      [.ok Verdict.requeued, .ok Verdict.requeued, .ok Verdict.requeued,
       .ok Verdict.deadLettered] :=
  ⟨rfl, rfl, ⟨by decide, by decide, by decide, by decide, trivial⟩,
   (retry_termination Sample.consumer Sample.m2 Sample.delivery 3 Sample.failingWorld rfl rfl
      ⟨by decide, by decide, by decide, by decide, trivial⟩).1⟩

/-! ### The verdict of `processMessage` -/

theorem Event.not_isTransport_of_isStore (ev : Event) (h : ev.isStore = true) :
    ev.isTransport = false := by
  cases ev <;> simp_all [Event.isStore, Event.isTransport]

/-- The trace after `sendToDLQ`: the world is otherwise as before, up to the broker
script. -/
theorem sendToDLQ_effects (C : NotificationConsumer) (m : MessageData) (err : JsError)
    (w : World) :
    (C.sendToDLQ m err w).1 = .ok () ∧
    (C.sendToDLQ m err w).2.rows = w.rows ∧
    (C.sendToDLQ m err w).2.messageRetryMap = w.messageRetryMap ∧
    (C.sendToDLQ m err w).2.trace =
      w.trace ++ [Event.assertQueue (NotificationConsumer.dlqName C.env)] ++
        (if w.nextMqFault = none then
          [Event.sendToQueue (NotificationConsumer.dlqName C.env)
            { messageId := m.messageId, targetUserId := m.targetUserId, type := m.type,
              payload := m.payload, timestamp := m.timestamp, failedAt := w.now,
              error := err.message, reason := "Max retries exceeded" }
              { persistent := true, contentType := "application/json" }]
         else []) := by
  rw [sendToDLQ_eq]
  by_cases h : w.nextMqFault = none <;> simp [h, World.logMq]

/-- Every path of `processMessage` resolves, and it adds no transport action to the
trace. -/
theorem processMessage_total (C : NotificationConsumer) (m : MessageData) (msg : Delivery)
    (w : World) :
    (∃ v, (C.processMessage m msg w).1 = .ok v) ∧
    ∃ evs : List Event, (C.processMessage m msg w).2.trace = w.trace ++ evs ∧
      ∀ ev ∈ evs, ev.isTransport = false := by
  obtain ⟨-, -, evs1, ht1, hs1⟩ := processNotification_effects C.notificationProcessor m w
  unfold NotificationConsumer.processMessage
  rcases hpn : C.notificationProcessor.processNotification m w with ⟨res, w1⟩
  rw [hpn] at ht1
  dsimp only at ht1
  cases res with
  | ok r =>
    exact ⟨⟨_, rfl⟩, evs1, ht1, fun ev hev => Event.not_isTransport_of_isStore ev (hs1 ev hev)⟩
  | error e =>
    dsimp only
    unfold NotificationConsumer.handleFailure
    obtain ⟨-, -, evs2, ht2, hs2⟩ := handleFailure_effects C.notificationProcessor m e
      ((RetryMap.get w1.messageRetryMap m.messageId).getD 0) w1
    rcases hhf : C.notificationProcessor.handleFailure m e
      ((RetryMap.get w1.messageRetryMap m.messageId).getD 0) w1 with ⟨res2, w2⟩
    rw [hhf] at ht2
    dsimp only at ht2
    simp only [hhf]
    have hstore : ∀ ev ∈ evs1 ++ evs2, ev.isTransport = false := by
      intro ev hev
      rcases List.mem_append.1 hev with h | h
      · exact Event.not_isTransport_of_isStore ev (hs1 ev h)
      · exact Event.not_isTransport_of_isStore ev (hs2 ev h)
    cases res2 with
    | error e2 =>
      exact ⟨⟨_, rfl⟩, evs1 ++ evs2, by simp [ht2, ht1], hstore⟩
    | ok r =>
      dsimp only
      by_cases hr : r.shouldRetry = true
      · rw [if_pos hr]
        exact ⟨⟨_, rfl⟩, evs1 ++ evs2, by simp [ht2, ht1], hstore⟩
      · rw [if_neg hr]
        obtain ⟨hok, -, -, ht3⟩ := sendToDLQ_effects C m e w2
        rcases hdlq : C.sendToDLQ m e w2 with ⟨res3, w3⟩
        rw [hdlq] at hok ht3
        dsimp only at hok ht3
        subst hok
        simp only [hdlq]
        refine ⟨⟨_, rfl⟩, evs1 ++ evs2 ++ ([Event.assertQueue (NotificationConsumer.dlqName C.env)] ++
          (if w2.nextMqFault = none then
            [Event.sendToQueue (NotificationConsumer.dlqName C.env)
              { messageId := m.messageId, targetUserId := m.targetUserId, type := m.type,
                payload := m.payload, timestamp := m.timestamp, failedAt := w2.now,
                error := e.message, reason := "Max retries exceeded" }
              { persistent := true, contentType := "application/json" }]
           else [])), by simp [ht3, ht2, ht1], ?_⟩
        intro ev hev
        rcases List.mem_append.1 hev with h | h
        · exact hstore ev h
        · by_cases hq : w2.nextMqFault = none
          · simp only [hq, if_true, List.singleton_append, List.mem_cons,
              List.not_mem_nil, or_false] at h
            rcases h with h | h <;> subst h <;> rfl
          · simp only [hq, if_false, List.append_nil, List.mem_singleton] at h
            subst h; rfl

/-- C9 (fail-safe verdict): for every message and every script of store and broker
faults `processMessage` resolves with a verdict, it never throws; and when
`processNotification` throws and `NotificationProcessor.handleFailure` throws too, the
verdict is `success = false, requeue = false` ("Critical error, message rejected"), so
the handler of `consumeQueue` nacks the delivery without requeue. -/
theorem fail_safe_verdict (C : NotificationConsumer) (m : MessageData) (msg : Delivery)
    (w : World) :
    (∃ v, (C.processMessage m msg w).1 = .ok v) ∧
    (∀ (e e2 : JsError) (w1 w2 : World),
      C.notificationProcessor.processNotification m w = (.error e, w1) →
      C.notificationProcessor.handleFailure m e (w1.currentRetry m.messageId) w1 =
        (.error e2, w2) →
      C.processMessage m msg w = (.ok Verdict.critical, w2) ∧
      Verdict.critical.success = false ∧ Verdict.critical.requeue = some false ∧
      ∀ parse : String → Except JsError MessageData, parse msg.content = .ok m →
        C.onDelivery parse msg w = Channel.nack msg false false w2 ∧
        (C.onDelivery parse msg w).trace =
          w2.trace ++ [Event.nack msg.deliveryTag false false]) := by
  refine ⟨(processMessage_total C m msg w).1, ?_⟩
  intro e e2 w1 w2 hpn hhf
  have hv : C.processMessage m msg w = (.ok Verdict.critical, w2) := by
    unfold NotificationConsumer.processMessage NotificationConsumer.handleFailure
    rw [hpn]
    dsimp only
    unfold World.currentRetry at hhf
    rw [hhf]
    rfl
  refine ⟨hv, rfl, rfl, ?_⟩
  intro parse hparse
  have : C.onDelivery parse msg w = Channel.nack msg false false w2 := by
    unfold NotificationConsumer.onDelivery RabbitMQClient.consumeQueue.onMessage
    simp [hparse, hv, Verdict.critical]
  exact ⟨this, by rw [this]; rfl⟩

/-- A run of C9: BEGIN fails and the checkout of the failure handler fails. -/
theorem fail_safe_verdict_witness :
    (Sample.consumer.processMessage Sample.m2 Sample.delivery Sample.brokenWorld).1 =
      .ok Verdict.critical ∧
    (Sample.consumer.onDelivery Sample.parse Sample.delivery Sample.brokenWorld).trace =
      (Sample.consumer.processMessage Sample.m2 Sample.delivery Sample.brokenWorld).2.trace ++
        [Event.nack 7 false false] :=
  ⟨congrArg Prod.fst
     ((fail_safe_verdict Sample.consumer Sample.m2 Sample.delivery Sample.brokenWorld).2
        Sample.dbError Sample.dbError _ _ rfl rfl).1,
   (((fail_safe_verdict Sample.consumer Sample.m2 Sample.delivery Sample.brokenWorld).2
        Sample.dbError Sample.dbError _ _ rfl rfl).2.2.2 Sample.parse rfl).2⟩

/-- C7 (outcome translation): for every delivery whose body decodes, the handler of
`consumeQueue` with `processMessage` as callback issues exactly one transport action
(`ack` or `nack`), as the last event of the delivery; it is `ack` when
`processNotification` resolves (fresh or duplicate) and `nack` with requeue when
`processNotification` throws and `NotificationProcessor.handleFailure` resolves with
`shouldRetry = true`. -/
theorem outcome_translation (C : NotificationConsumer)
    (parse : String → Except JsError MessageData) (msg : Delivery) (m : MessageData)
    (w : World) (hparse : parse msg.content = .ok m) :
    (∃ (evs : List Event) (action : Event),
      (C.onDelivery parse msg w).trace = w.trace ++ evs ++ [action] ∧
      (∀ ev ∈ evs, ev.isTransport = false) ∧ action.isTransport = true ∧
      (evs ++ [action]).countP Event.isTransport = 1) ∧
    (∀ (r : ProcessResult) (w1 : World),
      C.notificationProcessor.processNotification m w = (.ok r, w1) →
      (C.onDelivery parse msg w).trace = w1.trace ++ [Event.ack msg.deliveryTag]) ∧
    (∀ (e : JsError) (w1 : World) (r : FailureResult) (w2 : World),
      C.notificationProcessor.processNotification m w = (.error e, w1) →
      C.notificationProcessor.handleFailure m e (w1.currentRetry m.messageId) w1 =
        (.ok r, w2) →
      r.shouldRetry = true →
      (C.onDelivery parse msg w).trace =
        w2.trace ++ [Event.nack msg.deliveryTag false true]) := by
  refine ⟨?_, ?_, ?_⟩
  · obtain ⟨⟨v, hv⟩, evs, ht, hevs⟩ := processMessage_total C m msg w
    unfold NotificationConsumer.onDelivery RabbitMQClient.consumeQueue.onMessage
    simp only [hparse]
    rcases hpm : C.processMessage m msg w with ⟨res, w'⟩
    rw [hpm] at hv ht
    dsimp only at hv ht
    subst hv
    dsimp only
    have hcount : ∀ action : Event, action.isTransport = true →
        (evs ++ [action]).countP Event.isTransport = 1 := by
      intro action ha
      rw [List.countP_append, List.countP_eq_zero.2 (by
        intro ev hev
        simp [hevs ev hev])]
      simp [ha]
    by_cases hs : v.success = true
    · rw [if_pos hs]
      exact ⟨evs, .ack msg.deliveryTag, by simp [Channel.ack, ht], hevs, rfl, hcount _ rfl⟩
    · rw [if_neg hs]
      by_cases hq : v.requeue = some true
      · rw [if_pos hq]
        exact ⟨evs, .nack msg.deliveryTag false true, by simp [Channel.nack, ht], hevs, rfl,
          hcount _ rfl⟩
      · rw [if_neg hq]
        exact ⟨evs, .nack msg.deliveryTag false false, by simp [Channel.nack, ht], hevs, rfl,
          hcount _ rfl⟩
  · intro r w1 hpn
    unfold NotificationConsumer.onDelivery RabbitMQClient.consumeQueue.onMessage
      NotificationConsumer.processMessage
    simp [hparse, hpn, Channel.ack]
  · intro e w1 r w2 hpn hhf hr
    unfold World.currentRetry at hhf
    unfold NotificationConsumer.onDelivery RabbitMQClient.consumeQueue.onMessage
      NotificationConsumer.processMessage NotificationConsumer.handleFailure
    simp [hparse, hpn, hhf, hr, Channel.nack]

/-- A run of C7: a fresh message is acked, a message whose processing fails with budget
left is nacked with requeue. -/
theorem outcome_translation_witness :
    Sample.parse Sample.delivery.content = .ok Sample.m2 ∧
    (Sample.consumer.onDelivery Sample.parse Sample.delivery Sample.world).trace =
      (Sample.processor.processNotification Sample.m2 Sample.world).2.trace ++
        [Event.ack 7] ∧
    (Sample.consumer.onDelivery Sample.parse Sample.delivery
        Sample.failingOnceWorld).trace.countP Event.isTransport = 1 :=
  ⟨rfl,
   (outcome_translation Sample.consumer Sample.parse Sample.delivery Sample.m2 Sample.world
      rfl).2.1 _ _ rfl,
   by decide⟩

/-- C8, as stated, fails: with a budget of 0 the first failure is terminal
(`shouldRetry = false`); the message is published to the dead-letter queue, but the
original delivery is not acked: the only transport action is a `nack` without requeue. -/
theorem terminal_failure_counterexample :
    (Sample.consumer0.notificationProcessor.processNotification Sample.m2
        Sample.failingOnceWorld).1 = .error Sample.dbError ∧
    (Sample.consumer0.notificationProcessor.handleFailure Sample.m2 Sample.dbError 0
        (Sample.consumer0.notificationProcessor.processNotification Sample.m2
          Sample.failingOnceWorld).2).1 = .ok { shouldRetry := false, newRetryCount := 1 } ∧
    (Sample.consumer0.onDelivery Sample.parse Sample.delivery
        Sample.failingOnceWorld).trace.countP Event.isPublish = 1 ∧
    (Sample.consumer0.onDelivery Sample.parse Sample.delivery
        Sample.failingOnceWorld).trace.any Event.isAck = false ∧
    (Sample.consumer0.onDelivery Sample.parse Sample.delivery
        Sample.failingOnceWorld).trace.countP Event.isReject = 1 :=
  ⟨rfl, rfl, by decide, by decide, by decide⟩

/-- C8, amended (terminal failure): when `processNotification` throws and
`NotificationProcessor.handleFailure` resolves with `shouldRetry = false`, the handler
asserts the dead-letter queue, publishes the message to it when the assertion succeeded,
and then nacks the original delivery without requeue. -/
theorem terminal_failure (C : NotificationConsumer)
    (parse : String → Except JsError MessageData) (msg : Delivery) (m : MessageData)
    (w : World) (e : JsError) (w1 : World) (r : FailureResult) (w2 : World)
    (hparse : parse msg.content = .ok m)
    (hpn : C.notificationProcessor.processNotification m w = (.error e, w1))
    (hhf : C.notificationProcessor.handleFailure m e (w1.currentRetry m.messageId) w1 =
      (.ok r, w2))
    (hr : r.shouldRetry = false) :
    (C.processMessage m msg w).1 = .ok Verdict.deadLettered ∧
    (C.onDelivery parse msg w).trace =
      w2.trace ++ [Event.assertQueue (NotificationConsumer.dlqName C.env)] ++
        (if w2.nextMqFault = none then
          [Event.sendToQueue (NotificationConsumer.dlqName C.env)
            { messageId := m.messageId, targetUserId := m.targetUserId, type := m.type,
              payload := m.payload, timestamp := m.timestamp, failedAt := w2.now,
              error := e.message, reason := "Max retries exceeded" }
              { persistent := true, contentType := "application/json" }]
         else []) ++
        [Event.nack msg.deliveryTag false false] := by
  unfold World.currentRetry at hhf
  obtain ⟨hok, -, -, ht3⟩ := sendToDLQ_effects C m e w2
  rcases hdlq : C.sendToDLQ m e w2 with ⟨res3, w3⟩
  rw [hdlq] at hok ht3
  dsimp only at hok ht3
  subst hok
  have hv : C.processMessage m msg w =
      (.ok Verdict.deadLettered,
       { w3 with messageRetryMap := RetryMap.delete w3.messageRetryMap m.messageId }) := by
    unfold NotificationConsumer.processMessage NotificationConsumer.handleFailure
    simp [hpn, hhf, hr, hdlq, Verdict.deadLettered]
  refine ⟨by rw [hv], ?_⟩
  unfold NotificationConsumer.onDelivery RabbitMQClient.consumeQueue.onMessage
  simp only [hparse, hv]
  simp [Verdict.deadLettered, Channel.nack, ht3]

/-- A run of the amended C8 with a budget of 0 and a healthy broker. -/
theorem terminal_failure_witness :
    (Sample.consumer0.processMessage Sample.m2 Sample.delivery Sample.failingOnceWorld).1 =
      .ok Verdict.deadLettered ∧
    ((Sample.consumer0.onDelivery Sample.parse Sample.delivery
        Sample.failingOnceWorld).trace.drop 8).map Event.isReject = [false, false, true] :=
  ⟨(terminal_failure Sample.consumer0 Sample.parse Sample.delivery Sample.m2
      Sample.failingOnceWorld Sample.dbError _ _ _ rfl rfl rfl rfl).1,
   by
    rw [(terminal_failure Sample.consumer0 Sample.parse Sample.delivery Sample.m2
      Sample.failingOnceWorld Sample.dbError _ _ _ rfl rfl rfl rfl).2]
    decide⟩

/-! ### The record and the dead-letter count along failing deliveries -/

theorem countP_isDeadLetterOf_of_isStore (mid : String) (evs : List Event)
    (h : ∀ ev ∈ evs, ev.isStore = true) : evs.countP (Event.isDeadLetterOf mid) = 0 := by
  rw [List.countP_eq_zero]
  intro ev hev
  have := h ev hev
  cases ev <;> simp_all [Event.isStore, Event.isDeadLetterOf]

theorem filter_messageId_map_failure (rows : List NotificationRecord) (mid : String)
    (n : Nat) (st : String) (em : Option String) :
    (rows.map (fun r => if r.messageId = mid then
        { r with retriesAttempted := n, status := st, errorMessage := em } else r)).filter
        (fun r => r.messageId = mid)
      = (rows.filter (fun r => r.messageId = mid)).map
          (fun r => { r with retriesAttempted := n, status := st, errorMessage := em }) := by
  induction rows with
  | nil => rfl
  | cons r rows ih =>
    by_cases hm : r.messageId = mid <;> simp [List.filter_cons, hm, ih]

/-- The record of the message after one delivery on which processing fails and the failure
is recorded, and the number of dead-letter messages published. -/
theorem failing_delivery_step (C : NotificationConsumer) (m : MessageData) (msg : Delivery)
    (w : World) (h : C.processingFails m w = true) :
    (w.recordsFor m.messageId = [] →
      ∃ r, (C.processMessage m msg w).2.recordsFor m.messageId = [r] ∧
        r.status = (if w.currentRetry m.messageId < C.notificationProcessor.maxRetries
                    then "pending" else "failed") ∧
        r.retriesAttempted = w.currentRetry m.messageId + 1) ∧
    (∀ r0, w.recordsFor m.messageId = [r0] →
      ∃ r, (C.processMessage m msg w).2.recordsFor m.messageId = [r] ∧
        r.status = (if w.currentRetry m.messageId < C.notificationProcessor.maxRetries
                    then "pending" else "failed") ∧
        r.retriesAttempted = r0.retriesAttempted + 1) ∧
    (C.processMessage m msg w).2.deadLettered m.messageId =
      w.deadLettered m.messageId +
        (if w.currentRetry m.messageId < C.notificationProcessor.maxRetries then 0
         else if w.nextMqFault = none then 1 else 0) := by
  obtain ⟨e, w1, w2, hpn, hhf, -, -, hrows, -, htrace⟩ := processMessage_of_fails C m msg w h
  have hrows1 : w1.rows = w.rows :=
    (processNotification_messageIds C.notificationProcessor m w).1 e w1 hpn
  obtain ⟨-, hmq1, evs1, ht1, hs1⟩ := processNotification_effects C.notificationProcessor m w
  rw [hpn] at ht1 hmq1
  dsimp only at ht1 hmq1
  obtain ⟨-, hmq2, evs2, ht2, hs2⟩ := handleFailure_effects C.notificationProcessor m e
    (w.currentRetry m.messageId) w1
  rw [hhf] at ht2 hmq2
  dsimp only at ht2 hmq2
  have hrec1 : w1.recordsFor m.messageId = w.recordsFor m.messageId := by
    simp [World.recordsFor, hrows1]
  have hspec := handleFailure_spec C.notificationProcessor m e (w.currentRetry m.messageId) w1
  rw [hhf] at hspec
  simp only [Prod.mk.injEq, reduceCtorEq, false_and, and_false, exists_false, false_or,
    exists_const] at hspec
  obtain ⟨-, qs, -, hcase⟩ := hspec
  rw [hrec1, hrows1] at hcase
  refine ⟨?_, ?_, ?_⟩
  · intro hnil
    rcases hcase with ⟨-, -, -, hr⟩ | ⟨-, row0, rest, hR, -⟩
    · refine ⟨{ id := w1.nextId, userId := m.targetUserId, type := m.type,
                 payload := m.payload.stringify, messageId := m.messageId,
                 status := if w.currentRetry m.messageId < C.notificationProcessor.maxRetries
                           then "pending" else "failed",
                 retriesAttempted := w.currentRetry m.messageId + 1,
                 errorMessage := some e.message,
                 createdAt := some (w1.now + 1), processedAt := none }, ?_, rfl, rfl⟩
      simp only [World.recordsFor] at hnil ⊢
      rw [hrows, hr, List.filter_append, hnil]
      simp
    · rw [hnil] at hR; cases hR
  · intro r0 hone
    rcases hcase with ⟨-, hR, -⟩ | ⟨-, row0, rest, hR, -, hr⟩
    · rw [hone] at hR; cases hR
    · rw [hone] at hR
      cases hR
      refine ⟨{ r0 with
                retriesAttempted := r0.retriesAttempted + 1,
                status := if w.currentRetry m.messageId < C.notificationProcessor.maxRetries
                          then "pending" else "failed",
                errorMessage := some e.message }, ?_, rfl, rfl⟩
      simp only [World.recordsFor] at hone ⊢
      rw [hrows, hr, filter_messageId_map_failure, hone]
      rfl
  · unfold World.deadLettered
    rw [htrace]
    by_cases hlt : w.currentRetry m.messageId < C.notificationProcessor.maxRetries
    · simp only [hlt, if_true, ht2, ht1, List.countP_append,
        countP_isDeadLetterOf_of_isStore _ _ hs1, countP_isDeadLetterOf_of_isStore _ _ hs2,
        Nat.add_zero]
    · simp only [hlt, if_false]
      rw [(sendToDLQ_effects C m e w2).2.2.2, ht2, ht1]
      have hq : w2.nextMqFault = w.nextMqFault := by
        simp [World.nextMqFault, hmq2, hmq1]
      rw [hq]
      by_cases hf : w.nextMqFault = none <;>
        simp [hf, List.countP_append, countP_isDeadLetterOf_of_isStore _ _ hs1,
          countP_isDeadLetterOf_of_isStore _ _ hs2, Event.isDeadLetterOf, List.countP_cons]

theorem deliveries_world_succ (C : NotificationConsumer) (m : MessageData) (msg : Delivery) :
    ∀ (j : Nat) (w : World),
      (C.deliveries m msg (j + 1) w).2 =
        (C.processMessage m msg (C.deliveries m msg j w).2).2 := by
  intro j
  induction j with
  | zero => intro w; rfl
  | succ j ih =>
    intro w
    rw [NotificationConsumer.deliveries]
    dsimp only
    rw [ih]
    rfl

theorem failsOnEveryDelivery_succ (C : NotificationConsumer) (m : MessageData)
    (msg : Delivery) :
    ∀ (j : Nat) (w : World), C.failsOnEveryDelivery m msg (j + 1) w →
      C.failsOnEveryDelivery m msg j w ∧
      C.processingFails m (C.deliveries m msg j w).2 = true := by
  intro j
  induction j with
  | zero => intro w h; exact ⟨trivial, h.1⟩
  | succ j ih =>
    intro w h
    obtain ⟨h1, h2⟩ := h
    obtain ⟨h3, h4⟩ := ih _ h2
    exact ⟨⟨h1, h3⟩, h4⟩

/-- While the budget lasts, each failing delivery leaves the record of the message
"pending" with one more attempt, the retry map one higher, and publishes nothing. -/
theorem failing_deliveries_state (C : NotificationConsumer) (m : MessageData)
    (msg : Delivery) (w : World)
    (hrec : w.recordsFor m.messageId = [])
    (hmap : RetryMap.get w.messageRetryMap m.messageId = none) :
    ∀ j : Nat, j ≤ C.notificationProcessor.maxRetries →
      C.failsOnEveryDelivery m msg j w →
      (C.deliveries m msg j w).2.currentRetry m.messageId = j ∧
      (C.deliveries m msg j w).2.mqFaults = w.mqFaults ∧
      (C.deliveries m msg j w).2.deadLettered m.messageId = w.deadLettered m.messageId ∧
      (j = 0 → (C.deliveries m msg j w).2.recordsFor m.messageId = []) ∧
      (0 < j → ∃ r, (C.deliveries m msg j w).2.recordsFor m.messageId = [r] ∧
        r.status = "pending" ∧ r.retriesAttempted = j) := by
  intro j
  induction j with
  | zero =>
    intro _ _
    refine ⟨?_, rfl, rfl, fun _ => hrec, fun h => absurd h (by omega)⟩
    simp [NotificationConsumer.deliveries, World.currentRetry, hmap]
  | succ j ih =>
    intro hle hfail
    obtain ⟨hfj, hfs⟩ := failsOnEveryDelivery_succ C m msg j w hfail
    obtain ⟨hcur, hmq, hdl, hzero, hpos⟩ := ih (by omega) hfj
    rw [deliveries_world_succ]
    obtain ⟨e, w1, w2, -, -, -, hmap', -, hmq', -⟩ :=
      processMessage_of_fails C m msg _ hfs
    obtain ⟨hnew, hupd, hdead⟩ := failing_delivery_step C m msg _ hfs
    have hlt : (C.deliveries m msg j w).2.currentRetry m.messageId
        < C.notificationProcessor.maxRetries := by omega
    simp only [hlt, if_true] at hmap' hmq' hnew hupd hdead
    refine ⟨?_, by rw [hmq', hmq], by rw [hdead, hdl]; rfl, fun h => absurd h (by omega), ?_⟩
    · show (RetryMap.get _ m.messageId).getD 0 = j + 1
      rw [hmap', RetryMap.get_set_self, hcur]
      rfl
    · intro _
      rcases Nat.eq_zero_or_pos j with hj | hj
      · obtain ⟨r, h1, h2, h3⟩ := hnew (hzero hj)
        exact ⟨r, h1, h2, by rw [h3, hcur]⟩
      · obtain ⟨r0, h1, -, h3⟩ := hpos hj
        obtain ⟨r, h4, h5, h6⟩ := hupd r0 h1
        exact ⟨r, h4, h5, by rw [h6, h3]⟩

/-- The failing delivery that finds the budget used up marks the record "failed" with one
more attempt and publishes one dead-letter message when the broker accepts it. -/
theorem failing_deliveries_terminal (C : NotificationConsumer) (m : MessageData)
    (msg : Delivery) (w : World)
    (hrec : w.recordsFor m.messageId = [])
    (hmap : RetryMap.get w.messageRetryMap m.messageId = none)
    (hfail : C.failsOnEveryDelivery m msg (C.notificationProcessor.maxRetries + 1) w)
    (hmq : w.nextMqFault = none) :
    (∃ r, (C.deliveries m msg (C.notificationProcessor.maxRetries + 1) w).2.recordsFor
        m.messageId = [r] ∧
      r.status = "failed" ∧ r.retriesAttempted = C.notificationProcessor.maxRetries + 1) ∧
    (C.deliveries m msg (C.notificationProcessor.maxRetries + 1) w).2.deadLettered
        m.messageId = w.deadLettered m.messageId + 1 := by
  obtain ⟨hfj, hfs⟩ := failsOnEveryDelivery_succ C m msg _ w hfail
  obtain ⟨hcur, hmq', hdl, hzero, hpos⟩ :=
    failing_deliveries_state C m msg w hrec hmap _ (Nat.le_refl _) hfj
  rw [deliveries_world_succ]
  obtain ⟨hnew, hupd, hdead⟩ := failing_delivery_step C m msg _ hfs
  have hlt : ¬ (C.deliveries m msg C.notificationProcessor.maxRetries w).2.currentRetry
      m.messageId < C.notificationProcessor.maxRetries := by omega
  have hq : (C.deliveries m msg C.notificationProcessor.maxRetries w).2.nextMqFault = none := by
    simp only [World.nextMqFault, hmq']
    exact hmq
  simp only [hlt, if_false, hq, if_true] at hnew hupd hdead
  refine ⟨?_, by rw [hdead, hdl]⟩
  rcases Nat.eq_zero_or_pos C.notificationProcessor.maxRetries with hj | hj
  · obtain ⟨r, h1, h2, h3⟩ := hnew (hzero hj)
    exact ⟨r, h1, h2, by rw [h3, hcur]⟩
  · obtain ⟨r0, h1, -, h3⟩ := hpos hj
    obtain ⟨r, h4, h5, h6⟩ := hupd r0 h1
    exact ⟨r, h4, h5, by rw [h6, h3]⟩

/-- C5, as stated, fails: with the default budget of 3 and a store on which BEGIN fails on
every delivery of the message "m2", after 3 failed attempts the record for "m2" has
`retriesAttempted = 3` but status "pending", not "failed", and no dead-letter message
has been published. -/
theorem scenario_c_counterexample :
    Sample.consumer.notificationProcessor.maxRetries = 3 ∧
    Sample.consumer.processingFails Sample.m2 Sample.failingWorld = true ∧
    Sample.consumer.processingFails Sample.m2
      (Sample.consumer.deliveries Sample.m2 Sample.delivery 1 Sample.failingWorld).2 = true ∧
    Sample.consumer.processingFails Sample.m2
      (Sample.consumer.deliveries Sample.m2 Sample.delivery 2 Sample.failingWorld).2 = true ∧
    ((Sample.consumer.deliveries Sample.m2 Sample.delivery 3 Sample.failingWorld).2.recordsFor
        "m2").map (fun r => (r.status, r.retriesAttempted)) = [("pending", 3)] ∧
    (Sample.consumer.deliveries Sample.m2 Sample.delivery 3
        Sample.failingWorld).2.deadLettered "m2" = 0 := by
  refine ⟨rfl, ?_, ?_, ?_, ?_, ?_⟩ <;> decide

/-- C5, amended (scenario C): with `maxRetries = 3`, a message without record or retry
count, processing that fails (and whose failure is recorded) on four successive
deliveries, and a broker that accepts the publish: after 3 failed attempts the record has
status "pending" and `retriesAttempted = 3` and no dead-letter message has been
published; after the 4th the record has status "failed" and `retriesAttempted = 4`, and
exactly one dead-letter message for the message has been published. -/
theorem scenario_c (C : NotificationConsumer) (m : MessageData) (msg : Delivery) (w : World)
    (hk : C.notificationProcessor.maxRetries = 3)
    (hrec : w.recordsFor m.messageId = [])
    (hmap : RetryMap.get w.messageRetryMap m.messageId = none)
    (hfail : C.failsOnEveryDelivery m msg 4 w)
    (hmq : Faults.healthy 2 w.mqFaults) :
    (∃ r, (C.deliveries m msg 3 w).2.recordsFor m.messageId = [r] ∧
      r.status = "pending" ∧ r.retriesAttempted = 3) ∧
    (C.deliveries m msg 3 w).2.deadLettered m.messageId = w.deadLettered m.messageId ∧
    (∃ r, (C.deliveries m msg 4 w).2.recordsFor m.messageId = [r] ∧
      r.status = "failed" ∧ r.retriesAttempted = 4) ∧
    (C.deliveries m msg 4 w).2.deadLettered m.messageId = w.deadLettered m.messageId + 1 := by
  have hfail3 : C.failsOnEveryDelivery m msg 3 w := (failsOnEveryDelivery_succ C m msg 3 w hfail).1
  obtain ⟨-, -, hdl, -, hpos⟩ :=
    failing_deliveries_state C m msg w hrec hmap 3 (by omega) hfail3
  have hterm := failing_deliveries_terminal C m msg w hrec hmap (by rw [hk]; exact hfail) hmq.1
  rw [hk] at hterm
  exact ⟨hpos (by omega), hdl, hterm.1, hterm.2⟩

/-- A run of the amended C5 on the sample world. -/
theorem scenario_c_witness :
    Sample.consumer.notificationProcessor.maxRetries = 3 ∧
    Sample.failingWorld.recordsFor Sample.m2.messageId = [] ∧
    Sample.consumer.failsOnEveryDelivery Sample.m2 Sample.delivery 4 Sample.failingWorld ∧
    Faults.healthy 2 Sample.failingWorld.mqFaults ∧
    (Sample.consumer.deliveries Sample.m2 Sample.delivery 3
        Sample.failingWorld).2.deadLettered Sample.m2.messageId =
      Sample.failingWorld.deadLettered Sample.m2.messageId ∧
    (Sample.consumer.deliveries Sample.m2 Sample.delivery 4
        Sample.failingWorld).2.deadLettered Sample.m2.messageId =
      Sample.failingWorld.deadLettered Sample.m2.messageId + 1 :=
  ⟨rfl, rfl, ⟨by decide, by decide, by decide, by decide, trivial⟩, ⟨rfl, rfl, trivial⟩,
   (scenario_c Sample.consumer Sample.m2 Sample.delivery Sample.failingWorld rfl rfl rfl
      ⟨by decide, by decide, by decide, by decide, trivial⟩ ⟨rfl, rfl, trivial⟩).2.1,
   (scenario_c Sample.consumer Sample.m2 Sample.delivery Sample.failingWorld rfl rfl rfl
      ⟨by decide, by decide, by decide, by decide, trivial⟩ ⟨rfl, rfl, trivial⟩).2.2.2⟩

/-- The verdict of `NotificationConsumer.handleFailure` is never a success verdict. -/
theorem consumer_handleFailure_not_success (C : NotificationConsumer) (m : MessageData)
    (e : JsError) (msg : Delivery) (w : World) :
    ∃ v, (C.handleFailure m e msg w).1 = .ok v ∧ v.success = false := by
  unfold NotificationConsumer.handleFailure
  dsimp only
  rcases C.notificationProcessor.handleFailure m e
    ((RetryMap.get w.messageRetryMap m.messageId).getD 0) w with ⟨res, w2⟩
  cases res with
  | error e2 => exact ⟨_, rfl, rfl⟩
  | ok r =>
    dsimp only
    by_cases hr : r.shouldRetry = true
    · rw [if_pos hr]; exact ⟨_, rfl, rfl⟩
    · rw [if_neg hr, sendToDLQ_eq]
      exact ⟨_, rfl, rfl⟩

/-- C10, as stated, fails: when the INSERT of `processNotification` fails with a
uniqueness violation, the call throws that error instead of reporting a duplicate, and
the consumer requeues the message: it enters the retry path. -/
theorem late_duplicate_counterexample :
    (Sample.processor.processNotification Sample.m1 Sample.racingWorld).1 =
      .error Sample.uniqueViolation ∧
    (Sample.consumer.processMessage Sample.m1 Sample.delivery Sample.racingWorld).1 =
      .ok Verdict.requeued ∧
    RetryMap.get (Sample.consumer.processMessage Sample.m1 Sample.delivery
      Sample.racingWorld).2.messageRetryMap "m1" = some 1 :=
  ⟨rfl, rfl, by decide⟩

/-- C10, amended (late duplicate): when the lookup of `processNotification` finds no
record and its INSERT fails with an error `e` (in particular a uniqueness violation on
`message_id`), `processNotification` sends ROLLBACK and throws: `e` itself when the
ROLLBACK succeeds; no duplicate is reported, the table is as before, and `processMessage`
hands the error to the failure handling, whose verdict is not a success: with the
failure recorded and budget left the message is requeued. -/
theorem late_duplicate (C : NotificationConsumer) (m : MessageData) (msg : Delivery)
    (w : World) (e : JsError)
    (hrec : w.recordsFor m.messageId = [])
    (hdb : Faults.healthy 3 w.dbFaults)
    (hins : Faults.next w.dbFaults.tail.tail.tail = some e) :
    (∃ e', (C.notificationProcessor.processNotification m w).1 = .error e') ∧
    (Faults.next w.dbFaults.tail.tail.tail.tail = none →
      (C.notificationProcessor.processNotification m w).1 = .error e) ∧
    (C.notificationProcessor.processNotification m w).2.rows = w.rows ∧
    (C.notificationProcessor.processNotification m w).2.trace =
      w.trace ++ [.connect, .query .begin, .query (.selectIdStatus m.messageId),
        .query (.insertNotification m.targetUserId m.type m.payload.stringify
          m.messageId "processed"), .query .rollback, .release] ∧
    (∃ v, (C.processMessage m msg w).1 = .ok v ∧ v.success = false) ∧
    (Faults.healthy 4 w.dbFaults.tail.tail.tail.tail →
      w.currentRetry m.messageId < C.notificationProcessor.maxRetries →
      (C.processMessage m msg w).1 = .ok Verdict.requeued) := by
  simp only [Faults.healthy_succ] at hdb
  obtain ⟨h0, h1, h2, -⟩ := hdb
  unfold World.recordsFor at hrec
  have hrun : ∃ e', C.notificationProcessor.processNotification m w =
      (.error e',
       { w with
         now := w.now + 1,
         nextId := (C.notificationProcessor.processNotification m w).2.nextId,
         dbFaults := w.dbFaults.tail.tail.tail.tail.tail,
         trace := w.trace ++ [.connect, .query .begin, .query (.selectIdStatus m.messageId),
           .query (.insertNotification m.targetUserId m.type m.payload.stringify
             m.messageId "processed"), .query .rollback, .release] }) ∧
      (Faults.next w.dbFaults.tail.tail.tail.tail = none → e' = e) := by
    cases h4 : Faults.next w.dbFaults.tail.tail.tail.tail with
    | none =>
      refine ⟨e, ?_, fun _ => rfl⟩
      simp [NotificationProcessor.processNotification,
        NotificationProcessor.processNotification.tryBlock, Pool.connect, Client.query,
        Client.exec, Client.sent, Client.release, Client.committed, World.logDb,
        World.connecting, World.checkout, World.nextDbFault, h0, h1, h2, hins, h4, hrec]
    | some e4 =>
      refine ⟨e4, ?_, fun h => by simp at h⟩
      simp [NotificationProcessor.processNotification,
        NotificationProcessor.processNotification.tryBlock, Pool.connect, Client.query,
        Client.exec, Client.sent, Client.release, Client.committed, World.logDb,
        World.connecting, World.checkout, World.nextDbFault, h0, h1, h2, hins, h4, hrec]
  obtain ⟨e', hpn, he'⟩ := hrun
  have hv : (C.processMessage m msg w).1 = (C.handleFailure m e' msg
      (C.notificationProcessor.processNotification m w).2).1 := by
    unfold NotificationConsumer.processMessage
    rw [hpn]
  refine ⟨⟨e', by rw [hpn]⟩, ?_, by rw [hpn], by rw [hpn], ?_, ?_⟩
  · intro h4
    rw [hpn, he' h4]
  · rw [hv]
    exact consumer_handleFailure_not_success C m e' msg _
  · intro hdb2 hlt
    simp only [Faults.healthy_succ] at hdb2
    obtain ⟨h4, h5, h6, h7, -⟩ := hdb2
    rw [hv, hpn]
    unfold World.currentRetry at hlt
    simp [NotificationConsumer.handleFailure, NotificationProcessor.handleFailure,
      NotificationProcessor.handleFailure.tryBlock, Pool.connect, Client.query,
      Client.exec, Client.sent, Client.release, Client.committed, World.logDb,
      World.connecting, World.checkout, World.nextDbFault, h5, h6, h7, hrec, hlt,
      Verdict.requeued]

/-- A run of the amended C10: the INSERT fails with a uniqueness violation. -/
theorem late_duplicate_witness :
    Sample.racingWorld.recordsFor Sample.m1.messageId = [] ∧
    Faults.healthy 3 Sample.racingWorld.dbFaults ∧
    Faults.next Sample.racingWorld.dbFaults.tail.tail.tail = some Sample.uniqueViolation ∧
    (Sample.consumer.notificationProcessor.processNotification Sample.m1
      Sample.racingWorld).1 = .error Sample.uniqueViolation ∧
    (Sample.consumer.processMessage Sample.m1 Sample.delivery Sample.racingWorld).1 =
      .ok Verdict.requeued :=
  ⟨rfl, ⟨rfl, rfl, rfl, trivial⟩, rfl,
   (late_duplicate Sample.consumer Sample.m1 Sample.delivery Sample.racingWorld
      Sample.uniqueViolation rfl ⟨rfl, rfl, rfl, trivial⟩ rfl).2.1 rfl,
   (late_duplicate Sample.consumer Sample.m1 Sample.delivery Sample.racingWorld
      Sample.uniqueViolation rfl ⟨rfl, rfl, rfl, trivial⟩ rfl).2.2.2.2.2
      ⟨rfl, rfl, rfl, rfl, trivial⟩ (by decide)⟩

/-! ### Malformed input -/

/-- C11 (malformed input): for every delivery whose body the parser rejects, the handler
of `consumeQueue` does not call the callback (its result is the same for every callback):
the world after it is the world before it with one `nack` without requeue added to the
trace, so no store call is made, the table and the retry map are as before, and neither
an `ack` nor a `nack` with requeue is issued. -/
theorem malformed_input (parse : String → Except JsError MessageData)
    (callback : MessageData → Delivery → World → Except JsError Verdict × World)
    (msg : Delivery) (w : World) (e : JsError) (hparse : parse msg.content = .error e) :
    RabbitMQClient.consumeQueue.onMessage parse callback (some msg) w =
      Channel.nack msg false false w ∧
    (RabbitMQClient.consumeQueue.onMessage parse callback (some msg) w).trace =
      w.trace ++ [Event.nack msg.deliveryTag false false] ∧
    (RabbitMQClient.consumeQueue.onMessage parse callback (some msg) w).rows = w.rows ∧
    (RabbitMQClient.consumeQueue.onMessage parse callback (some msg) w).messageRetryMap =
      w.messageRetryMap ∧
    (RabbitMQClient.consumeQueue.onMessage parse callback (some msg) w).dbFaults =
      w.dbFaults ∧
    ∀ C : NotificationConsumer, C.onDelivery parse msg w = Channel.nack msg false false w := by
  have h : ∀ cb, RabbitMQClient.consumeQueue.onMessage parse cb (some msg) w =
      Channel.nack msg false false w := by
    intro cb
    unfold RabbitMQClient.consumeQueue.onMessage
    simp [hparse]
  refine ⟨h callback, ?_, ?_, ?_, ?_, fun C => h _⟩ <;> rw [h callback] <;> rfl

/-- A run of C11 on the sample world: the only event is the `nack` without requeue. -/
theorem malformed_input_witness :
    Sample.parseError Sample.delivery.content =
      .error { message := "Unexpected token in JSON", code := none } ∧
    (Sample.consumer.onDelivery Sample.parseError Sample.delivery Sample.world).trace =
      [Event.nack 7 false false] ∧
    (Sample.consumer.onDelivery Sample.parseError Sample.delivery Sample.world).rows = [] :=
  ⟨rfl,
   (malformed_input Sample.parseError Sample.consumer.processMessage Sample.delivery
      Sample.world _ rfl).2.1,
   (malformed_input Sample.parseError Sample.consumer.processMessage Sample.delivery
      Sample.world _ rfl).2.2.1⟩

/-! ### Scoped connection -/

theorem countP_isRelease_queries (qs : List Sql) :
    (qs.map Event.query).countP Event.isRelease = 0 := by
  rw [List.countP_eq_zero]
  intro ev hev
  obtain ⟨q, -, rfl⟩ := List.mem_map.1 hev
  simp [Event.isRelease]

/-- C13 (scoped connection): in every run of `processNotification` and of
`NotificationProcessor.handleFailure` in which `pool.connect()` hands out a client, under
every script of faults of the statements (ROLLBACK included) and for every outcome
(fresh, duplicate or thrown error), the events of the run are the checkout, then
statements, then one release: the client is released exactly once, after the last
statement. -/
theorem scoped_connection (P : NotificationProcessor) (m : MessageData) (err : JsError)
    (n : Nat) (w : World) (hconn : w.nextDbFault = none) :
    (∃ qs : List Sql,
      (P.processNotification m w).2.trace =
        w.trace ++ [Event.connect] ++ qs.map Event.query ++ [Event.release] ∧
      ([Event.connect] ++ qs.map Event.query ++ [Event.release]).countP Event.isRelease = 1) ∧
    (∃ qs : List Sql,
      (P.handleFailure m err n w).2.trace =
        w.trace ++ [Event.connect] ++ qs.map Event.query ++ [Event.release] ∧
      ([Event.connect] ++ qs.map Event.query ++ [Event.release]).countP Event.isRelease = 1) := by
  have hcount : ∀ qs : List Sql,
      ([Event.connect] ++ qs.map Event.query ++ [Event.release]).countP Event.isRelease = 1 := by
    intro qs
    simp [List.countP_append, countP_isRelease_queries, Event.isRelease, List.countP_cons]
  constructor
  · rcases processNotification_path P m w with ⟨e, hf, -⟩ | ⟨-, qs, hqs, -⟩
    · rw [hconn] at hf; cases hf
    · exact ⟨qs, by rw [hqs, Client.release_play_trace], hcount qs⟩
  · rcases handleFailure_spec P m err n w with ⟨e, hf, -⟩ | ⟨-, qs, hqs, -⟩
    · rw [hconn] at hf; cases hf
    · exact ⟨qs, by rw [hqs, Client.release_play_trace], hcount qs⟩

/-- A run of C13: a `processNotification` whose BEGIN fails and a `handleFailure` that
throws each release their client once (the lookup of `handleFailure` fails). -/
theorem scoped_connection_witness :
    Sample.failingOnceWorld.nextDbFault = none ∧
    (Sample.processor.processNotification Sample.m2
        Sample.failingOnceWorld).2.trace.countP Event.isRelease = 1 ∧
    (Sample.processor.handleFailure Sample.m2 Sample.dbError 0
        Sample.failingOnceWorld).2.trace.countP Event.isRelease = 1 :=
  ⟨rfl,
   match (scoped_connection Sample.processor Sample.m2 Sample.dbError 0
      Sample.failingOnceWorld rfl).1 with
   | ⟨_, h, hc⟩ => by rw [h, List.append_assoc, List.append_assoc, List.countP_append,
                         ← List.append_assoc, hc]; rfl,
   match (scoped_connection Sample.processor Sample.m2 Sample.dbError 0
      Sample.failingOnceWorld rfl).2 with
   | ⟨_, h, hc⟩ => by rw [h, List.append_assoc, List.append_assoc, List.countP_append,
                         ← List.append_assoc, hc]; rfl⟩

/-! ### The table after `processNotification` -/

/-- The rows after a `try` block of `processNotification` that resolves: the rows before
it, or these with the fresh record added and `processed_at` set on its id. -/
theorem processNotification_tryBlock_rows_exact (m : MessageData) (c : Client)
    (hc : c.snapshot = none) :
    ∀ r c', NotificationProcessor.processNotification.tryBlock m c = (.ok r, c') →
      c'.snapshot = none ∧
      (c'.world.rows = c.world.rows ∨
       (c.world.rows.filter (fun r => r.messageId = m.messageId) = [] ∧
        c'.world.rows =
          (c.world.rows ++
            [({ id := c.world.nextId, userId := m.targetUserId, type := m.type,
                payload := m.payload.stringify, messageId := m.messageId,
                status := "processed", retriesAttempted := 0, errorMessage := none,
                createdAt := some c.world.now, processedAt := none } :
                NotificationRecord)]).map
            (fun r => if r.id = c.world.nextId
                      then { r with processedAt := some c.world.now } else r))) := by
  unfold NotificationProcessor.processNotification.tryBlock
  rcases Client.query_cases .begin c with ⟨e, h⟩ | h <;> rw [h] <;> dsimp only
  · simp
  generalize hc1 : (Client.exec Sql.begin (Client.sent Sql.begin c)).2 = c1
  have r1 : c1.world.rows = c.world.rows := by subst hc1; simp [Client.exec]
  have n1 : c1.world.nextId = c.world.nextId := by
    subst hc1; simp [Client.exec, Client.sent, World.logDb]
  have t1 : c1.world.now = c.world.now := by
    subst hc1; simp [Client.exec, Client.sent, World.logDb]
  rcases Client.query_cases (.selectIdStatus m.messageId) c1 with ⟨e, h⟩ | h <;> rw [h] <;>
    dsimp only
  · simp
  generalize hc2 : (Client.exec (Sql.selectIdStatus m.messageId)
      (Client.sent (Sql.selectIdStatus m.messageId) c1)).2 = c2
  have r2 : c2.world.rows = c.world.rows := by subst hc2; simp [Client.exec, r1]
  have n2 : c2.world.nextId = c.world.nextId := by
    subst hc2; simp [Client.exec, Client.sent, World.logDb, n1]
  have t2 : c2.world.now = c.world.now := by
    subst hc2; simp [Client.exec, Client.sent, World.logDb, t1]
  have hres : (Client.exec (Sql.selectIdStatus m.messageId)
      (Client.sent (Sql.selectIdStatus m.messageId) c1)).1
      = c.world.rows.filter (fun r => r.messageId = m.messageId) := by simp [Client.exec, r1]
  rw [hres]
  by_cases hlen : (c.world.rows.filter (fun r => r.messageId = m.messageId)).length > 0
  · rw [if_pos hlen]
    rcases Client.query_cases .rollback c2 with ⟨e, h⟩ | h <;> rw [h] <;> dsimp only
    · simp
    · have s2 : c2.snapshot = some c.world.rows := by
        subst hc2 hc1; simp [Client.exec, Client.committed, hc]
      simp [Client.exec, Client.committed, s2]
  rw [if_neg hlen]
  have hnil : c.world.rows.filter (fun r => r.messageId = m.messageId) = [] := by
    simpa using hlen
  generalize hq3 : Sql.insertNotification m.targetUserId m.type m.payload.stringify
      m.messageId "processed" = q3
  rcases Client.query_cases q3 c2 with ⟨e, h⟩ | h <;> rw [h] <;> dsimp only
  · simp
  generalize hc3 : (Client.exec q3 (Client.sent q3 c2)).2 = c3
  generalize hrow : (Client.exec q3 (Client.sent q3 c2)).1 = res3
  subst hq3
  have hres3 : res3 =
      [({ id := c.world.nextId, userId := m.targetUserId, type := m.type,
          payload := m.payload.stringify, messageId := m.messageId,
          status := "processed", retriesAttempted := 0, errorMessage := none,
          createdAt := some c.world.now, processedAt := none } : NotificationRecord)] := by
    subst hrow
    simp [Client.exec, Client.sent, World.logDb, n2, t2, Schema.defaultRetriesAttempted]
  have r3 : c3.world.rows = c.world.rows ++ res3 := by
    subst hc3 hres3
    simp [Client.exec, Client.sent, World.logDb, r2, n2, t2, Schema.defaultRetriesAttempted]
  have t3 : c3.world.now = c.world.now := by
    subst hc3; simp [Client.exec, Client.sent, World.logDb, t2]
  subst hres3
  simp only [List.head?_cons]
  rcases Client.query_cases (.updateProcessedAt c.world.nextId) c3 with ⟨e, h⟩ | h <;>
    rw [h] <;> dsimp only
  · simp
  generalize hc4 : (Client.exec (.updateProcessedAt c.world.nextId)
      (Client.sent (.updateProcessedAt c.world.nextId) c3)).2 = c4
  have r4 : c4.world.rows = (c.world.rows ++
      [({ id := c.world.nextId, userId := m.targetUserId, type := m.type,
          payload := m.payload.stringify, messageId := m.messageId,
          status := "processed", retriesAttempted := 0, errorMessage := none,
          createdAt := some c.world.now, processedAt := none } : NotificationRecord)]).map
      (fun r => if r.id = c.world.nextId
                then { r with processedAt := some c.world.now } else r) := by
    subst hc4
    simp only [Client.exec, Client.sent_rows, r3]
    simp [Client.sent, World.logDb, t3]
  rcases Client.query_cases .commit c4 with ⟨e, h⟩ | h <;> rw [h] <;> dsimp only
  · simp
  · intro r c' hrc
    simp only [Prod.mk.injEq] at hrc
    obtain ⟨-, hc'⟩ := hrc
    subst hc'
    refine ⟨by simp [Client.exec], Or.inr ⟨hnil, ?_⟩⟩
    simp only [Client.exec, Client.sent_rows]
    exact r4

/-- The table after a `processNotification` call: as before when it throws; as before,
or with the fresh record added and `processed_at` set on its id, when it resolves. -/
theorem processNotification_rows (P : NotificationProcessor) (m : MessageData) (w : World) :
    (P.processNotification m w).2.rows = w.rows ∨
    ((∃ r, (P.processNotification m w).1 = .ok r) ∧ w.recordsFor m.messageId = [] ∧
      (P.processNotification m w).2.rows =
        (w.rows ++
          [({ id := w.nextId, userId := m.targetUserId, type := m.type,
              payload := m.payload.stringify, messageId := m.messageId,
              status := "processed", retriesAttempted := 0, errorMessage := none,
              createdAt := some (w.now + 1), processedAt := none } : NotificationRecord)]).map
          (fun r => if r.id = w.nextId
                    then { r with processedAt := some (w.now + 1) } else r)) := by
  rcases hres : P.processNotification m w with ⟨res, w'⟩
  cases res with
  | error e => exact Or.inl ((processNotification_messageIds P m w).1 e w' hres)
  | ok r =>
    unfold NotificationProcessor.processNotification Pool.connect at hres
    cases hf : w.nextDbFault with
    | some e => rw [hf] at hres; simp at hres
    | none =>
      rw [hf] at hres
      dsimp only at hres
      rcases htb : NotificationProcessor.processNotification.tryBlock m w.checkout with
        ⟨res, c1⟩
      rw [htb] at hres
      cases res with
      | error err =>
        dsimp only at hres
        rcases Client.query_cases .rollback c1 with ⟨e, h⟩ | h <;> rw [h] at hres <;>
          simp at hres
      | ok r1 =>
        simp only [Prod.mk.injEq, Except.ok.injEq] at hres
        obtain ⟨-, hw'⟩ := hres
        obtain ⟨hs, hcase⟩ := processNotification_tryBlock_rows_exact m w.checkout rfl r1 c1 htb
        have hrel : c1.release.rows = c1.world.rows := by
          simp [Client.release, Client.committed, hs]
        subst hw'
        rcases hcase with h1 | ⟨h1, h2⟩
        · exact Or.inl (by rw [hrel, h1]; rfl)
        · exact Or.inr ⟨⟨r, rfl⟩, h1, by rw [hrel, h2]; rfl⟩

/-! ### Transactional atomicity -/

/-- C12, as stated, fails: the INSERT fails with one error and the ROLLBACK of the `catch`
block fails with another; `processNotification` throws the error of the ROLLBACK, not the
error of the INSERT. -/
theorem transactional_atomicity_counterexample :
    Faults.healthy 3 Sample.lostConnectionWorld.dbFaults ∧
    Faults.next Sample.lostConnectionWorld.dbFaults.tail.tail.tail = some Sample.dbError ∧
    (Sample.processor.processNotification Sample.m1 Sample.lostConnectionWorld).1 =
      .error Sample.rollbackError ∧
    Sample.rollbackError ≠ Sample.dbError :=
  ⟨⟨rfl, rfl, rfl, trivial⟩, rfl, rfl, by decide⟩

/-- C12, amended (transactional atomicity): when the lookup, the INSERT or the UPDATE of
`processed_at` fails with an error `e`, `processNotification` sends ROLLBACK as its last
statement, sends no COMMIT, leaves the table as it was, and throws: `e` when the ROLLBACK
succeeds, the error of the ROLLBACK when that fails; and, under every script of faults,
every row of the table after the call that was not in the table before it has
`processedAt` set. -/
theorem transactional_atomicity (P : NotificationProcessor) (m : MessageData) (w : World)
    (e : JsError) :
    (Faults.healthy 2 w.dbFaults → Faults.next w.dbFaults.tail.tail = some e →
      (P.processNotification m w).2.trace =
        w.trace ++ [.connect, .query .begin, .query (.selectIdStatus m.messageId),
          .query .rollback, .release] ∧
      (P.processNotification m w).2.rows = w.rows ∧
      (Faults.next w.dbFaults.tail.tail.tail = none →
        (P.processNotification m w).1 = .error e) ∧
      (∀ e2, Faults.next w.dbFaults.tail.tail.tail = some e2 →
        (P.processNotification m w).1 = .error e2)) ∧
    (Faults.healthy 3 w.dbFaults → w.recordsFor m.messageId = [] →
      Faults.next w.dbFaults.tail.tail.tail = some e →
      (P.processNotification m w).2.trace =
        w.trace ++ [.connect, .query .begin, .query (.selectIdStatus m.messageId),
          .query (.insertNotification m.targetUserId m.type m.payload.stringify
            m.messageId "processed"),
          .query .rollback, .release] ∧
      (P.processNotification m w).2.rows = w.rows ∧
      (Faults.next w.dbFaults.tail.tail.tail.tail = none →
        (P.processNotification m w).1 = .error e) ∧
      (∀ e2, Faults.next w.dbFaults.tail.tail.tail.tail = some e2 →
        (P.processNotification m w).1 = .error e2)) ∧
    (Faults.healthy 4 w.dbFaults → w.recordsFor m.messageId = [] →
      Faults.next w.dbFaults.tail.tail.tail.tail = some e →
      (P.processNotification m w).2.trace =
        w.trace ++ [.connect, .query .begin, .query (.selectIdStatus m.messageId),
          .query (.insertNotification m.targetUserId m.type m.payload.stringify
            m.messageId "processed"),
          .query (.updateProcessedAt w.nextId), .query .rollback, .release] ∧
      (P.processNotification m w).2.rows = w.rows ∧
      (Faults.next w.dbFaults.tail.tail.tail.tail.tail = none →
        (P.processNotification m w).1 = .error e) ∧
      (∀ e2, Faults.next w.dbFaults.tail.tail.tail.tail.tail = some e2 →
        (P.processNotification m w).1 = .error e2)) ∧
    (∀ r ∈ (P.processNotification m w).2.rows, r ∈ w.rows ∨ r.processedAt ≠ none) := by
  refine ⟨?_, ?_, ?_, ?_⟩
  · intro hdb hfail
    simp only [Faults.healthy_succ] at hdb
    obtain ⟨h0, h1, -⟩ := hdb
    cases h3 : Faults.next w.dbFaults.tail.tail.tail <;>
    simp [NotificationProcessor.processNotification,
      NotificationProcessor.processNotification.tryBlock, Pool.connect, Client.query,
      Client.exec, Client.sent, Client.release, Client.committed, World.logDb,
      World.connecting, World.checkout, World.nextDbFault, h0, h1, hfail, h3]
  · intro hdb hrec hfail
    simp only [Faults.healthy_succ] at hdb
    obtain ⟨h0, h1, h2, -⟩ := hdb
    unfold World.recordsFor at hrec
    cases h4 : Faults.next w.dbFaults.tail.tail.tail.tail <;>
    simp [NotificationProcessor.processNotification,
      NotificationProcessor.processNotification.tryBlock, Pool.connect, Client.query,
      Client.exec, Client.sent, Client.release, Client.committed, World.logDb,
      World.connecting, World.checkout, World.nextDbFault, h0, h1, h2, hfail, h4, hrec]
  · intro hdb hrec hfail
    simp only [Faults.healthy_succ] at hdb
    obtain ⟨h0, h1, h2, h3, -⟩ := hdb
    unfold World.recordsFor at hrec
    cases h5 : Faults.next w.dbFaults.tail.tail.tail.tail.tail <;>
    simp [NotificationProcessor.processNotification,
      NotificationProcessor.processNotification.tryBlock, Pool.connect, Client.query,
      Client.exec, Client.sent, Client.release, Client.committed, World.logDb,
      World.connecting, World.checkout, World.nextDbFault, h0, h1, h2, h3, hfail, h5, hrec]
  · intro r hr
    rcases processNotification_rows P m w with h | ⟨-, -, h⟩
    · rw [h] at hr; exact Or.inl hr
    · rw [h] at hr
      obtain ⟨r0, hr0, rfl⟩ := List.mem_map.1 hr
      by_cases hid : r0.id = w.nextId
      · right; simp [hid]
      · rcases List.mem_append.1 hr0 with h0 | h0
        · left; simpa [hid] using h0
        · simp only [List.mem_singleton] at h0
          subst h0
          exact absurd rfl hid

/-- A run of the amended C12: the INSERT fails, the ROLLBACK succeeds (uniqueness
violation), and the INSERT fails, the ROLLBACK fails (lost connection). -/
theorem transactional_atomicity_witness :
    Faults.healthy 3 Sample.racingWorld.dbFaults ∧
    Sample.racingWorld.recordsFor Sample.m1.messageId = [] ∧
    Faults.next Sample.racingWorld.dbFaults.tail.tail.tail = some Sample.uniqueViolation ∧
    (Sample.processor.processNotification Sample.m1 Sample.racingWorld).1 =
      .error Sample.uniqueViolation ∧
    (Sample.processor.processNotification Sample.m1 Sample.racingWorld).2.rows = [] ∧
    (Sample.processor.processNotification Sample.m1 Sample.lostConnectionWorld).1 =
      .error Sample.rollbackError :=
  ⟨⟨rfl, rfl, rfl, trivial⟩, rfl, rfl,
   ((transactional_atomicity Sample.processor Sample.m1 Sample.racingWorld
      Sample.uniqueViolation).2.1 ⟨rfl, rfl, rfl, trivial⟩ rfl rfl).2.2.1 rfl,
   ((transactional_atomicity Sample.processor Sample.m1 Sample.racingWorld
      Sample.uniqueViolation).2.1 ⟨rfl, rfl, rfl, trivial⟩ rfl rfl).2.1,
   ((transactional_atomicity Sample.processor Sample.m1 Sample.lostConnectionWorld
      Sample.dbError).2.1 ⟨rfl, rfl, rfl, trivial⟩ rfl rfl).2.2.2 _ rfl⟩

/-! ### The failure record -/

/-- C14 (failure record creation): when `NotificationProcessor.handleFailure` finds no
record for the message identifier and its three store calls succeed (connect, lookup,
INSERT), it sends one INSERT and the table is the table before it with exactly one row
added: the target user, type, serialised payload and identifier of the message, status
"pending" if the prior retry count is below `maxRetries` and "failed" otherwise,
`retriesAttempted` the prior count plus one and `errorMessage` the message of the
error. -/
theorem failure_record_creation (P : NotificationProcessor) (m : MessageData)
    (err : JsError) (n : Nat) (w : World)
    (hrec : w.recordsFor m.messageId = [])
    (hdb : Faults.healthy 3 w.dbFaults) :
    (P.handleFailure m err n w).2.rows =
      w.rows ++
        [{ id := w.nextId, userId := m.targetUserId, type := m.type,
           payload := m.payload.stringify, messageId := m.messageId,
           status := if n < P.maxRetries then "pending" else "failed",
           retriesAttempted := n + 1, errorMessage := some err.message,
           createdAt := some (w.now + 1), processedAt := none }] ∧
    (P.handleFailure m err n w).2.trace =
      w.trace ++ [.connect, .query (.selectIdRetries m.messageId),
        .query (.insertFailure m.targetUserId m.type m.payload.stringify m.messageId
          (if n < P.maxRetries then "pending" else "failed") (n + 1) err.message),
        .release] ∧
    (P.handleFailure m err n w).2.recordsFor m.messageId =
      [{ id := w.nextId, userId := m.targetUserId, type := m.type,
         payload := m.payload.stringify, messageId := m.messageId,
         status := if n < P.maxRetries then "pending" else "failed",
         retriesAttempted := n + 1, errorMessage := some err.message,
         createdAt := some (w.now + 1), processedAt := none }] := by
  simp only [Faults.healthy_succ] at hdb
  obtain ⟨h0, h1, h2, -⟩ := hdb
  have hrec' := hrec
  unfold World.recordsFor at hrec'
  have hrows : (P.handleFailure m err n w).2.rows =
      w.rows ++
        [{ id := w.nextId, userId := m.targetUserId, type := m.type,
           payload := m.payload.stringify, messageId := m.messageId,
           status := if n < P.maxRetries then "pending" else "failed",
           retriesAttempted := n + 1, errorMessage := some err.message,
           createdAt := some (w.now + 1), processedAt := none }] := by
    by_cases hlt : n < P.maxRetries <;>
    simp [NotificationProcessor.handleFailure, NotificationProcessor.handleFailure.tryBlock,
      Pool.connect, Client.query, Client.exec, Client.sent, Client.release,
      Client.committed, World.logDb, World.connecting, World.checkout, World.nextDbFault,
      h0, h1, h2, hrec', hlt, Schema.defaultCreatedAt]
  refine ⟨hrows, ?_, ?_⟩
  · by_cases hlt : n < P.maxRetries <;>
    simp [NotificationProcessor.handleFailure, NotificationProcessor.handleFailure.tryBlock,
      Pool.connect, Client.query, Client.exec, Client.sent, Client.release,
      Client.committed, World.logDb, World.connecting, World.checkout, World.nextDbFault,
      h0, h1, h2, hrec', hlt]
  · unfold World.recordsFor
    rw [hrows, List.filter_append, hrec']
    simp

/-- A run of C14: the first failure of the message of scenario C with the default
budget, and a failure that finds the budget used up. -/
theorem failure_record_creation_witness :
    Sample.world.recordsFor Sample.m2.messageId = [] ∧
    Faults.healthy 3 Sample.world.dbFaults ∧
    (Sample.processor.handleFailure Sample.m2 Sample.dbError 0 Sample.world).2.rows =
      [{ id := 1, userId := "u2", type := "sms", payload := Sample.m2.payload.stringify,
         messageId := "m2", status := "pending", retriesAttempted := 1,
         errorMessage := some "connection terminated", createdAt := some 101,
         processedAt := none }] ∧
    (Sample.processor.handleFailure Sample.m2 Sample.dbError 3 Sample.world).2.rows =
      [{ id := 1, userId := "u2", type := "sms", payload := Sample.m2.payload.stringify,
         messageId := "m2", status := "failed", retriesAttempted := 4,
         errorMessage := some "connection terminated", createdAt := some 101,
         processedAt := none }] :=
  ⟨rfl, ⟨rfl, rfl, rfl, trivial⟩,
   (failure_record_creation Sample.processor Sample.m2 Sample.dbError 0 Sample.world rfl
      ⟨rfl, rfl, rfl, trivial⟩).1,
   (failure_record_creation Sample.processor Sample.m2 Sample.dbError 3 Sample.world rfl
      ⟨rfl, rfl, rfl, trivial⟩).1⟩

/-- C15 (failure update frame): when the table holds a record for the message identifier,
under every script of store faults the table after
`NotificationProcessor.handleFailure` has the same rows in the same order (none added,
none removed), each with its `id`, `messageId`, `userId`, `type`, `payload`, `createdAt`
and `processedAt` as before, and every row of another message identifier is unchanged;
the table is the one before the call, or that one with `retriesAttempted`, `status` and
`errorMessage` of the rows of the message identifier rewritten. -/
theorem failure_update_frame (P : NotificationProcessor) (m : MessageData) (err : JsError)
    (n : Nat) (w : World) (hrec : w.recordsFor m.messageId ≠ []) :
    List.Forall₂ (NotificationRecord.FailureUpdateOf m.messageId) w.rows
      (P.handleFailure m err n w).2.rows ∧
    (P.handleFailure m err n w).2.rows.length = w.rows.length ∧
    ((P.handleFailure m err n w).2.rows = w.rows ∨
      ∃ row0 rest, w.recordsFor m.messageId = row0 :: rest ∧
        (P.handleFailure m err n w).2.rows =
          w.rows.map (fun r =>
            if r.messageId = m.messageId then
              { r with retriesAttempted := row0.retriesAttempted + 1,
                       status := if n < P.maxRetries then "pending" else "failed",
                       errorMessage := some err.message }
            else r)) := by
  have hcase : (P.handleFailure m err n w).2.rows = w.rows ∨
      ∃ row0 rest, w.recordsFor m.messageId = row0 :: rest ∧
        (P.handleFailure m err n w).2.rows =
          w.rows.map (fun r =>
            if r.messageId = m.messageId then
              { r with retriesAttempted := row0.retriesAttempted + 1,
                       status := if n < P.maxRetries then "pending" else "failed",
                       errorMessage := some err.message }
            else r) := by
    rcases handleFailure_spec P m err n w with ⟨e, -, h⟩ | ⟨-, qs, -, hc⟩
    · left; rw [h]; rfl
    · rcases hc with ⟨-, hr, -⟩ | ⟨-, hR, -⟩ | ⟨-, row0, rest, hR, -, hr⟩
      · exact Or.inl hr
      · exact absurd hR hrec
      · exact Or.inr ⟨row0, rest, hR, hr⟩
  have hsame : List.Forall₂ (NotificationRecord.FailureUpdateOf m.messageId) w.rows w.rows :=
    List.forall₂_same.2 (fun r _ => ⟨rfl, rfl, rfl, rfl, rfl, rfl, rfl, fun _ => rfl⟩)
  have hall : List.Forall₂ (NotificationRecord.FailureUpdateOf m.messageId) w.rows
      (P.handleFailure m err n w).2.rows := by
    rcases hcase with h | ⟨row0, rest, -, h⟩
    · rw [h]; exact hsame
    · rw [h, List.forall₂_map_right_iff, List.forall₂_same]
      intro r _
      by_cases hm : r.messageId = m.messageId
      · simp only [hm, if_true]
        exact ⟨rfl, hm.symm ▸ rfl, rfl, rfl, rfl, rfl, rfl, fun hne => absurd hm hne⟩
      · simp only [hm, if_false]
        exact ⟨rfl, rfl, rfl, rfl, rfl, rfl, rfl, fun _ => rfl⟩
  exact ⟨hall, hall.length_eq.symm, hcase⟩

/-- A run of C15: a failure recorded on the processed record of scenario A. -/
theorem failure_update_frame_witness :
    Sample.processedWorld.recordsFor Sample.m1.messageId ≠ [] ∧
    (Sample.processor.handleFailure Sample.m1 Sample.dbError 0
        Sample.processedWorld).2.rows.length = 1 ∧
    (Sample.processor.handleFailure Sample.m1 Sample.dbError 0 Sample.processedWorld).2.rows =
      [{ id := 1, userId := "u1", type := "email", payload := "payload",
         messageId := "m1", status := "pending", retriesAttempted := 1,
         errorMessage := some "connection terminated", createdAt := some 101,
         processedAt := some 101 }] :=
  ⟨by decide,
   (failure_update_frame Sample.processor Sample.m1 Sample.dbError 0 Sample.processedWorld
      (by decide)).2.1,
   by decide⟩

/-! ### The table after `handleFailure` -/

/-- The table after a `NotificationProcessor.handleFailure` call: as before when it
throws; with the failure record added, or with the failure fields of the rows of the
message rewritten, when it resolves. -/
theorem handleFailure_rows (P : NotificationProcessor) (m : MessageData) (err : JsError)
    (n : Nat) (w : World) :
    ((∃ e, (P.handleFailure m err n w).1 = .error e) ∧
      (P.handleFailure m err n w).2.rows = w.rows) ∨
    ((∃ r, (P.handleFailure m err n w).1 = .ok r) ∧ w.recordsFor m.messageId = [] ∧
      (P.handleFailure m err n w).2.rows =
        w.rows ++
          [{ id := w.nextId, userId := m.targetUserId, type := m.type,
             payload := m.payload.stringify, messageId := m.messageId,
             status := if n < P.maxRetries then "pending" else "failed",
             retriesAttempted := n + 1, errorMessage := some err.message,
             createdAt := some (w.now + 1), processedAt := none }]) ∨
    ((∃ r, (P.handleFailure m err n w).1 = .ok r) ∧
      ∃ row0 rest, w.recordsFor m.messageId = row0 :: rest ∧
        (P.handleFailure m err n w).2.rows =
          w.rows.map (fun r =>
            if r.messageId = m.messageId then
              { r with retriesAttempted := row0.retriesAttempted + 1,
                       status := if n < P.maxRetries then "pending" else "failed",
                       errorMessage := some err.message }
            else r)) := by
  rcases handleFailure_spec P m err n w with ⟨e, -, h⟩ | ⟨-, qs, -, hc⟩
  · left; rw [h]; exact ⟨⟨e, rfl⟩, rfl⟩
  · rcases hc with ⟨he, hr, -⟩ | ⟨he, hR, -, hr⟩ | ⟨he, row0, rest, hR, -, hr⟩
    · exact Or.inl ⟨he, hr⟩
    · exact Or.inr (Or.inl ⟨⟨_, he⟩, hR, hr⟩)
    · exact Or.inr (Or.inr ⟨⟨_, he⟩, row0, rest, hR, hr⟩)

theorem filter_messageId_map_failure_other (rows : List NotificationRecord)
    (mid other : String) (hne : other ≠ mid) (k : Nat) (st : String) (em : Option String) :
    (rows.map (fun r => if r.messageId = other then
        { r with retriesAttempted := k, status := st, errorMessage := em } else r)).filter
        (fun r => r.messageId = mid)
      = rows.filter (fun r => r.messageId = mid) := by
  induction rows with
  | nil => rfl
  | cons r rows ih =>
    by_cases ho : r.messageId = other
    · have hm : ¬ r.messageId = mid := fun h => hne (ho.symm.trans h)
      simp [List.filter_cons, ho, hne, ih, hm]
    · have hne' : ¬ mid = other := fun h => hne h.symm
      by_cases hm : r.messageId = mid <;> simp [List.filter_cons, ho, hm, ih, hne']

/-- One call of the processor never lowers `retriesAttempted` of the one record of a
message identifier, and a resolving `handleFailure` for that identifier raises it by
one. -/
theorem ProcessorCall.run_retries (P : NotificationProcessor) (call : ProcessorCall)
    (w : World) (mid : String) (r : NotificationRecord) (hone : w.recordsFor mid = [r]) :
    ∃ r', (call.run P w).2.recordsFor mid = [r'] ∧
      r.retriesAttempted ≤ r'.retriesAttempted ∧
      (∀ m e n, call = .handleFailure m e n → m.messageId = mid →
        (call.run P w).1 = true → r'.retriesAttempted = r.retriesAttempted + 1) := by
  have hone' := hone
  unfold World.recordsFor at hone'
  cases call with
  | processNotification m =>
    have hrun : (ProcessorCall.run P (.processNotification m) w).2 =
        (P.processNotification m w).2 := by
      rcases hres : P.processNotification m w with ⟨res, w'⟩
      cases res <;> simp [ProcessorCall.run, hres]
    rw [hrun]
    rcases processNotification_rows P m w with h | ⟨-, hR, h⟩
    · refine ⟨r, ?_, Nat.le_refl _, ?_⟩
      · unfold World.recordsFor; rw [h]; exact hone'
      · intro m' e n hcall; cases hcall
    · have hne : ¬ m.messageId = mid := by
        intro heq
        rw [heq, hone] at hR
        cases hR
      refine ⟨if r.id = w.nextId then { r with processedAt := some (w.now + 1) } else r,
        ?_, ?_, ?_⟩
      · unfold World.recordsFor
        rw [h, filter_messageId_map_processedAt, List.filter_append, hone']
        simp [hne]
      · split <;> exact Nat.le_refl _
      · intro m' e n hcall; cases hcall
  | handleFailure m err n =>
    have hrun : (ProcessorCall.run P (.handleFailure m err n) w) =
        ((match (P.handleFailure m err n w).1 with | .ok _ => true | .error _ => false),
         (P.handleFailure m err n w).2) := by
      rcases hres : P.handleFailure m err n w with ⟨res, w'⟩
      cases res <;> simp [ProcessorCall.run, hres]
    rw [hrun]
    dsimp only
    rcases handleFailure_rows P m err n w with ⟨⟨e, he⟩, h⟩ | ⟨-, hR, h⟩ |
        ⟨-, row0, rest, hR, h⟩
    · refine ⟨r, ?_, Nat.le_refl _, ?_⟩
      · unfold World.recordsFor; rw [h]; exact hone'
      · intro m' e' n' _ _ hok
        rw [he] at hok
        cases hok
    · have hne : ¬ m.messageId = mid := by
        intro heq
        rw [heq, hone] at hR
        cases hR
      refine ⟨r, ?_, Nat.le_refl _, ?_⟩
      · unfold World.recordsFor
        rw [h, List.filter_append, hone']
        simp [hne]
      · intro m' e' n' hcall hm' _
        cases hcall
        exact absurd hm' hne
    · by_cases hm : m.messageId = mid
      · rw [hm, hone] at hR
        cases hR
        refine ⟨{ r with retriesAttempted := r.retriesAttempted + 1,
                         status := if n < P.maxRetries then "pending" else "failed",
                         errorMessage := some err.message }, ?_, Nat.le_succ _, ?_⟩
        · unfold World.recordsFor
          rw [h, hm, filter_messageId_map_failure, hone']
          rfl
        · intro _ _ _ _ _ _
          rfl
      · refine ⟨r, ?_, Nat.le_refl _, ?_⟩
        · unfold World.recordsFor
          rw [h, filter_messageId_map_failure_other _ _ _ hm, hone']
        · intro m' e' n' hcall hm' _
          cases hcall
          exact absurd hm' hm

theorem ProcessorCall.runAll_retries (P : NotificationProcessor) (calls : List ProcessorCall)
    (mid : String) :
    ∀ (w : World) (r : NotificationRecord), w.recordsFor mid = [r] →
      ∃ r', (ProcessorCall.runAll P calls w).2.recordsFor mid = [r'] ∧
        r.retriesAttempted ≤ r'.retriesAttempted := by
  induction calls with
  | nil => intro w r h; exact ⟨r, h, Nat.le_refl _⟩
  | cons call calls ih =>
    intro w r h
    obtain ⟨r1, h1, hle1, -⟩ := ProcessorCall.run_retries P call w mid r h
    obtain ⟨r2, h2, hle2⟩ := ih _ r1 h1
    exact ⟨r2, h2, Nat.le_trans hle1 hle2⟩

/-- C16 (retries never decrease): for a message identifier with one record, no call of
the processor (`processNotification` or `handleFailure`, for any message, resolving or
throwing, under any script of store faults) and no sequence of such calls lowers
`retriesAttempted` of that record; the count is a natural number; and every resolving
`handleFailure` for that message identifier raises it by exactly one. -/
theorem retries_monotone (P : NotificationProcessor) (call : ProcessorCall)
    (calls : List ProcessorCall) (w : World) (mid : String) (r : NotificationRecord)
    (hone : w.recordsFor mid = [r]) :
    (∃ r', (call.run P w).2.recordsFor mid = [r'] ∧
      r.retriesAttempted ≤ r'.retriesAttempted ∧ 0 ≤ r'.retriesAttempted ∧
      (∀ m e n, call = .handleFailure m e n → m.messageId = mid →
        (call.run P w).1 = true → r'.retriesAttempted = r.retriesAttempted + 1)) ∧
    (∃ r', (ProcessorCall.runAll P calls w).2.recordsFor mid = [r'] ∧
      r.retriesAttempted ≤ r'.retriesAttempted) := by
  obtain ⟨r', h1, h2, h3⟩ := ProcessorCall.run_retries P call w mid r hone
  exact ⟨⟨r', h1, h2, Nat.zero_le _, h3⟩, ProcessorCall.runAll_retries P calls mid w r hone⟩

/-- A run of C16: a failure recorded on the processed record of scenario A raises its
count from 0 to 1, and further calls do not lower it. -/
theorem retries_monotone_witness :
    Sample.processedWorld.recordsFor "m1" =
      [{ id := 1, userId := "u1", type := "email", payload := "payload",
         messageId := "m1", status := "processed", retriesAttempted := 0,
         errorMessage := none, createdAt := some 101, processedAt := some 101 }] ∧
    ((ProcessorCall.run Sample.processor (.handleFailure Sample.m1 Sample.dbError 0)
        Sample.processedWorld).2.recordsFor "m1").map (fun r => r.retriesAttempted) = [1] ∧
    ((ProcessorCall.runAll Sample.processor Sample.calls
        Sample.processedWorld).2.recordsFor "m1").map (fun r => r.retriesAttempted) = [1] :=
  ⟨rfl,
   match (retries_monotone Sample.processor (.handleFailure Sample.m1 Sample.dbError 0)
      Sample.calls Sample.processedWorld "m1" _ rfl).1 with
   | ⟨_, h, _, _, hinc⟩ => by
       rw [h, List.map_singleton, hinc Sample.m1 Sample.dbError 0 rfl rfl (by decide)],
   by decide⟩

/-! ### `processedAt` and the status -/

theorem failureStatus_ne_processed (n k : Nat) :
    (if n < k then "pending" else "failed") ≠ "processed" := by
  split <;> decide

theorem ProcessorCall.run_processedHaveProcessedAt (P : NotificationProcessor)
    (call : ProcessorCall) (w : World) (h : w.ProcessedHaveProcessedAt) :
    (call.run P w).2.ProcessedHaveProcessedAt := by
  cases call with
  | processNotification m =>
    have hrun : (ProcessorCall.run P (.processNotification m) w).2 =
        (P.processNotification m w).2 := by
      rcases hres : P.processNotification m w with ⟨res, w'⟩
      cases res <;> simp [ProcessorCall.run, hres]
    rw [hrun]
    intro r hr hst
    rcases processNotification_rows P m w with hrows | ⟨-, -, hrows⟩
    · rw [hrows] at hr; exact h r hr hst
    · rw [hrows] at hr
      obtain ⟨r0, hr0, rfl⟩ := List.mem_map.1 hr
      by_cases hid : r0.id = w.nextId
      · simp [hid]
      · simp only [hid, if_false] at hst ⊢
        rcases List.mem_append.1 hr0 with h0 | h0
        · exact h r0 h0 hst
        · simp only [List.mem_singleton] at h0
          subst h0
          exact absurd rfl hid
  | handleFailure m err n =>
    have hrun : (ProcessorCall.run P (.handleFailure m err n) w).2 =
        (P.handleFailure m err n w).2 := by
      rcases hres : P.handleFailure m err n w with ⟨res, w'⟩
      cases res <;> simp [ProcessorCall.run, hres]
    rw [hrun]
    intro r hr hst
    rcases handleFailure_rows P m err n w with ⟨-, hrows⟩ | ⟨-, -, hrows⟩ |
        ⟨-, row0, rest, -, hrows⟩
    · rw [hrows] at hr; exact h r hr hst
    · rw [hrows] at hr
      rcases List.mem_append.1 hr with h0 | h0
      · exact h r h0 hst
      · simp only [List.mem_singleton] at h0
        subst h0
        exact absurd hst (failureStatus_ne_processed n P.maxRetries)
    · rw [hrows] at hr
      obtain ⟨r0, hr0, rfl⟩ := List.mem_map.1 hr
      by_cases hm : r0.messageId = m.messageId
      · simp only [hm, if_true] at hst
        exact absurd hst (failureStatus_ne_processed n P.maxRetries)
      · simp only [hm, if_false] at hst ⊢
        exact h r0 hr0 hst

theorem ProcessorCall.runAll_processedHaveProcessedAt (P : NotificationProcessor)
    (calls : List ProcessorCall) :
    ∀ w : World, w.ProcessedHaveProcessedAt →
      (ProcessorCall.runAll P calls w).2.ProcessedHaveProcessedAt := by
  induction calls with
  | nil => intro w h; exact h
  | cons call calls ih =>
    intro w h
    exact ih _ (ProcessorCall.run_processedHaveProcessedAt P call w h)

/-- C17, as stated, fails: from the empty table, `processNotification` for a message and
then `handleFailure` for the same message (a duplicate delivery that hit a store error)
leave a record with status "pending" whose `processedAt` is set. -/
theorem processed_at_iff_processed_counterexample :
    Sample.world.rows = [] ∧
    (ProcessorCall.runAll Sample.processor Sample.processedThenFailed Sample.world).1 =
      [true, true] ∧
    (ProcessorCall.runAll Sample.processor Sample.processedThenFailed
        Sample.world).2.rows.map (fun r => (r.messageId, r.status, r.processedAt)) =
      [("m1", "pending", some 101)] := by
  refine ⟨rfl, ?_, ?_⟩ <;> decide

/-- C17, amended (`processedAt` and the status): in every table reached from the empty
table by a sequence of `processNotification` and `handleFailure` calls, under any script
of store faults, every record with status "processed" has `processedAt` set; and
`handleFailure` never sets or clears `processedAt`: the values of `processedAt` down the
table are as before the call, with `none` added for the record it creates. -/
theorem processed_at_of_processed (P : NotificationProcessor) (calls : List ProcessorCall)
    (w : World) (hempty : w.rows = []) :
    (∀ r ∈ (ProcessorCall.runAll P calls w).2.rows,
      r.status = "processed" → r.processedAt ≠ none) ∧
    (∀ (m : MessageData) (err : JsError) (n : Nat) (w' : World),
      (P.handleFailure m err n w').2.rows.map (fun r => r.processedAt) =
        w'.rows.map (fun r => r.processedAt) ∨
      (P.handleFailure m err n w').2.rows.map (fun r => r.processedAt) =
        w'.rows.map (fun r => r.processedAt) ++ [none]) := by
  constructor
  · apply ProcessorCall.runAll_processedHaveProcessedAt P calls w
    intro r hr
    rw [hempty] at hr
    cases hr
  · intro m err n w'
    rcases handleFailure_rows P m err n w' with ⟨-, hrows⟩ | ⟨-, -, hrows⟩ |
        ⟨-, row0, rest, -, hrows⟩
    · left; rw [hrows]
    · right; rw [hrows]; simp
    · left
      rw [hrows, List.map_map]
      apply List.map_congr_left
      intro r _
      simp only [Function.comp]
      split <;> rfl

/-- A run of the amended C17: scenario A, then a failure recorded for the same message;
no record has status "processed" without `processedAt`. -/
theorem processed_at_of_processed_witness :
    Sample.world.rows = [] ∧
    ((ProcessorCall.runAll Sample.processor Sample.calls Sample.world).2.rows.filter
      (fun r => decide (r.status = "processed") && r.processedAt.isNone)) = [] :=
  ⟨rfl, by
    have h := (processed_at_of_processed Sample.processor Sample.calls Sample.world rfl).1
    rw [List.filter_eq_nil_iff]
    intro r hr hc
    simp only [Bool.and_eq_true, decide_eq_true_eq, Option.isNone_iff_eq_none] at hc
    exact h r hr hc.1 hc.2⟩

/-! ### The dead-letter message -/

/-- C18 (dead-letter envelope): for every message and error, under every script of
broker faults, `sendToDLQ` asserts the configured dead-letter queue and, when that
succeeds, sends to that queue, with the options `persistent: true` and
`contentType: "application/json"`, one message that carries `messageId`, `targetUserId`,
`type`, `payload` and `timestamp` of the inbound message unchanged, plus `failedAt`,
`error` (the message of the original error) and `reason` ("Max retries exceeded"); it
sends nothing else; the queue is `DLQ_NAME`, and "notifications_dlq" when that is not
set. -/
theorem dead_letter_envelope (C : NotificationConsumer) (m : MessageData) (err : JsError)
    (w : World) :
    (C.sendToDLQ m err w).2.trace =
      w.trace ++ [Event.assertQueue (NotificationConsumer.dlqName C.env)] ++
        (if w.nextMqFault = none then
          [Event.sendToQueue (NotificationConsumer.dlqName C.env)
            { messageId := m.messageId, targetUserId := m.targetUserId, type := m.type,
              payload := m.payload, timestamp := m.timestamp, failedAt := w.now,
              error := err.message, reason := "Max retries exceeded" }
            { persistent := true, contentType := "application/json" }]
         else []) ∧
    (C.env.DLQ_NAME = none → NotificationConsumer.dlqName C.env = "notifications_dlq") ∧
    (∀ s : String, C.env.DLQ_NAME = some s → s ≠ "" →
      NotificationConsumer.dlqName C.env = s) := by
  refine ⟨(sendToDLQ_effects C m err w).2.2.2, ?_, ?_⟩
  · intro h
    simp [NotificationConsumer.dlqName, h]
  · intro s h hs
    simp [NotificationConsumer.dlqName, h, hs]

/-- A run of C18 with the default environment and a healthy broker. -/
theorem dead_letter_envelope_witness :
    (Sample.consumer.sendToDLQ Sample.m2 Sample.dbError Sample.world).2.trace =
      [Event.assertQueue "notifications_dlq",
       Event.sendToQueue "notifications_dlq"
         { messageId := "m2", targetUserId := "u2", type := "sms",
           payload := .obj [("body", .str "y")], timestamp := "2024-01-01T00:00:01.000Z",
           failedAt := 100, error := "connection terminated",
           reason := "Max retries exceeded" }
         { persistent := true, contentType := "application/json" }] :=
  (dead_letter_envelope Sample.consumer Sample.m2 Sample.dbError Sample.world).1

/-! ### The order of events on a recorded failure -/

/-- The events of a `NotificationProcessor.handleFailure` call that resolves: checkout,
lookup, the statement that persists the failure, release. -/
theorem handleFailure_ok_trace (P : NotificationProcessor) (m : MessageData) (err : JsError)
    (n : Nat) (w : World) (r : FailureResult) (w2 : World)
    (h : P.handleFailure m err n w = (.ok r, w2)) :
    ∃ q : Sql, q.persistsFailure m.messageId = true ∧
      w2.trace = w.trace ++ [Event.connect, Event.query (.selectIdRetries m.messageId),
        Event.query q, Event.release] := by
  rcases handleFailure_spec P m err n w with ⟨e, -, h'⟩ | ⟨-, qs, hqs, hc⟩
  · rw [h] at h'; simp at h'
  · rw [h] at hqs hc
    dsimp only at hqs hc
    rcases hc with ⟨⟨e, he⟩, -⟩ | ⟨-, -, hpath, -⟩ | ⟨-, row0, rest, -, hpath, -⟩
    · cases he
    · refine ⟨.insertFailure m.targetUserId m.type m.payload.stringify m.messageId
        (if n < P.maxRetries then "pending" else "failed") (n + 1) err.message, ?_, ?_⟩
      · simp [Sql.persistsFailure]
      · rw [hqs, Client.release_play_trace, hpath]; simp
    · refine ⟨.updateFailure (row0.retriesAttempted + 1)
        (if n < P.maxRetries then "pending" else "failed") err.message m.messageId, ?_, ?_⟩
      · simp [Sql.persistsFailure]
      · rw [hqs, Client.release_play_trace, hpath]; simp

/-- C19 (ordering on a recorded failure): in every delivery on which `processNotification`
throws and `NotificationProcessor.handleFailure` resolves, the events after
`processNotification` are, in this order: the statements of `handleFailure`, ending with
the INSERT or UPDATE that persists the failure state and the release; then, when the
budget is exhausted (`shouldRetry = false`), the publish to the dead-letter queue
(`assertQueue`, and `sendToQueue` when the assertion succeeded); and last the transport
action on the original delivery (`nack` without requeue when the budget is exhausted,
`nack` with requeue otherwise). -/
theorem terminal_ordering (C : NotificationConsumer)
    (parse : String → Except JsError MessageData) (msg : Delivery) (m : MessageData)
    (w : World) (e : JsError) (w1 : World) (r : FailureResult) (w2 : World)
    (hparse : parse msg.content = .ok m)
    (hpn : C.notificationProcessor.processNotification m w = (.error e, w1))
    (hhf : C.notificationProcessor.handleFailure m e (w1.currentRetry m.messageId) w1 =
      (.ok r, w2)) :
    ∃ q : Sql, q.persistsFailure m.messageId = true ∧
      (r.shouldRetry = false →
        (C.onDelivery parse msg w).trace =
          w1.trace ++ [Event.connect, Event.query (.selectIdRetries m.messageId),
            Event.query q, Event.release] ++
          [Event.assertQueue (NotificationConsumer.dlqName C.env)] ++
          (if w2.nextMqFault = none then
            [Event.sendToQueue (NotificationConsumer.dlqName C.env)
              { messageId := m.messageId, targetUserId := m.targetUserId, type := m.type,
                payload := m.payload, timestamp := m.timestamp, failedAt := w2.now,
                error := e.message, reason := "Max retries exceeded" }
              { persistent := true, contentType := "application/json" }]
           else []) ++
          [Event.nack msg.deliveryTag false false]) ∧
      (r.shouldRetry = true →
        (C.onDelivery parse msg w).trace =
          w1.trace ++ [Event.connect, Event.query (.selectIdRetries m.messageId),
            Event.query q, Event.release] ++
          [Event.nack msg.deliveryTag false true]) := by
  obtain ⟨q, hq, htrace⟩ := handleFailure_ok_trace _ m e _ w1 r w2 hhf
  refine ⟨q, hq, ?_, ?_⟩
  · intro hr
    unfold World.currentRetry at hhf
    obtain ⟨hok, -, -, ht3⟩ := sendToDLQ_effects C m e w2
    rcases hdlq : C.sendToDLQ m e w2 with ⟨res3, w3⟩
    rw [hdlq] at hok ht3
    dsimp only at hok ht3
    subst hok
    have hv : C.processMessage m msg w =
        (.ok Verdict.deadLettered,
         { w3 with messageRetryMap := RetryMap.delete w3.messageRetryMap m.messageId }) := by
      unfold NotificationConsumer.processMessage NotificationConsumer.handleFailure
      simp [hpn, hhf, hr, hdlq, Verdict.deadLettered]
    unfold NotificationConsumer.onDelivery RabbitMQClient.consumeQueue.onMessage
    simp only [hparse, hv]
    simp [Verdict.deadLettered, Channel.nack, ht3, htrace]
  · intro hr
    unfold World.currentRetry at hhf
    unfold NotificationConsumer.onDelivery RabbitMQClient.consumeQueue.onMessage
      NotificationConsumer.processMessage NotificationConsumer.handleFailure
    simp [hparse, hpn, hhf, hr, Channel.nack, htrace]

/-- A run of C19 with a budget of 0: the INSERT of the failure record comes before the
publish, and the publish before the `nack`. -/
theorem terminal_ordering_witness :
    (Sample.consumer0.onDelivery Sample.parse Sample.delivery
        Sample.failingOnceWorld).trace.map
      (fun ev => (ev.isStore, ev.isPublish, ev.isReject)) =
      [(true, false, false), (true, false, false), (true, false, false),
       (true, false, false), (true, false, false), (true, false, false),
       (true, false, false), (true, false, false), (false, false, false),
       (false, true, false), (false, false, true)] :=
  match terminal_ordering Sample.consumer0 Sample.parse Sample.delivery Sample.m2
      Sample.failingOnceWorld Sample.dbError _ _ _ rfl rfl rfl with
  | ⟨_, _, h, _⟩ => by
    rw [h rfl]
    simp only [List.map_append, List.map_cons, List.map_nil]
    rfl

/-! ### The retry ledger -/

theorem RetryMap.find_map_other (k k' : String) (v : Nat) (hne : k' ≠ k) :
    ∀ mp : List (String × Nat),
      (mp.map (fun kv => if kv.1 = k then (k, v) else kv)).find? (fun kv => kv.1 = k') =
        mp.find? (fun kv => kv.1 = k') := by
  intro mp
  induction mp with
  | nil => rfl
  | cons kv mp ih =>
    rw [List.map_cons, List.find?_cons, List.find?_cons, ih]
    by_cases hk : kv.1 = k
    · have hk' : ¬ kv.1 = k' := fun h => hne (h.symm.trans hk)
      have hkk : ¬ k = k' := fun h => hne h.symm
      simp [hk, hk', hkk]
    · simp [hk]

theorem RetryMap.find_filter_other (k k' : String) (hne : k' ≠ k) :
    ∀ mp : List (String × Nat),
      (mp.filter (fun kv => ¬ kv.1 = k)).find? (fun kv => kv.1 = k') =
        mp.find? (fun kv => kv.1 = k') := by
  intro mp
  induction mp with
  | nil => rfl
  | cons kv mp ih =>
    by_cases hk : kv.1 = k
    · have hk' : decide (kv.1 = k') = false := by
        simpa using fun h : kv.1 = k' => hne (h.symm.trans hk)
      have hd : decide (¬ kv.1 = k) = false := by simp [hk]
      rw [List.filter_cons, hd]
      simp only [Bool.false_eq_true, if_false]
      rw [List.find?_cons, ih, hk']
    · have hd : decide (¬ kv.1 = k) = true := by simp [hk]
      rw [List.filter_cons, hd]
      simp only [if_true]
      rw [List.find?_cons, List.find?_cons, ih]

theorem RetryMap.get_set_other (mp : List (String × Nat)) (k k' : String) (v : Nat)
    (hne : k' ≠ k) : RetryMap.get (RetryMap.set mp k v) k' = RetryMap.get mp k' := by
  unfold RetryMap.get RetryMap.set
  split
  · rw [RetryMap.find_map_other k k' v hne]
  · have hkk : ¬ k = k' := fun h => hne h.symm
    simp [List.find?_append, hkk]

theorem RetryMap.get_delete_other (mp : List (String × Nat)) (k k' : String)
    (hne : k' ≠ k) : RetryMap.get (RetryMap.delete mp k) k' = RetryMap.get mp k' := by
  unfold RetryMap.get RetryMap.delete
  rw [RetryMap.find_filter_other k k' hne]

/-- The verdict of `processMessage` and what it does to the retry map. -/
theorem processMessage_retryMap (C : NotificationConsumer) (m : MessageData) (msg : Delivery)
    (w : World) :
    ((C.processMessage m msg w).1 = .ok Verdict.processed ∧
      (C.processMessage m msg w).2.messageRetryMap =
        RetryMap.delete w.messageRetryMap m.messageId) ∨
    ((C.processMessage m msg w).1 = .ok Verdict.requeued ∧
      (C.processMessage m msg w).2.messageRetryMap =
        RetryMap.set w.messageRetryMap m.messageId (w.currentRetry m.messageId + 1)) ∨
    ((C.processMessage m msg w).1 = .ok Verdict.deadLettered ∧
      (C.processMessage m msg w).2.messageRetryMap =
        RetryMap.delete w.messageRetryMap m.messageId) ∨
    ((C.processMessage m msg w).1 = .ok Verdict.critical ∧
      (C.processMessage m msg w).2.messageRetryMap = w.messageRetryMap) := by
  obtain ⟨hmap1, -, -⟩ := processNotification_effects C.notificationProcessor m w
  unfold NotificationConsumer.processMessage
  rcases hpn : C.notificationProcessor.processNotification m w with ⟨res, w1⟩
  rw [hpn] at hmap1
  dsimp only at hmap1
  cases res with
  | ok r =>
    left
    exact ⟨rfl, by simp [hmap1]⟩
  | error e =>
    right
    dsimp only
    unfold NotificationConsumer.handleFailure
    obtain ⟨hmap2, -, -⟩ := handleFailure_effects C.notificationProcessor m e
      ((RetryMap.get w1.messageRetryMap m.messageId).getD 0) w1
    rcases hhf : C.notificationProcessor.handleFailure m e
      ((RetryMap.get w1.messageRetryMap m.messageId).getD 0) w1 with ⟨res2, w2⟩
    rw [hhf] at hmap2
    dsimp only at hmap2
    simp only [hhf]
    cases res2 with
    | error e2 =>
      right; right
      exact ⟨rfl, by simp [hmap2, hmap1]⟩
    | ok r =>
      dsimp only
      by_cases hr : r.shouldRetry = true
      · rw [if_pos hr]
        left
        exact ⟨rfl, by simp [hmap2, hmap1, World.currentRetry]⟩
      · rw [if_neg hr]
        obtain ⟨hok, -, hmap3, -⟩ := sendToDLQ_effects C m e w2
        rcases hdlq : C.sendToDLQ m e w2 with ⟨res3, w3⟩
        rw [hdlq] at hok hmap3
        dsimp only at hok hmap3
        subst hok
        simp only [hdlq]
        right; left
        exact ⟨rfl, by simp [hmap3, hmap2, hmap1]⟩

/-- C20 (retry ledger): the count the consumer reads from its retry map is 0 for every
message identifier without entry (every identifier, for the empty map); a delivery
never changes the entry of another message identifier; a requeue verdict sets the entry
of the message to the count read plus one; and after a success verdict or a dead-letter
verdict the map has no entry for the message. -/
theorem retry_ledger (C : NotificationConsumer) (m : MessageData) (msg : Delivery)
    (w : World) :
    (∀ k : String, RetryMap.get w.messageRetryMap k = none → w.currentRetry k = 0) ∧
    (∀ k : String, RetryMap.get [] k = none) ∧
    (∀ k : String, k ≠ m.messageId →
      RetryMap.get (C.processMessage m msg w).2.messageRetryMap k =
        RetryMap.get w.messageRetryMap k) ∧
    (∀ v : Verdict, (C.processMessage m msg w).1 = .ok v → v.requeue = some true →
      RetryMap.get (C.processMessage m msg w).2.messageRetryMap m.messageId =
        some (w.currentRetry m.messageId + 1)) ∧
    (∀ v : Verdict, (C.processMessage m msg w).1 = .ok v →
      v = Verdict.processed ∨ v = Verdict.deadLettered →
      RetryMap.get (C.processMessage m msg w).2.messageRetryMap m.messageId = none) := by
  refine ⟨?_, fun _ => rfl, ?_, ?_, ?_⟩
  · intro k hk
    simp [World.currentRetry, hk]
  · intro k hk
    rcases processMessage_retryMap C m msg w with ⟨-, h⟩ | ⟨-, h⟩ | ⟨-, h⟩ | ⟨-, h⟩
    · rw [h, RetryMap.get_delete_other _ _ _ hk]
    · rw [h, RetryMap.get_set_other _ _ _ _ hk]
    · rw [h, RetryMap.get_delete_other _ _ _ hk]
    · rw [h]
  · intro v hv hreq
    rcases processMessage_retryMap C m msg w with ⟨h1, h⟩ | ⟨h1, h⟩ | ⟨h1, h⟩ | ⟨h1, h⟩
    · rw [h1] at hv; cases hv; cases hreq
    · rw [h, RetryMap.get_set_self]
    · rw [h1] at hv; cases hv; cases hreq
    · rw [h1] at hv; cases hv; cases hreq
  · intro v hv hterm
    rcases processMessage_retryMap C m msg w with ⟨h1, h⟩ | ⟨h1, h⟩ | ⟨h1, h⟩ | ⟨h1, h⟩
    · rw [h, RetryMap.get_delete_self]
    · rw [h1] at hv; cases hv
      rcases hterm with h2 | h2 <;> exact absurd h2 (by decide)
    · rw [h, RetryMap.get_delete_self]
    · rw [h1] at hv; cases hv
      rcases hterm with h2 | h2 <;> exact absurd h2 (by decide)

/-- A run of C20: the first failing delivery of the message of scenario C sets its entry
to 1; the fourth, dead-lettered, removes it. -/
theorem retry_ledger_witness :
    Sample.failingWorld.currentRetry "m2" = 0 ∧
    RetryMap.get (Sample.consumer.processMessage Sample.m2 Sample.delivery
      Sample.failingWorld).2.messageRetryMap Sample.m2.messageId = some 1 ∧
    RetryMap.get (Sample.consumer.deliveries Sample.m2 Sample.delivery 4
      Sample.failingWorld).2.messageRetryMap "m2" = none :=
  ⟨(retry_ledger Sample.consumer Sample.m2 Sample.delivery Sample.failingWorld).1 "m2" rfl,
   (retry_ledger Sample.consumer Sample.m2 Sample.delivery Sample.failingWorld).2.2.2.1
     Verdict.requeued rfl rfl,
   by decide⟩

/-! ## The controller: validation of the request body -/

/-- The three reads of the destructuring succeed on every body but `null`. -/
theorem Json.getProp_of_not_null (body : Json) (hbody : body.isNull = false) (key : String) :
    ∃ v, Json.getProp key body = .ok v := by
  cases body <;> simp [Json.getProp, Json.isNull] at hbody ⊢

/-- The controller on a body whose three reads are known: the two validation steps, then
the publisher. -/
theorem createNotification_of_props (C : NotificationController) (body : Json)
    (a b c : Option Json) (w : ApiWorld)
    (ha : Json.getProp "targetUserId" body = .ok a) (hb : Json.getProp "type" body = .ok b)
    (hc : Json.getProp "payload" body = .ok c) :
    C.createNotification { body := some body } w =
      if !Js.truthy a || !Js.truthy b || !Js.truthy c then (Response.missingFields, w)
      else if Js.typeof c != "object" || Js.isNull c then (Response.invalidPayload, w)
      else
        match C.notificationPublisher { targetUserId := a, type := b, payload := c } w with
        | (.ok result, w1) => (Response.accepted result, w1)
        | (.error _, w1) => (Response.internalError, w1) := by
  simp only [NotificationController.createNotification,
    NotificationController.createNotification.tryBlock, ha, hb, hc]
  by_cases h1 : (!Js.truthy a || !Js.truthy b || !Js.truthy c) = true
  · simp only [if_pos h1]
  · by_cases h2 : (Js.typeof c != "object" || Js.isNull c) = true
    · simp only [if_neg h1, if_pos h2]
    · simp only [if_neg h1, if_neg h2]
      rcases hp : C.notificationPublisher { targetUserId := a, type := b, payload := c } w
        with ⟨res, w1⟩
      cases res <;> rfl

/-- **C23** (request validation, missing fields).  For every request body (any JSON value
but `null`, which the strict body parser of the application does not let through) in which
`targetUserId`, `type` or `payload` is missing, and for every publisher, `createNotification` responds with status 400 and error "Bad Request", and
the world of the API process is what it was: the publisher was not called (a test double
would have recorded the call in the trace) and nothing was sent to the broker. -/
theorem missing_fields_rejected (C : NotificationController) (body : Json) (w : ApiWorld)
    (hbody : body.isNull = false)
    (hmissing : Json.getProp "targetUserId" body = .ok none ∨
      Json.getProp "type" body = .ok none ∨ Json.getProp "payload" body = .ok none) :
    C.createNotification { body := some body } w = (Response.missingFields, w) ∧
    (C.createNotification { body := some body } w).1.status = 400 ∧
    Json.getProp "error" (C.createNotification { body := some body } w).1.body =
      .ok (some (.str "Bad Request")) ∧
    (C.createNotification { body := some body } w).2.trace = w.trace := by
  obtain ⟨a, ha⟩ := Json.getProp_of_not_null body hbody "targetUserId"
  obtain ⟨b, hb⟩ := Json.getProp_of_not_null body hbody "type"
  obtain ⟨c, hc⟩ := Json.getProp_of_not_null body hbody "payload"
  have hfalsy : (!Js.truthy a || !Js.truthy b || !Js.truthy c) = true := by
    rcases hmissing with h | h | h
    · rw [ha] at h
      injection h with h
      subst h
      simp [Js.truthy]
    · rw [hb] at h
      injection h with h
      subst h
      simp [Js.truthy]
    · rw [hc] at h
      injection h with h
      subst h
      simp [Js.truthy]
  have hres : C.createNotification { body := some body } w = (Response.missingFields, w) := by
    rw [createNotification_of_props C body a b c w ha hb hc, if_pos hfalsy]
  rw [hres]
  exact ⟨rfl, rfl, rfl, rfl⟩

/-- Witness for **C23**: the body of the controller test, which has a `targetUserId` only;
the test double of the publisher is not called. -/
theorem missing_fields_rejected_witness :
    Sample.controller.createNotification
        { body := some (.obj [("targetUserId", .str "9fc81fdd-fc9c-49e3-9df1-a36df7e1ec5a")]) }
        Sample.apiWorld = (Response.missingFields, Sample.apiWorld) ∧
    (Sample.controller.createNotification
        { body := some (.obj [("targetUserId", .str "9fc81fdd-fc9c-49e3-9df1-a36df7e1ec5a")]) }
        Sample.apiWorld).2.trace = [] :=
  ⟨(missing_fields_rejected Sample.controller
      (.obj [("targetUserId", .str "9fc81fdd-fc9c-49e3-9df1-a36df7e1ec5a")]) Sample.apiWorld
      rfl (Or.inr (Or.inl rfl))).1,
   (missing_fields_rejected Sample.controller
      (.obj [("targetUserId", .str "9fc81fdd-fc9c-49e3-9df1-a36df7e1ec5a")]) Sample.apiWorld
      rfl (Or.inr (Or.inl rfl))).2.2.2⟩

/-- Counterexample to **C24** as stated.  A payload that is the empty string is not a
JSON object, and the response is 400 with the message of the missing fields, not
"Payload must be a JSON object"; a payload that is an array is not a JSON object either,
and the request is accepted: the publisher is called once and the response is 202. -/
theorem payload_shape_counterexample :
    (Sample.controller.createNotification
        { body := some (Sample.bodyWithPayload (.str "")) } Sample.apiWorld).1.status = 400 ∧
    Json.getProp "message" (Sample.controller.createNotification
        { body := some (Sample.bodyWithPayload (.str "")) } Sample.apiWorld).1.body =
      .ok (some (.str "Missing required fields: targetUserId, type, payload")) ∧
    (Sample.controller.createNotification
        { body := some (Sample.bodyWithPayload (.arr [.num 1])) } Sample.apiWorld).1.status
      = 202 ∧
    ((Sample.controller.createNotification
        { body := some (Sample.bodyWithPayload (.arr [.num 1])) } Sample.apiWorld).2.trace.countP
      ApiEvent.isPublish) = 1 :=
  ⟨rfl, rfl, rfl, rfl⟩

/-- **C24** (request validation, payload shape), amended.  For every request body (any JSON
value but `null`) whose payload is present and is neither an object nor an array (it is
`null`, a boolean, a number or a string), and for every publisher, `createNotification`
responds with status 400 and error "Bad Request" and leaves the world of the API process
as it was (the publisher is not called).  The message is "Payload must be a JSON object"
when `targetUserId`, `type` and the payload are all truthy, and the message of the missing
fields otherwise (a payload that is `null`, `false`, `0` or the empty string is falsy). -/
theorem payload_shape_rejected (C : NotificationController) (body p : Json)
    (a b : Option Json) (w : ApiWorld)
    (ha : Json.getProp "targetUserId" body = .ok a) (hb : Json.getProp "type" body = .ok b)
    (hc : Json.getProp "payload" body = .ok (some p))
    (hobj : p.isObject = false) (harr : p.isArray = false) :
    (C.createNotification { body := some body } w).1.status = 400 ∧
    Json.getProp "error" (C.createNotification { body := some body } w).1.body =
      .ok (some (.str "Bad Request")) ∧
    (C.createNotification { body := some body } w).2 = w ∧
    (Js.truthy a = true → Js.truthy b = true → Js.truthy (some p) = true →
      C.createNotification { body := some body } w = (Response.invalidPayload, w)) ∧
    (Js.truthy a = false ∨ Js.truthy b = false ∨ Js.truthy (some p) = false →
      C.createNotification { body := some body } w = (Response.missingFields, w)) := by
  have htype : (Js.typeof (some p) != "object" || Js.isNull (some p)) = true := by
    cases p <;> simp [Js.typeof, Js.isNull, Json.isObject, Json.isArray] at hobj harr ⊢
  have hres := createNotification_of_props C body a b (some p) w ha hb hc
  by_cases h1 : (!Js.truthy a || !Js.truthy b || !Js.truthy (some p)) = true
  · rw [if_pos h1] at hres
    rw [hres]
    refine ⟨rfl, rfl, rfl, ?_, fun _ => rfl⟩
    intro h2 h3 h4
    simp [h2, h3, h4] at h1
  · rw [if_neg h1, if_pos htype] at hres
    rw [hres]
    refine ⟨rfl, rfl, rfl, fun _ _ _ => rfl, ?_⟩
    intro h2
    exfalso
    apply h1
    rcases h2 with h | h | h <;> simp [h]

/-- Witness for **C24**: the payload of the controller test, the string "not-an-object". -/
theorem payload_shape_rejected_witness :
    Sample.controller.createNotification
        { body := some (Sample.bodyWithPayload (.str "not-an-object")) } Sample.apiWorld
      = (Response.invalidPayload, Sample.apiWorld) :=
  (payload_shape_rejected Sample.controller (Sample.bodyWithPayload (.str "not-an-object"))
      (.str "not-an-object") (some (.str "9fc81fdd-fc9c-49e3-9df1-a36df7e1ec5a"))
      (some (.str "email")) Sample.apiWorld rfl rfl rfl rfl rfl).2.2.2.1 rfl rfl rfl

/-- Counterexample to **C25** as stated.  A request with a `targetUserId`, a `type` and an
object payload whose `targetUserId` is the empty string is answered with status 400, and
the publisher is not called. -/
theorem accepted_request_counterexample :
    Sample.controller.createNotification
        { body := some (.obj [("targetUserId", .str ""), ("type", .str "email"),
                              ("payload", .obj [("subject", .str "Test")])]) }
        Sample.apiWorld = (Response.missingFields, Sample.apiWorld) ∧
    Response.missingFields.status = 400 ∧
    ((Sample.controller.createNotification
        { body := some (.obj [("targetUserId", .str ""), ("type", .str "email"),
                              ("payload", .obj [("subject", .str "Test")])]) }
        Sample.apiWorld).2.trace.countP ApiEvent.isPublish) = 0 :=
  ⟨rfl, rfl, rfl⟩

/-- **C25** (accepted request), amended.  For every request body whose `targetUserId` and
`type` are truthy (present and not `null`, `false`, `0` or the empty string) and whose
payload is an object, however deeply nested, `createNotification` is one call of the
publisher with exactly the three values of the body, the payload unchanged, on the world
as it was: the response is 202 with the `messageId` and the `status` of the publisher when
the call resolves, and 500 "Internal Server Error" when it throws.  A test double of the
publisher records exactly that one call. -/
theorem accepted_request (C : NotificationController) (body t ty : Json)
    (p : List (String × Json)) (w : ApiWorld)
    (ha : Json.getProp "targetUserId" body = .ok (some t)) (hta : Js.truthy (some t) = true)
    (hb : Json.getProp "type" body = .ok (some ty)) (htb : Js.truthy (some ty) = true)
    (hc : Json.getProp "payload" body = .ok (some (.obj p))) :
    (C.createNotification { body := some body } w =
      match C.notificationPublisher
          { targetUserId := some t, type := some ty, payload := some (.obj p) } w with
      | (.ok result, w1) => (Response.accepted result, w1)
      | (.error _, w1) => (Response.internalError, w1)) ∧
    (∀ result : PublishResult,
      (Response.accepted result).status = 202 ∧
      Json.getProp "messageId" (Response.accepted result).body
        = .ok (some (.str result.messageId)) ∧
      Json.getProp "status" (Response.accepted result).body
        = .ok (some (.str result.status))) ∧
    (Response.internalError.status = 500 ∧
      Json.getProp "error" Response.internalError.body
        = .ok (some (.str "Internal Server Error"))) ∧
    (∀ outcome : Except JsError PublishResult,
      ((NotificationController.mk (Mock.publisher outcome)).createNotification
          { body := some body } w).2.trace =
        w.trace ++ [ApiEvent.publish
          { targetUserId := some t, type := some ty, payload := some (.obj p) }]) := by
  have hgen : ∀ C : NotificationController,
      C.createNotification { body := some body } w =
      match C.notificationPublisher
          { targetUserId := some t, type := some ty, payload := some (.obj p) } w with
      | (.ok result, w1) => (Response.accepted result, w1)
      | (.error _, w1) => (Response.internalError, w1) := by
    intro C
    rw [createNotification_of_props C body (some t) (some ty) (some (.obj p)) w ha hb hc]
    have h1 : (!Js.truthy (some t) || !Js.truthy (some ty) ||
        !Js.truthy (some (Json.obj p))) = false := by
      rw [hta, htb]
      rfl
    have h2 : (Js.typeof (some (Json.obj p)) != "object" || Js.isNull (some (Json.obj p)))
        = false := by
      simp [Js.typeof, Js.isNull]
    simp only [h1, h2, Bool.false_eq_true, if_false]
  refine ⟨hgen C, fun result => ⟨rfl, rfl, rfl⟩, ⟨rfl, rfl⟩, ?_⟩
  intro outcome
  rw [hgen]
  cases outcome <;> rfl

/-- Witness for **C25**: the first controller test; the test double resolves with
`test-message-id`, the response is 202 and carries it. -/
theorem accepted_request_witness :
    Sample.controller.createNotification { body := some Sample.body } Sample.apiWorld =
      (Response.accepted Sample.publishResult,
       { Sample.apiWorld with trace := [ApiEvent.publish
          { targetUserId := some (.str "9fc81fdd-fc9c-49e3-9df1-a36df7e1ec5a"),
            type := some (.str "email"),
            payload := some (.obj [("subject", .str "Test"),
                                   ("message", .str "Test message")]) }] }) :=
  (accepted_request Sample.controller Sample.body
      (.str "9fc81fdd-fc9c-49e3-9df1-a36df7e1ec5a") (.str "email")
      [("subject", .str "Test"), ("message", .str "Test message")] Sample.apiWorld
      rfl rfl rfl rfl rfl).1

/-! ## The publisher -/

/-- **C26** (publisher).  For every notification, `publish` draws one identifier and,
when the broker does not throw, makes exactly two broker calls: the assertion of
`notifications_queue` and one `sendToQueue` to `notifications_queue` of the message made
of that identifier, the `targetUserId`, `type` and `payload` of the caller unchanged and
the reading of the clock; it resolves to that identifier with status "queued".  If the
assertion throws, nothing is sent, and if `sendToQueue` throws, that was the one send;
in both cases `publish` throws that same error and resolves to nothing. -/
theorem publish_contract (notificationData : NotificationData) (w : ApiWorld) :
    (∀ flag published : Bool, w.mqOutcomes.headD (.ok true) = .ok flag →
      w.mqOutcomes.tail.headD (.ok true) = .ok published →
      (NotificationPublisher.publish notificationData w).1 =
        .ok { messageId := w.uuidSource w.uuidCount, status := "queued" } ∧
      (NotificationPublisher.publish notificationData w).2.trace =
        w.trace ++ [ApiEvent.assertQueue "notifications_queue",
          ApiEvent.sendToQueue "notifications_queue"
            { messageId := w.uuidSource w.uuidCount,
              targetUserId := notificationData.targetUserId,
              type := notificationData.type, payload := notificationData.payload,
              timestamp := w.now }
            { persistent := true, contentType := "application/json" }] ∧
      ((NotificationPublisher.publish notificationData w).2.trace.countP ApiEvent.isSend =
        w.trace.countP ApiEvent.isSend + 1)) ∧
    (∀ e : JsError, w.mqOutcomes.headD (.ok true) = .error e →
      (NotificationPublisher.publish notificationData w).1 = .error e ∧
      (NotificationPublisher.publish notificationData w).2.trace =
        w.trace ++ [ApiEvent.assertQueue "notifications_queue"]) ∧
    (∀ (flag : Bool) (e : JsError), w.mqOutcomes.headD (.ok true) = .ok flag →
      w.mqOutcomes.tail.headD (.ok true) = .error e →
      (NotificationPublisher.publish notificationData w).1 = .error e ∧
      ((NotificationPublisher.publish notificationData w).2.trace.countP ApiEvent.isSend =
        w.trace.countP ApiEvent.isSend + 1)) := by
  refine ⟨?_, ?_, ?_⟩
  · intro flag published h1 h2
    simp only [NotificationPublisher.publish, ApiWorld.uuidv4,
      Api.RabbitMQClient.publishToQueue, Api.RabbitMQClient.assertQueue, Api.Channel.call, h1,
      h2]
    simp [List.countP_append, List.countP_cons, ApiEvent.isSend]
  · intro e h1
    simp only [NotificationPublisher.publish, ApiWorld.uuidv4,
      Api.RabbitMQClient.publishToQueue, Api.RabbitMQClient.assertQueue, Api.Channel.call, h1]
    simp
  · intro flag e h1 h2
    simp only [NotificationPublisher.publish, ApiWorld.uuidv4,
      Api.RabbitMQClient.publishToQueue, Api.RabbitMQClient.assertQueue, Api.Channel.call, h1,
      h2]
    simp [List.countP_append, List.countP_cons, ApiEvent.isSend]

/-- Witness for **C26**: the notification of the publisher test on a healthy broker, and
on a broker that rejects the assertion of the queue with "RabbitMQ connection failed". -/
theorem publish_contract_witness :
    (NotificationPublisher.publish
        { targetUserId := some (.str "9fc81fdd-fc9c-49e3-9df1-a36df7e1ec5a"),
          type := some (.str "email"),
          payload := some (.obj [("subject", .str "Test Email")]) } Sample.apiWorld).1 =
      .ok { messageId := "uuid-0", status := "queued" } ∧
    (NotificationPublisher.publish
        { targetUserId := some (.str "9fc81fdd-fc9c-49e3-9df1-a36df7e1ec5a"),
          type := some (.str "email"),
          payload := some (.obj [("subject", .str "Test Email")]) }
        Sample.apiWorldBrokerDown).1 =
      .error { message := "RabbitMQ connection failed", code := none } :=
  ⟨((publish_contract
      { targetUserId := some (.str "9fc81fdd-fc9c-49e3-9df1-a36df7e1ec5a"),
        type := some (.str "email"),
        payload := some (.obj [("subject", .str "Test Email")]) } Sample.apiWorld).1
      true true rfl rfl).1,
   ((publish_contract
      { targetUserId := some (.str "9fc81fdd-fc9c-49e3-9df1-a36df7e1ec5a"),
        type := some (.str "email"),
        payload := some (.obj [("subject", .str "Test Email")]) }
      Sample.apiWorldBrokerDown).2.1
      { message := "RabbitMQ connection failed", code := none } rfl).1⟩

/-! ### A dead-letter publish that fails -/

/-- **C27** (dead-letter publish failure).  Take a delivery on which `processNotification`
throws, `NotificationProcessor.handleFailure` resolves and the budget is exhausted.  If
the assertion of the dead-letter queue throws, or the assertion succeeds and `sendToQueue`
throws, then `sendToDLQ` resolves all the same (the error is swallowed), `processMessage`
resolves to the dead-letter verdict (`success = false`, `requeue = false`) and the retry
map has no entry for the message; the delivery is rejected without requeue, so the broker
removes it from the source queue.  No dead-letter message was emitted: in the first case
the events after the failure handling are the failed assertion and the `nack`, with no
`sendToQueue` at all, and in the second case the one `sendToQueue` is the call that
threw. -/
theorem dead_letter_publish_failure (C : NotificationConsumer)
    (parse : String → Except JsError MessageData) (msg : Delivery) (m : MessageData)
    (w : World) (e : JsError) (w1 : World) (r : FailureResult) (w2 : World)
    (hparse : parse msg.content = .ok m)
    (hpn : C.notificationProcessor.processNotification m w = (.error e, w1))
    (hhf : C.notificationProcessor.handleFailure m e (w1.currentRetry m.messageId) w1 =
      (.ok r, w2))
    (hr : r.shouldRetry = false) :
    (∀ e1 : JsError, Faults.next w2.mqFaults = some e1 →
      (RabbitMQClient.assertQueue (NotificationConsumer.dlqName C.env) w2).1 = .error e1 ∧
      (C.sendToDLQ m e w2).1 = .ok () ∧
      (C.processMessage m msg w).1 = .ok Verdict.deadLettered ∧
      RetryMap.get (C.processMessage m msg w).2.messageRetryMap m.messageId = none ∧
      (C.onDelivery parse msg w).trace =
        w2.trace ++ [Event.assertQueue (NotificationConsumer.dlqName C.env),
          Event.nack msg.deliveryTag false false]) ∧
    (∀ e2 : JsError, Faults.next w2.mqFaults = none →
      Faults.next w2.mqFaults.tail = some e2 →
      (RabbitMQClient.assertQueue (NotificationConsumer.dlqName C.env) w2).1 = .ok () ∧
      (Channel.sendToQueue (NotificationConsumer.dlqName C.env)
          { messageId := m.messageId, targetUserId := m.targetUserId, type := m.type,
            payload := m.payload, timestamp := m.timestamp, failedAt := w2.now,
            error := e.message, reason := "Max retries exceeded" }
          { persistent := true, contentType := "application/json" }
          (RabbitMQClient.assertQueue (NotificationConsumer.dlqName C.env) w2).2).1
        = .error e2 ∧
      (C.sendToDLQ m e w2).1 = .ok () ∧
      (C.processMessage m msg w).1 = .ok Verdict.deadLettered ∧
      RetryMap.get (C.processMessage m msg w).2.messageRetryMap m.messageId = none ∧
      (C.onDelivery parse msg w).trace =
        w2.trace ++ [Event.assertQueue (NotificationConsumer.dlqName C.env),
          Event.sendToQueue (NotificationConsumer.dlqName C.env)
            { messageId := m.messageId, targetUserId := m.targetUserId, type := m.type,
              payload := m.payload, timestamp := m.timestamp, failedAt := w2.now,
              error := e.message, reason := "Max retries exceeded" }
            { persistent := true, contentType := "application/json" },
          Event.nack msg.deliveryTag false false]) := by
  unfold World.currentRetry at hhf
  obtain ⟨hok, -, hmap, ht3⟩ := sendToDLQ_effects C m e w2
  have hv : C.processMessage m msg w =
      (.ok Verdict.deadLettered,
       { (C.sendToDLQ m e w2).2 with
         messageRetryMap := RetryMap.delete (C.sendToDLQ m e w2).2.messageRetryMap
           m.messageId }) := by
    rcases hdlq : C.sendToDLQ m e w2 with ⟨res3, w3⟩
    rw [hdlq] at hok
    dsimp only at hok
    subst hok
    unfold NotificationConsumer.processMessage NotificationConsumer.handleFailure
    simp [hpn, hhf, hr, hdlq, Verdict.deadLettered]
  have hget : RetryMap.get (C.processMessage m msg w).2.messageRetryMap m.messageId = none := by
    rw [hv]
    exact RetryMap.get_delete_self _ _
  have hdel : (C.onDelivery parse msg w).trace =
      (C.sendToDLQ m e w2).2.trace ++ [Event.nack msg.deliveryTag false false] := by
    unfold NotificationConsumer.onDelivery RabbitMQClient.consumeQueue.onMessage
    simp only [hparse, hv]
    simp [Verdict.deadLettered, Channel.nack]
  refine ⟨?_, ?_⟩
  · intro e1 h1
    have hn : w2.nextMqFault ≠ none := by
      unfold World.nextMqFault
      rw [h1]
      exact Option.some_ne_none e1
    refine ⟨?_, hok, by rw [hv], hget, ?_⟩
    · simp [RabbitMQClient.assertQueue, Channel.call, World.nextMqFault, h1]
    · rw [hdel, ht3, if_neg hn]
      simp
  · intro e2 h1 h2
    have hn : w2.nextMqFault = none := h1
    refine ⟨?_, ?_, hok, by rw [hv], hget, ?_⟩
    · simp [RabbitMQClient.assertQueue, Channel.call, World.nextMqFault, h1]
    · simp [RabbitMQClient.assertQueue, Channel.sendToQueue, Channel.call, World.nextMqFault,
        World.logMq, h1, h2]
    · rw [hdel, ht3, if_pos hn]
      simp

/-- Witness for **C27**: a budget of 0, BEGIN fails, the failure is recorded and the
assertion of the dead-letter queue is rejected: the delivery is rejected without requeue
and nothing was sent to the dead-letter queue.  The same with a broker that rejects the
publish: the verdict is the dead-letter verdict again. -/
theorem dead_letter_publish_failure_witness :
    ((Sample.consumer0.processMessage Sample.m2 Sample.delivery
        Sample.dlqAssertFailsWorld).1 = .ok Verdict.deadLettered ∧
     ((Sample.consumer0.onDelivery Sample.parse Sample.delivery
        Sample.dlqAssertFailsWorld).trace.countP Event.isPublish) = 0 ∧
     ((Sample.consumer0.onDelivery Sample.parse Sample.delivery
        Sample.dlqAssertFailsWorld).trace.getLast?) =
      some (Event.nack Sample.delivery.deliveryTag false false)) ∧
    ((Sample.consumer0.processMessage Sample.m2 Sample.delivery
        Sample.dlqSendFailsWorld).1 = .ok Verdict.deadLettered ∧
     ((Sample.consumer0.onDelivery Sample.parse Sample.delivery
        Sample.dlqSendFailsWorld).trace.getLast?) =
      some (Event.nack Sample.delivery.deliveryTag false false)) :=
  ⟨match (dead_letter_publish_failure Sample.consumer0 Sample.parse Sample.delivery Sample.m2
      Sample.dlqAssertFailsWorld Sample.dbError _ _ _ rfl rfl rfl rfl).1 Sample.mqError rfl with
    | ⟨_, _, hv, _, ht⟩ => ⟨hv, by rw [ht]; rfl, by rw [ht]; rfl⟩,
   match (dead_letter_publish_failure Sample.consumer0 Sample.parse Sample.delivery Sample.m2
      Sample.dlqSendFailsWorld Sample.dbError _ _ _ rfl rfl rfl rfl).2 Sample.mqError rfl rfl with
    | ⟨_, _, _, hv, _, ht⟩ => ⟨hv, by rw [ht]; rfl⟩⟩

/-! ### Three runs on which the code leaves its own stated intent -/

/-- **C28** (acked means processed) at the failing input: the consumer of the default
environment, an empty table, an empty retry map and a store on which BEGIN fails once.
The first delivery of the message "m2" fails and is requeued, the failure handling having
inserted a record with status "pending".  On the redelivery the lookup of
`processNotification` finds that record and reports a duplicate: `processMessage` resolves
to the success verdict and the delivery is acked, while the only record of "m2" has
status "pending" and no `processedAt`; the message was never processed. -/
theorem acked_pending_failing_input :
    (Sample.consumer.deliveries Sample.m2 Sample.delivery 2 Sample.failingOnceWorld).1 =
      [.ok Verdict.requeued, .ok Verdict.processed] ∧
    (Sample.consumer.deliveries Sample.m2 Sample.delivery 2 Sample.failingOnceWorld).2.rows.map
        (fun r => (r.messageId, r.status, r.processedAt)) = [("m2", "pending", none)] ∧
    (Sample.consumer.onDelivery Sample.parse Sample.delivery
        (Sample.consumer.onDelivery Sample.parse Sample.delivery
          Sample.failingOnceWorld)).trace.filter Event.isTransport =
      [Event.nack 7 false true, Event.ack 7] ∧
    (Sample.consumer.onDelivery Sample.parse Sample.delivery
        (Sample.consumer.onDelivery Sample.parse Sample.delivery
          Sample.failingOnceWorld)).rows.map
        (fun r => (r.messageId, r.status, r.processedAt)) = [("m2", "pending", none)] ∧
    Sample.failingOnceWorld.rows = [] ∧ Sample.failingOnceWorld.messageRetryMap = [] :=
  ⟨rfl, by decide, rfl, by decide, rfl, rfl⟩

/-- **C29** (reported count matches stored count) at the failing input: on an empty table
`handleFailure` is called twice for the message "m1" with the prior count 0 (the retry
map was cleared or lost in between).  Both calls resolve.  The first one inserts the record
with `retriesAttempted = 1` and returns `newRetryCount = 1`; the second one updates the
record to `retriesAttempted = 2` (the stored count plus one) and returns
`newRetryCount = 1` (the prior count plus one). -/
theorem reported_count_failing_input :
    (Sample.processor.handleFailure Sample.m1 Sample.dbError 0 Sample.world).1 =
      .ok { shouldRetry := true, newRetryCount := 1 } ∧
    ((Sample.processor.handleFailure Sample.m1 Sample.dbError 0 Sample.world).2.recordsFor
        "m1").map (fun r => r.retriesAttempted) = [1] ∧
    (Sample.processor.handleFailure Sample.m1 Sample.dbError 0
        (Sample.processor.handleFailure Sample.m1 Sample.dbError 0 Sample.world).2).1 =
      .ok { shouldRetry := true, newRetryCount := 1 } ∧
    ((Sample.processor.handleFailure Sample.m1 Sample.dbError 0
        (Sample.processor.handleFailure Sample.m1 Sample.dbError 0 Sample.world).2).2.recordsFor
        "m1").map (fun r => r.retriesAttempted) = [2] :=
  ⟨rfl, by decide, rfl, by decide⟩

/-- **C30** (ledger holds only in-flight messages) at the failing input: the consumer of
the default environment, an empty table, an empty retry map and a store that is down
from the second delivery on.  The first delivery of "m2" fails and is requeued, the retry
map holding the count 1.  On the second delivery `processNotification` throws and so does
`NotificationProcessor.handleFailure`: the verdict is the critical one
(`requeue = false`), and the retry map still holds the entry of "m2". -/
theorem ledger_leak_failing_input :
    (Sample.consumer.deliveries Sample.m2 Sample.delivery 2 Sample.outageWorld).1 =
      [.ok Verdict.requeued, .ok Verdict.critical] ∧
    Verdict.critical.requeue = some false ∧
    RetryMap.get
      (Sample.consumer.deliveries Sample.m2 Sample.delivery 2 Sample.outageWorld).2.messageRetryMap
      "m2" = some 1 ∧
    Sample.outageWorld.messageRetryMap = [] :=
  ⟨rfl, rfl, by decide, rfl⟩

/-! ### The payload on its way into the table -/

/-- Every statement of a `processNotification` call that inserts a record carries the
serialised payload of the message. -/
theorem processNotification_insertedPayload (P : NotificationProcessor) (m : MessageData)
    (w : World) :
    ∃ evs : List Event, (P.processNotification m w).2.trace = w.trace ++ evs ∧
      ∀ q : Sql, Event.query q ∈ evs → ∀ s : String, q.insertedPayload = some s →
        s = m.payload.stringify := by
  rcases processNotification_path P m w with ⟨e, -, h⟩ | ⟨-, qs, hqs, hc⟩
  · rw [h]
    refine ⟨[Event.connect], rfl, ?_⟩
    intro q hq
    simp at hq
  · rw [hqs, Client.release_play_trace]
    refine ⟨[Event.connect] ++ qs.map Event.query ++ [Event.release], by simp, ?_⟩
    intro q hq s hs
    have hmem : q ∈ qs := by
      simpa using hq
    have hall : ∀ q ∈ qs, ∀ s : String, q.insertedPayload = some s →
        m.payload.stringify = s := by
      rcases hc with ⟨-, h | h | ⟨-, h⟩ | ⟨-, h | h | h⟩⟩ | ⟨-, -, h⟩ | ⟨-, -, h⟩ <;>
        · subst h
          simp [Sql.insertedPayload]
    exact (hall q hmem s hs).symm

/-- Every statement of a `NotificationProcessor.handleFailure` call that inserts a record
carries the serialised payload of the message. -/
theorem handleFailure_insertedPayload (P : NotificationProcessor) (m : MessageData)
    (err : JsError) (n : Nat) (w : World) :
    ∃ evs : List Event, (P.handleFailure m err n w).2.trace = w.trace ++ evs ∧
      ∀ q : Sql, Event.query q ∈ evs → ∀ s : String, q.insertedPayload = some s →
        s = m.payload.stringify := by
  rcases handleFailure_spec P m err n w with ⟨e, -, h⟩ | ⟨-, qs, hqs, hc⟩
  · rw [h]
    refine ⟨[Event.connect], rfl, ?_⟩
    intro q hq
    simp at hq
  · rw [hqs, Client.release_play_trace]
    refine ⟨[Event.connect] ++ qs.map Event.query ++ [Event.release], by simp, ?_⟩
    intro q hq s hs
    have hmem : q ∈ qs := by
      simpa using hq
    have hall : ∀ q ∈ qs, ∀ s : String, q.insertedPayload = some s →
        m.payload.stringify = s := by
      rcases hc with ⟨-, -, h | ⟨-, h⟩ | ⟨row0, rest, -, h⟩⟩ | ⟨-, -, h, -⟩ |
          ⟨-, row0, rest, -, h, -⟩ <;>
        · subst h
          simp [Sql.insertedPayload]
    exact (hall q hmem s hs).symm
